import Mathlib

/-!
Shallow embedding of iran-proxy-unified: the health scorer, the ClientHello
fragmenter and the two config generators, followed by the theorems that
settle the claims made about them.

Conventions of the embedding.

* Go `int` and `int64` values are `Int`; where the source adds such values the
  two's-complement wraparound is written out with `wrapInt64`.
* Go `float64` values are elements of an arbitrary linearly ordered field `α`
  with a floor function (`ℚ` to compute, `ℝ` to reason): arithmetic is exact,
  there is no rounding, no infinity and no NaN.  `math.Sqrt` and `math.Exp`
  are passed in as the functions `sqrt` and `exp`.  A conversion `float64(n)`
  of an integer is the element `n` of the field; the code rounds an integer
  beyond `2^53` to the nearest double.  A statement that holds in exact
  arithmetic only says so in its doc comment.
* A method with a pointer receiver that mutates its receiver returns the new
  receiver next to its result.
* `time.Time` values are `Int` nanosecond counts.
* A byte is a `Nat`; a byte slice is a `List Nat`.
* Random draws come from a `RandomSource`, an arbitrary sequence of outcomes;
  a value that depends on none of them holds for every outcome.
-/

namespace IranProxy

/-! ## Machine arithmetic -/

/-- Two's-complement reduction of an integer to the `int64` range. -/
def wrapInt64 (x : Int) : Int := (x + 2 ^ 63) % 2 ^ 64 - 2 ^ 63

/-- Go conversion `int(x)` of a float: truncation toward zero. -/
def goInt {α : Type} [LinearOrderedField α] [FloorRing α] (x : α) : Int :=
  if 0 ≤ x then Int.floor x else Int.ceil x

/-- Go `math.Round`: nearest integer, halves away from zero. -/
def goRound {α : Type} [LinearOrderedField α] [FloorRing α] (x : α) : α :=
  if 0 ≤ x then ((Int.floor (x + 1 / 2) : Int) : α) else ((Int.ceil (x - 1 / 2) : Int) : α)

/-- Go `time.Time.Sub`: the difference in nanoseconds, saturated to the range of
`time.Duration`. -/
def timeSub (t u : Int) : Int :=
  if t - u > 2 ^ 63 - 1 then 2 ^ 63 - 1
  else if t - u < -(2 ^ 63) then -(2 ^ 63)
  else t - u

/-- Go `time.Duration.Seconds`. -/
def durationSeconds {α : Type} [LinearOrderedField α] (d : Int) : α :=
  (d : α) / 1000000000

/-! ## advanced_health_scoring.go -/

/-- Go struct `NetworkMetrics`. -/
structure NetworkMetrics (α : Type) where
  Latencies : List Int
  PacketLoss : α
  Jitter : α
  Throughput : α
  DNSResolutionTime : Int
  TCPHandshakeTime : Int
  TLSHandshakeTime : Int
  TTFBTime : Int
  Timestamps : List Int
  ErrorRate : α
  StabilityScore : α
  DPIFingerprint : String

/-- Go struct `EnhancedHealthScorer`; the fields `dpiEngine`, `historicalData`
and `maxHistorySize` are read by none of the methods embedded here. -/
structure EnhancedHealthScorer (α : Type) where
  metrics : NetworkMetrics α
  iranOptimized : Bool

section Scorer

variable {α : Type} [LinearOrderedField α] [FloorRing α]

/-- Go `NewEnhancedHealthScorer`: every field of the metrics has its zero value. -/
def NewEnhancedHealthScorer (iranOptimized : Bool) : EnhancedHealthScorer α :=
  { metrics :=
      { Latencies := [], PacketLoss := 0, Jitter := 0, Throughput := 0,
        DNSResolutionTime := 0, TCPHandshakeTime := 0, TLSHandshakeTime := 0,
        TTFBTime := 0, Timestamps := [], ErrorRate := 0, StabilityScore := 0,
        DPIFingerprint := "" },
    iranOptimized := iranOptimized }

/-- Go `RecordLatency`. -/
def EnhancedHealthScorer.RecordLatency (ehs : EnhancedHealthScorer α)
    (latency timestamp : Int) : EnhancedHealthScorer α :=
  { ehs with metrics :=
      { ehs.metrics with
        Latencies := ehs.metrics.Latencies ++ [latency],
        Timestamps := ehs.metrics.Timestamps ++ [timestamp] } }

/-- Go `RecordConnectionMetrics`. -/
def EnhancedHealthScorer.RecordConnectionMetrics (ehs : EnhancedHealthScorer α)
    (dnsTime tcpTime tlsTime ttfbTime : Int) : EnhancedHealthScorer α :=
  { ehs with metrics :=
      { ehs.metrics with
        DNSResolutionTime := dnsTime, TCPHandshakeTime := tcpTime,
        TLSHandshakeTime := tlsTime, TTFBTime := ttfbTime } }

/-- Go `RecordError`. -/
def EnhancedHealthScorer.RecordError (ehs : EnhancedHealthScorer α) :
    EnhancedHealthScorer α :=
  let totalAttempts : Int := (ehs.metrics.Latencies.length : Int) + 1
  let errors : Int := goInt (ehs.metrics.ErrorRate * ((totalAttempts - 1 : Int) : α))
  let errors : Int := errors + 1
  { ehs with metrics :=
      { ehs.metrics with ErrorRate := (errors : α) / (totalAttempts : α) } }

/-- Go `calculateMeanLatency`; the accumulator `sum` is an `int64`.  The quotient
`float64(sum) / float64(len)` is taken exactly, where the code rounds the
conversion of a sum beyond `2^53` and the quotient to the nearest double. -/
def EnhancedHealthScorer.calculateMeanLatency (ehs : EnhancedHealthScorer α) : α :=
  if ehs.metrics.Latencies.length = 0 then 0
  else
    let sum : Int :=
      ehs.metrics.Latencies.foldl (fun (sum lat : Int) => wrapInt64 (sum + lat)) 0
    (sum : α) / (ehs.metrics.Latencies.length : α)

/-- Go `CalculateJitter`: the result and the scorer with `Jitter` stored.  The
conversion `float64(latency)`, the squares, their sum and the quotient are taken
exactly, where the code rounds each of them to the nearest double. -/
def EnhancedHealthScorer.CalculateJitter (sqrt : α → α) (ehs : EnhancedHealthScorer α) :
    α × EnhancedHealthScorer α :=
  if ehs.metrics.Latencies.length < 2 then (0, ehs)
  else
    let mean := ehs.calculateMeanLatency
    let variance : α :=
      ehs.metrics.Latencies.foldl
        (fun (variance : α) (latency : Int) =>
          variance + ((latency : α) - mean) * ((latency : α) - mean)) 0
    let variance := variance / (ehs.metrics.Latencies.length : α)
    let stdDev := sqrt variance
    (stdDev, { ehs with metrics := { ehs.metrics with Jitter := stdDev } })

/-- Go `calculateConsistencyScore`. -/
def EnhancedHealthScorer.calculateConsistencyScore (ehs : EnhancedHealthScorer α) : α :=
  if ehs.metrics.Latencies.length < 3 then 50
  else
    let mean := ehs.calculateMeanLatency
    let stdDev := ehs.metrics.Jitter
    if mean = 0 then 0
    else
      let cv := stdDev / mean
      if cv > 1 then 0 else 100 * (1 - cv)

/-- Go `CalculateStabilityScore`: the result and the scorer with `Jitter` and
`StabilityScore` stored. -/
def EnhancedHealthScorer.CalculateStabilityScore (sqrt : α → α)
    (ehs : EnhancedHealthScorer α) : α × EnhancedHealthScorer α :=
  if ehs.metrics.Latencies.length < 3 then (50, ehs)
  else
    let (jitter, ehs) := ehs.CalculateJitter sqrt
    let mean := ehs.calculateMeanLatency
    let jitterScore : α :=
      if mean > 0 then
        let jitterRatio := jitter / mean
        if jitterRatio > 1 then 0 else 100 * (1 - jitterRatio)
      else 100
    let errorScore : α := 100 * (1 - ehs.metrics.ErrorRate)
    let consistencyScore := ehs.calculateConsistencyScore
    let stabilityScore := jitterScore * (4 / 10) + errorScore * (4 / 10) + consistencyScore * (2 / 10)
    (stabilityScore, { ehs with metrics := { ehs.metrics with StabilityScore := stabilityScore } })

/-- Go `calculateLatencyScore`. -/
def EnhancedHealthScorer.calculateLatencyScore (exp : α → α)
    (ehs : EnhancedHealthScorer α) : α :=
  let mean := ehs.calculateMeanLatency
  if mean < 50 then 100 else 100 * exp (-mean / 500)

/-- The inter-arrival times of `detectTimingBasedDPI`, in seconds. -/
def interArrivals : List Int → List α
  | [] => []
  | [_] => []
  | t0 :: t1 :: rest => durationSeconds (timeSub t1 t0) :: interArrivals (t1 :: rest)

/-- Go `detectTimingBasedDPI`. -/
def EnhancedHealthScorer.detectTimingBasedDPI (ehs : EnhancedHealthScorer α) : Bool :=
  if ehs.metrics.Timestamps.length < 5 then false
  else
    let intervals : List α := interArrivals ehs.metrics.Timestamps
    if intervals.length < 3 then false
    else
      let mean : α := intervals.foldl (fun (mean iv : α) => mean + iv) 0
      let mean := mean / (intervals.length : α)
      let variance : α :=
        intervals.foldl (fun (variance iv : α) => variance + (iv - mean) * (iv - mean)) 0
      let variance := variance / (intervals.length : α)
      if variance < 1 / 1000 ∧ mean > 1 / 10 then true else false

/-- Go `detectDPIPatterns`. -/
def EnhancedHealthScorer.detectDPIPatterns (ehs : EnhancedHealthScorer α) : Bool :=
  if ehs.metrics.Latencies.length < 5 then false
  else
    let mean := ehs.calculateMeanLatency
    if ehs.metrics.Latencies.any (fun (lat : Int) => decide ((lat : α) > mean * 3)) then true
    else
      let throttled : Bool :=
        if ehs.metrics.Latencies.length ≥ 10 then
          let slow : Nat :=
            (ehs.metrics.Latencies.filter
              (fun (lat : Int) => decide ((lat : α) > mean * (3 / 2)))).length
          let throttlingRatio : α := (slow : α) / (ehs.metrics.Latencies.length : α)
          decide (throttlingRatio > 3 / 10 ∧ throttlingRatio < 7 / 10)
        else false
      if throttled then true
      else if ehs.detectTimingBasedDPI then true
      else false

/-- Go `calculateDPIEvasionScore`: the score and the scorer with `DPIFingerprint`
possibly set. -/
def EnhancedHealthScorer.calculateDPIEvasionScore (ehs : EnhancedHealthScorer α) :
    α × EnhancedHealthScorer α :=
  let score : α := 100
  let score : α :=
    if ehs.metrics.TLSHandshakeTime > 0 then
      if ehs.metrics.TLSHandshakeTime > 3000 then score - 30
      else if ehs.metrics.TLSHandshakeTime > 1500 then score - 15
      else if ehs.metrics.TLSHandshakeTime > 1000 then score - 5
      else score
    else score
  let score : α := if ehs.metrics.StabilityScore > 80 then score + 10 else score
  let mean := ehs.calculateMeanLatency
  let score : α :=
    if mean > 0 ∧ ehs.metrics.Jitter > 0 then
      let jitterRatio := ehs.metrics.Jitter / mean
      if jitterRatio > 1 / 2 then score - 20 * jitterRatio else score
    else score
  let (score, ehs) : α × EnhancedHealthScorer α :=
    if ehs.detectDPIPatterns then
      (score - 25, { ehs with metrics := { ehs.metrics with DPIFingerprint := "suspected" } })
    else (score, ehs)
  let score : α := if score < 0 then 0 else score
  (score, ehs)

/-- Go `calculatePerformanceScore`. -/
def EnhancedHealthScorer.calculatePerformanceScore (ehs : EnhancedHealthScorer α) : α :=
  let score : α := 100
  let score : α :=
    if ehs.metrics.DNSResolutionTime > 500 then score - 15
    else if ehs.metrics.DNSResolutionTime > 200 then score - 5
    else score
  let score : α :=
    if ehs.metrics.TCPHandshakeTime > 1000 then score - 15
    else if ehs.metrics.TCPHandshakeTime > 500 then score - 5
    else score
  let score : α :=
    if ehs.metrics.TTFBTime > 2000 then score - 20
    else if ehs.metrics.TTFBTime > 1000 then score - 10
    else score
  if score < 0 then 0 else score

/-- Go `applyModifiers`. -/
def EnhancedHealthScorer.applyModifiers (ehs : EnhancedHealthScorer α) (baseScore : α) : α :=
  let score := baseScore
  let mean := ehs.calculateMeanLatency
  let score : α := if mean < 100 ∧ ehs.metrics.StabilityScore > 90 then score + 5 else score
  let score : α := if ehs.metrics.ErrorRate > 2 / 10 then score * (7 / 10) else score
  if ehs.iranOptimized then
    let score : α :=
      if ehs.metrics.DPIFingerprint = "" ∧ ehs.metrics.StabilityScore > 75 then score + 10
      else score
    let score : α :=
      if ehs.metrics.DPIFingerprint = "suspected" then score * (8 / 10) else score
    score
  else score

/-- Go `CalculateAdvancedHealthScore`: the integer score and the scorer as the
component computations leave it. -/
def EnhancedHealthScorer.CalculateAdvancedHealthScore (sqrt exp : α → α)
    (ehs : EnhancedHealthScorer α) : Int × EnhancedHealthScorer α :=
  if ehs.metrics.Latencies.length = 0 then (0, ehs)
  else
    let latencyScore := ehs.calculateLatencyScore exp
    let (stabilityScore, ehs) := ehs.CalculateStabilityScore sqrt
    let reliabilityScore : α := 100 * (1 - ehs.metrics.ErrorRate)
    let (dpiEvadScore, ehs) := ehs.calculateDPIEvasionScore
    let performanceScore := ehs.calculatePerformanceScore
    let wLatency : α := if ehs.iranOptimized then 20 / 100 else 25 / 100
    let wStability : α := if ehs.iranOptimized then 20 / 100 else 25 / 100
    let wReliability : α := 20 / 100
    let wDpiEvasion : α := if ehs.iranOptimized then 30 / 100 else 20 / 100
    let wPerformance : α := 10 / 100
    let finalScore : α :=
      latencyScore * wLatency + stabilityScore * wStability +
        reliabilityScore * wReliability + dpiEvadScore * wDpiEvasion +
        performanceScore * wPerformance
    let finalScore := ehs.applyModifiers finalScore
    let finalScore : α := if finalScore < 0 then 0 else finalScore
    let finalScore : α := if finalScore > 100 then 100 else finalScore
    (goInt (goRound finalScore), ehs)

/-- One call on a scorer, as a caller can issue it. -/
inductive ScorerCall where
  | recordLatency (latency timestamp : Int)
  | recordConnectionMetrics (dnsTime tcpTime tlsTime ttfbTime : Int)
  | recordError
  | calculateJitter
  | calculateStabilityScore
  | calculateAdvancedHealthScore

/-- The scorer after one call. -/
def EnhancedHealthScorer.step (sqrt exp : α → α) (ehs : EnhancedHealthScorer α) :
    ScorerCall → EnhancedHealthScorer α
  | .recordLatency latency timestamp => ehs.RecordLatency latency timestamp
  | .recordConnectionMetrics d t l f => ehs.RecordConnectionMetrics d t l f
  | .recordError => ehs.RecordError
  | .calculateJitter => (ehs.CalculateJitter sqrt).2
  | .calculateStabilityScore => (ehs.CalculateStabilityScore sqrt).2
  | .calculateAdvancedHealthScore => (ehs.CalculateAdvancedHealthScore sqrt exp).2

/-- The scorer after a sequence of calls, oldest first. -/
def EnhancedHealthScorer.run (sqrt exp : α → α) (ehs : EnhancedHealthScorer α)
    (calls : List ScorerCall) : EnhancedHealthScorer α :=
  calls.foldl (EnhancedHealthScorer.step sqrt exp) ehs

end Scorer

/-! ## sni_fragmentation.go -/

/-- Go struct `SNIFragmenter`; `delayBetween` is a `time.Duration` in nanoseconds. -/
structure SNIFragmenter where
  enabled : Bool
  fragmentSize : Int
  delayBetween : Int
  randomizeDelay : Bool
  adaptiveMode : Bool
  successHistory : List Bool
  deriving DecidableEq

/-- Go `NewSNIFragmenter`. -/
def NewSNIFragmenter : SNIFragmenter :=
  { enabled := true, fragmentSize := 5, delayBetween := 2 * 1000000,
    randomizeDelay := true, adaptiveMode := true, successHistory := [] }

/-- The embedded `net.Conn` as the wrapper sees it: the buffers handed to its
`Write` so far, oldest first, and the `(n, err)` with which it answers the
`k`-th `Write` (counting from 0) of a given buffer. -/
structure NetConn where
  writes : List (List Nat)
  answer : Nat → List Nat → Int × Option String

/-- One call of `Conn.Write` on the embedded connection. -/
def NetConn.Write (c : NetConn) (b : List Nat) : (Int × Option String) × NetConn :=
  (c.answer c.writes.length b, { c with writes := c.writes ++ [b] })

/-- Go struct `FragmentedConn`. -/
structure FragmentedConn where
  Conn : NetConn
  fragmenter : SNIFragmenter
  firstWrite : Bool
  fragmentsUsed : Int

/-- Go `NewFragmentedConn`. -/
def NewFragmentedConn (conn : NetConn) (fragmenter : SNIFragmenter) : FragmentedConn :=
  { Conn := conn, fragmenter := fragmenter, firstWrite := true, fragmentsUsed := 0 }

/-- Go `findSNIOffset`: the first index `i < len(data)-2` with
`data[i] = data[i+1] = 0` and `i+4 < len(data)`, or `-1`. -/
def findSNIOffset (data : List Nat) : Int :=
  if data.length < 40 then -1
  else
    match (List.range (data.length - 2)).find?
        (fun i => data.getD i 0 == 0 && data.getD (i + 1) 0 == 0 && decide (i + 4 < data.length)) with
    | some i => (i : Int)
    | none => -1

/-- The local variables of `fragmentAndWrite` that its loops update. -/
structure WriteState where
  conn : NetConn
  totalWritten : Int
  fragmentCount : Int

/-- How a loop of `fragmentAndWrite` ends: it runs to its end, or it returns
`(n, err)` from inside, or it never gets there (a slice expression panics, or
the loop makes no progress; the step budget `fuel` then runs out). -/
inductive LoopExit where
  | done (st : WriteState)
  | failed (n : Int) (err : String) (conn : NetConn)
  | stuck

/-- The loop `for i := 0; i < len(sniData); i += chunkSize` of `fragmentAndWrite`. -/
def sniChunkLoop (sniData : List Nat) (chunkSize : Int) : Nat → Int → WriteState → LoopExit
  | 0, _, _ => LoopExit.stuck
  | fuel + 1, i, st =>
    if i < sniData.length then
      let e : Int := if i + chunkSize > sniData.length then sniData.length else i + chunkSize
      if i < 0 ∨ e < i then LoopExit.stuck
      else
        let chunk := (sniData.take e.toNat).drop i.toNat
        match st.conn.Write chunk with
        | ((n, some err), conn) => LoopExit.failed (st.totalWritten + n) err conn
        | ((n, none), conn) =>
          sniChunkLoop sniData chunkSize fuel (i + chunkSize)
            { conn := conn, totalWritten := st.totalWritten + n,
              fragmentCount := st.fragmentCount + 1 }
    else LoopExit.done st

/-- The loop `for len(remaining) > 0` of `fragmentAndWrite`.  The product
`fragmentSize * 4` is taken without wraparound: the loop is entered only with
`fragmentSize < len(data)`, and no slice is `2^61` bytes long. -/
def remainderLoop (fragmentSize : Int) : Nat → List Nat → WriteState → LoopExit
  | 0, _, _ => LoopExit.stuck
  | fuel + 1, remaining, st =>
    if remaining.length > 0 then
      let chunkSize : Int := fragmentSize * 4
      let chunkSize : Int := if chunkSize > remaining.length then remaining.length else chunkSize
      if chunkSize < 0 then LoopExit.stuck
      else
        let chunk := remaining.take chunkSize.toNat
        match st.conn.Write chunk with
        | ((n, some err), conn) => LoopExit.failed (st.totalWritten + n) err conn
        | ((n, none), conn) =>
          remainderLoop fragmentSize fuel (remaining.drop chunkSize.toNat)
            { conn := conn, totalWritten := st.totalWritten + n,
              fragmentCount := st.fragmentCount + 1 }
    else LoopExit.done st

/-- Strategy 3 of `fragmentAndWrite` and its epilogue. -/
def FragmentedConn.writeRemainder (fc : FragmentedConn) (remaining : List Nat)
    (st : WriteState) : Option ((Int × Option String) × FragmentedConn) :=
  match remainderLoop fc.fragmenter.fragmentSize (remaining.length + 1) remaining st with
  | LoopExit.stuck => none
  | LoopExit.failed n err conn => some ((n, some err), { fc with Conn := conn })
  | LoopExit.done st =>
    some ((st.totalWritten, none),
      { fc with Conn := st.conn, fragmentsUsed := st.fragmentCount })

/-- Strategy 2 of `fragmentAndWrite` and what follows it. -/
def FragmentedConn.writePayload (fc : FragmentedConn) (remaining : List Nat)
    (st : WriteState) : Option ((Int × Option String) × FragmentedConn) :=
  let sniOffset := findSNIOffset remaining
  if sniOffset > 0 ∧ sniOffset < (remaining.length : Int) - 10 then
    match st.conn.Write (remaining.take sniOffset.toNat) with
    | ((n, some err), conn) => some ((st.totalWritten + n, some err), { fc with Conn := conn })
    | ((n, none), conn) =>
      let st : WriteState :=
        { conn := conn, totalWritten := st.totalWritten + n,
          fragmentCount := st.fragmentCount + 1 }
      let remaining := remaining.drop sniOffset.toNat
      let sniLength : Nat := if 30 > remaining.length then remaining.length else 30
      let sniData := remaining.take sniLength
      let chunkSize : Int := 3 + Int.tmod st.fragmentCount 3
      match sniChunkLoop sniData chunkSize (sniData.length + 1) 0 st with
      | LoopExit.stuck => none
      | LoopExit.failed n err conn => some ((n, some err), { fc with Conn := conn })
      | LoopExit.done st => fc.writeRemainder (remaining.drop sniLength) st
  else fc.writeRemainder remaining st

/-- Go `fragmentAndWrite`; `none` when the call does not return.  The sleeps
between writes have no effect on what is written and are left out. -/
def FragmentedConn.fragmentAndWrite (fc : FragmentedConn) (data : List Nat) :
    Option ((Int × Option String) × FragmentedConn) :=
  if (data.length : Int) ≤ fc.fragmenter.fragmentSize then
    match fc.Conn.Write data with
    | (r, conn) => some (r, { fc with Conn := conn })
  else if data.length > 5 then
    match fc.Conn.Write (data.take 5) with
    | ((n, some err), conn) => some ((n, some err), { fc with Conn := conn })
    | ((n, none), conn) =>
      fc.writePayload (data.drop 5) { conn := conn, totalWritten := 0 + n, fragmentCount := 1 }
  else
    fc.writePayload data { conn := fc.Conn, totalWritten := 0, fragmentCount := 0 }

/-- Go `FragmentedConn.Write`. -/
def FragmentedConn.Write (fc : FragmentedConn) (b : List Nat) :
    Option ((Int × Option String) × FragmentedConn) :=
  if !fc.firstWrite || !fc.fragmenter.enabled then
    match fc.Conn.Write b with
    | (r, conn) => some (r, { fc with Conn := conn })
  else if b.length < 6 || b.getD 0 0 != 0x16 || b.getD 1 0 != 0x03 then
    match fc.Conn.Write b with
    | (r, conn) => some (r, { fc with Conn := conn })
  else
    FragmentedConn.fragmentAndWrite { fc with firstWrite := false } b

/-- A sequence of `Write` calls, oldest first; `none` if one of them does not return. -/
def FragmentedConn.writeAll (fc : FragmentedConn) : List (List Nat) → Option FragmentedConn
  | [] => some fc
  | b :: rest =>
    match fc.Write b with
    | none => none
    | some (_, fc) => fc.writeAll rest

/-- A connection on which every `Write` succeeds in full. -/
def reliableConn : NetConn :=
  { writes := [], answer := fun _ b => ((b.length : Int), none) }

/-- Go `time.Millisecond`, in nanoseconds. -/
def Millisecond : Int := 1000000

/-- Go `recordAttempt`; its argument `fragmentsUsed` is not read.  The success
rate is a quotient of two integers up to 20, compared with 0.5 and 0.85; it is
taken in `ℚ`. -/
def SNIFragmenter.recordAttempt (sf : SNIFragmenter) (success : Bool) (_fragmentsUsed : Int) :
    SNIFragmenter :=
  let sf := { sf with successHistory := sf.successHistory ++ [success] }
  let sf :=
    if sf.successHistory.length > 100 then { sf with successHistory := sf.successHistory.drop 1 }
    else sf
  if sf.adaptiveMode = true ∧ sf.successHistory.length ≥ 20 then
    let recentTotal : Nat := 20
    let recentSuccess : Nat :=
      ((sf.successHistory.drop (sf.successHistory.length - recentTotal)).filter
        (fun (s : Bool) => s)).length
    let successRate : ℚ := (recentSuccess : ℚ) / (recentTotal : ℚ)
    if successRate < 1 / 2 then
      let sf := if sf.fragmentSize > 3 then { sf with fragmentSize := sf.fragmentSize - 1 } else sf
      if sf.delayBetween < 10 * Millisecond then
        { sf with delayBetween := sf.delayBetween + Millisecond }
      else sf
    else if successRate > 85 / 100 then
      let sf := if sf.fragmentSize < 8 then { sf with fragmentSize := sf.fragmentSize + 1 } else sf
      if sf.delayBetween > Millisecond then
        { sf with delayBetween := sf.delayBetween - Millisecond }
      else sf
    else sf
  else sf

/-- Go struct `SNIFragmentDialer`; the fields `dialer` and `utlsDialer` are read
by none of the methods embedded here. -/
structure SNIFragmentDialer where
  fragmenter : SNIFragmenter
  deriving DecidableEq

/-- Go `NewSNIFragmentDialer`. -/
def NewSNIFragmentDialer : SNIFragmentDialer :=
  { fragmenter := NewSNIFragmenter }

/-- Go `SetFragmentSize`. -/
def SNIFragmentDialer.SetFragmentSize (sfd : SNIFragmentDialer) (size : Int) :
    SNIFragmentDialer :=
  if size ≥ 3 ∧ size ≤ 20 then { sfd with fragmenter := { sfd.fragmenter with fragmentSize := size } }
  else sfd

/-- Go `SetDelay`. -/
def SNIFragmentDialer.SetDelay (sfd : SNIFragmentDialer) (delay : Int) : SNIFragmentDialer :=
  if delay ≥ 0 ∧ delay ≤ 50 * Millisecond then
    { sfd with fragmenter := { sfd.fragmenter with delayBetween := delay } }
  else sfd

/-- Go `EnableAdaptive`. -/
def SNIFragmentDialer.EnableAdaptive (sfd : SNIFragmentDialer) : SNIFragmentDialer :=
  { sfd with fragmenter := { sfd.fragmenter with adaptiveMode := true } }

/-- One call that reaches the fragmenter of a dialer: a setter of the dialer, or
`recordAttempt` (through `RecordSuccess` of a connection that shares the
fragmenter). -/
inductive DialerCall where
  | setFragmentSize (size : Int)
  | setDelay (delay : Int)
  | enableAdaptive
  | recordAttempt (success : Bool) (fragmentsUsed : Int)

/-- The dialer after one call. -/
def SNIFragmentDialer.step (sfd : SNIFragmentDialer) : DialerCall → SNIFragmentDialer
  | .setFragmentSize size => sfd.SetFragmentSize size
  | .setDelay delay => sfd.SetDelay delay
  | .enableAdaptive => sfd.EnableAdaptive
  | .recordAttempt success fragmentsUsed =>
    { sfd with fragmenter := sfd.fragmenter.recordAttempt success fragmentsUsed }

/-- The dialer after a sequence of calls, oldest first. -/
def SNIFragmentDialer.run (sfd : SNIFragmentDialer) (calls : List DialerCall) :
    SNIFragmentDialer :=
  calls.foldl SNIFragmentDialer.step sfd

/-! ## protocols.go -/

abbrev ProtocolVMess : String := "vmess"
abbrev ProtocolVLESS : String := "vless"
abbrev ProtocolShadowsocks : String := "shadowsocks"
abbrev ProtocolTrojan : String := "trojan"

abbrev TransportTCP : String := "tcp"
abbrev TransportWebSocket : String := "ws"
abbrev TransportGRPC : String := "grpc"
abbrev TransportHTTP2 : String := "h2"
abbrev TransportQUIC : String := "quic"
abbrev TransportXHTTP : String := "xhttp"
abbrev TransportHTTPUpgrade : String := "httpupgrade"

abbrev SecurityNone : String := "none"
abbrev SecurityTLS : String := "tls"
abbrev SecurityXTLS : String := "xtls"
abbrev SecurityReality : String := "reality"

/-- Go `TLSFingerprints`. -/
def TLSFingerprints : List String :=
  ["chrome", "firefox", "safari", "ios", "android", "edge", "360", "qq", "random", "randomized"]

/-- Go `ShadowsocksCiphers`. -/
def ShadowsocksCiphers : List String :=
  ["chacha20-ietf-poly1305", "aes-256-gcm", "aes-128-gcm", "2022-blake3-aes-256-gcm",
    "2022-blake3-aes-128-gcm"]

/-- Go `IranOptimizedSNIs`. -/
def IranOptimizedSNIs : List String :=
  ["www.speedtest.net", "www.cloudflare.com", "discord.com", "www.google.com",
    "www.microsoft.com", "fast.com", "www.apple.com", "zula.ir", "www.visa.com", "laravel.com"]

/-- Go struct `Config`.  Left out are `AllowInsecure`, `Headers`, `ObfsPassword`,
`PaddingSize`, `FragmentationPoints`, `TimingDelay`, `Key` and `Remark`: the
generators only store drawn or derived values in them and no embedded function
reads them. -/
structure Config where
  Protocol : String := ""
  Address : String := ""
  Port : String := ""
  ID : String := ""
  Password : String := ""
  AlterID : Int := 0
  Security : String := ""
  Network : String := ""
  Flow : String := ""
  Encryption : String := ""
  Method : String := ""
  Path : String := ""
  Host : String := ""
  SNI : String := ""
  ServerName : String := ""
  ALPN : List String := []
  ServiceName : String := ""
  Mode : String := ""
  Fingerprint : String := ""
  PublicKey : String := ""
  ShortID : String := ""
  SpiderX : String := ""
  IranOptimized : Bool := false
  HealthScore : Int := 0
  DPIEvaded : Bool := false
  Obfs : String := ""
  Plugin : String := ""
  PluginOpts : String := ""
  CongestionControl : String := ""
  UDPRelayMode : String := ""
  ISP : String := ""
  Country : String := ""
  deriving DecidableEq

/-- Go `Config.GetIranOptimizedScore`. -/
def Config.GetIranOptimizedScore (c : Config) : Int :=
  let score : Int := 0
  let score : Int :=
    if c.Protocol = ProtocolVLESS then score + 30
    else if c.Protocol = ProtocolVMess then score + 25
    else if c.Protocol = ProtocolTrojan then score + 20
    else if c.Protocol = ProtocolShadowsocks then score + 15
    else score
  let score : Int :=
    if c.Network = TransportXHTTP then score + 25
    else if c.Network = TransportGRPC then score + 20
    else if c.Network = TransportWebSocket then score + 18
    else if c.Network = TransportHTTPUpgrade then score + 15
    else if c.Network = TransportHTTP2 then score + 12
    else if c.Network = TransportQUIC then score + 10
    else if c.Network = TransportTCP then score + 5
    else score
  let score : Int :=
    if c.Security = SecurityReality then score + 25
    else if c.Security = SecurityXTLS then score + 20
    else if c.Security = SecurityTLS then score + 15
    else if c.Security = SecurityNone then score + 0
    else score
  let score : Int :=
    if c.Fingerprint = "chrome" ∨ c.Fingerprint = "firefox" ∨ c.Fingerprint = "random" then
      score + 10
    else score
  let score : Int := if c.ALPN.length > 0 then score + 5 else score
  let score : Int := if c.Flow ≠ "" then score + 5 else score
  score

/-- Go struct `ProxyInfo`. -/
structure ProxyInfo where
  IP : String
  Port : String
  ISP : String
  CountryCode : String
  City : String
  Region : String
  ASN : String
  HealthScore : Int
  IranOptimized : Bool

/-- The outcomes of the random draws of one run, in the order they are made:
`intn k` is the raw number behind the `k`-th draw when that draw picks an index
(`rand.Intn(n)`, `randInt(n)` return it reduced modulo `n`), `text k` is its
result when it generates a string (UUID, password, key, fingerprint hash,
fronting domain, user agent). -/
structure RandomSource where
  intn : Nat → Nat
  text : Nat → String

/-- The element a draw with raw outcome `r` picks from a non-empty list: `xs[r mod len(xs)]`. -/
def pick (xs : List String) (r : Nat) : String := xs.getD (r % xs.length) ""

/-! ## config_generator.go -/

/-- Go struct `ConfigGenerator`; `draws` counts the random draws made so far
(`diversityMap` is never read). -/
structure ConfigGenerator where
  proxyInfo : ProxyInfo
  iranMode : Bool
  configs : List Config
  draws : Nat

/-- Go `NewConfigGenerator`. -/
def NewConfigGenerator (proxyInfo : ProxyInfo) (iranMode : Bool) : ConfigGenerator :=
  { proxyInfo := proxyInfo, iranMode := iranMode, configs := [], draws := 0 }

/-- A generated string (`GenerateUUID`, `GeneratePassword`, `GenerateShortID`). -/
def ConfigGenerator.drawText (src : RandomSource) (cg : ConfigGenerator) :
    String × ConfigGenerator :=
  (src.text cg.draws, { cg with draws := cg.draws + 1 })

/-- A string picked from `xs` with `rand.Intn(len(xs))`. -/
def ConfigGenerator.drawFrom (src : RandomSource) (cg : ConfigGenerator) (xs : List String) :
    String × ConfigGenerator :=
  (pick xs (src.intn cg.draws), { cg with draws := cg.draws + 1 })

/-- Go `ConfigGenerator.getRandomPath`. -/
def ConfigGenerator.getRandomPath (src : RandomSource) (cg : ConfigGenerator) :
    String × ConfigGenerator :=
  let paths := ["/", "/api", "/v2ray", "/vless", "/vmess", "/speedtest", "/graphql", "/ws",
    "/download", "/path", "/socket.io/", "/cdn-cgi/trace"]
  let paths :=
    if cg.iranMode then paths ++ ["/cloudflare", "/google", "/microsoft", "/apple", "/amazon"]
    else paths
  cg.drawFrom src paths

/-- Go `ConfigGenerator.getRandomSNI`. -/
def ConfigGenerator.getRandomSNI (src : RandomSource) (cg : ConfigGenerator) :
    String × ConfigGenerator :=
  if cg.iranMode then cg.drawFrom src IranOptimizedSNIs
  else cg.drawFrom src (IranOptimizedSNIs ++ ["www.yahoo.com", "www.github.com", "www.digitalocean.com"])

/-- Go `ConfigGenerator.getRandomFingerprint`. -/
def ConfigGenerator.getRandomFingerprint (src : RandomSource) (cg : ConfigGenerator) :
    String × ConfigGenerator :=
  if cg.iranMode then cg.drawFrom src ["chrome", "firefox", "random", "randomized"]
  else cg.drawFrom src TLSFingerprints

/-- Go `ConfigGenerator.getRandomServiceName`. -/
def ConfigGenerator.getRandomServiceName (src : RandomSource) (cg : ConfigGenerator) :
    String × ConfigGenerator :=
  cg.drawFrom src ["grpc", "GunService", "VMessGRPC", "VLESSGRPC", "TrojanGRPC",
    "CloudflareGRPC", "GoogleGRPC"]

/-- Go `ConfigGenerator.getRandomFlow`. -/
def ConfigGenerator.getRandomFlow (src : RandomSource) (cg : ConfigGenerator) :
    String × ConfigGenerator :=
  cg.drawFrom src ["xtls-rprx-vision", "xtls-rprx-direct"]

/-- The closing lines shared by the four `create…Config` functions: the score is
computed and stored, and `IranOptimized` is derived from it. -/
def Config.withIranScore (config : Config) : Config :=
  let config := { config with HealthScore := config.GetIranOptimizedScore }
  { config with IranOptimized := decide (config.HealthScore ≥ 70) }

/-- Go `createVMessConfig`. -/
def ConfigGenerator.createVMessConfig (src : RandomSource) (cg : ConfigGenerator)
    (uuid transport security : String) : Config × ConfigGenerator :=
  let config : Config :=
    { Protocol := ProtocolVMess, Address := cg.proxyInfo.IP, Port := cg.proxyInfo.Port,
      ID := uuid, AlterID := 0, Security := security, Network := transport,
      ISP := cg.proxyInfo.ISP, Country := cg.proxyInfo.CountryCode }
  let (config, cg) : Config × ConfigGenerator :=
    if transport = TransportWebSocket ∨ transport = TransportXHTTP then
      let (path, cg) := cg.getRandomPath src
      let (host, cg) := cg.getRandomSNI src
      ({ config with Path := path, Host := host }, cg)
    else if transport = TransportGRPC then
      let (service, cg) := cg.getRandomServiceName src
      ({ config with ServiceName := service, Mode := "multi" }, cg)
    else if transport = TransportHTTP2 then
      let (path, cg) := cg.getRandomPath src
      let (host, cg) := cg.getRandomSNI src
      ({ config with Path := path, Host := host }, cg)
    else (config, cg)
  let (config, cg) : Config × ConfigGenerator :=
    if security = SecurityTLS then
      let (sni, cg) := cg.getRandomSNI src
      let (fp, cg) := cg.getRandomFingerprint src
      ({ config with SNI := sni, Fingerprint := fp, ALPN := ["h2", "http/1.1"] }, cg)
    else (config, cg)
  (config.withIranScore, cg)

/-- Go `generateVMessConfigs`. -/
def ConfigGenerator.generateVMessConfigs (src : RandomSource) (cg : ConfigGenerator) :
    ConfigGenerator :=
  let (baseUUID, cg) := cg.drawText src
  let transports := [TransportWebSocket, TransportGRPC, TransportHTTP2]
  let transports := if cg.iranMode then [TransportXHTTP] ++ transports else transports
  transports.foldl
    (fun cg transport =>
      let (config, cg) := cg.createVMessConfig src baseUUID transport SecurityTLS
      let cg := { cg with configs := cg.configs ++ [config] }
      if !cg.iranMode || transport == TransportTCP then
        let (config, cg) := cg.createVMessConfig src baseUUID transport SecurityNone
        { cg with configs := cg.configs ++ [config] }
      else cg)
    cg

/-- Go `createVLESSConfig`. -/
def ConfigGenerator.createVLESSConfig (src : RandomSource) (cg : ConfigGenerator)
    (uuid transport security : String) : Config × ConfigGenerator :=
  let config : Config :=
    { Protocol := ProtocolVLESS, Address := cg.proxyInfo.IP, Port := cg.proxyInfo.Port,
      ID := uuid, Encryption := "none", Security := security, Network := transport,
      ISP := cg.proxyInfo.ISP, Country := cg.proxyInfo.CountryCode }
  let (config, cg) : Config × ConfigGenerator :=
    if transport = TransportWebSocket ∨ transport = TransportXHTTP ∨
        transport = TransportHTTPUpgrade then
      let (path, cg) := cg.getRandomPath src
      let (host, cg) := cg.getRandomSNI src
      ({ config with Path := path, Host := host }, cg)
    else if transport = TransportGRPC then
      let (service, cg) := cg.getRandomServiceName src
      ({ config with ServiceName := service, Mode := "multi" }, cg)
    else if transport = TransportHTTP2 then
      let (path, cg) := cg.getRandomPath src
      let (host, cg) := cg.getRandomSNI src
      ({ config with Path := path, Host := host }, cg)
    else (config, cg)
  let (config, cg) : Config × ConfigGenerator :=
    if security = SecurityTLS ∨ security = SecurityXTLS then
      let (sni, cg) := cg.getRandomSNI src
      let (fp, cg) := cg.getRandomFingerprint src
      let config := { config with SNI := sni, Fingerprint := fp, ALPN := ["h2", "http/1.1"] }
      if security = SecurityXTLS then
        let (flow, cg) := cg.getRandomFlow src
        ({ config with Flow := flow }, cg)
      else (config, cg)
    else if security = SecurityReality then
      let (sni, cg) := cg.getRandomSNI src
      let (fp, cg) := cg.getRandomFingerprint src
      let (publicKey, cg) := cg.drawText src
      let (shortID, cg) := cg.drawText src
      let (flow, cg) := cg.getRandomFlow src
      ({ config with SNI := sni, Fingerprint := fp, PublicKey := publicKey, ShortID := shortID,
                     SpiderX := "/", Flow := flow }, cg)
    else (config, cg)
  (config.withIranScore, cg)

/-- Go `generateVLESSConfigs`. -/
def ConfigGenerator.generateVLESSConfigs (src : RandomSource) (cg : ConfigGenerator) :
    ConfigGenerator :=
  let (baseUUID, cg) := cg.drawText src
  let transports := [TransportWebSocket, TransportGRPC, TransportHTTP2, TransportTCP]
  let transports :=
    if cg.iranMode then [TransportXHTTP, TransportHTTPUpgrade] ++ transports else transports
  let securities := [SecurityTLS, SecurityXTLS]
  let securities := if cg.iranMode then [SecurityReality] ++ securities else securities
  transports.foldl
    (fun cg transport =>
      let cg := securities.foldl
        (fun cg security =>
          if security == SecurityReality && transport != TransportTCP &&
              transport != TransportGRPC then cg
          else if security == SecurityXTLS && transport != TransportTCP then cg
          else
            let (config, cg) := cg.createVLESSConfig src baseUUID transport security
            { cg with configs := cg.configs ++ [config] })
        cg
      if transport == TransportWebSocket || transport == TransportHTTP2 then
        let (config, cg) := cg.createVLESSConfig src baseUUID transport SecurityNone
        { cg with configs := cg.configs ++ [config] }
      else cg)
    cg

/-- Go `createShadowsocksConfig`. -/
def ConfigGenerator.createShadowsocksConfig (cg : ConfigGenerator)
    (password cipher : String) : Config :=
  let config : Config :=
    { Protocol := ProtocolShadowsocks, Address := cg.proxyInfo.IP, Port := cg.proxyInfo.Port,
      Password := password, Method := cipher, Security := SecurityNone,
      Network := TransportTCP, ISP := cg.proxyInfo.ISP, Country := cg.proxyInfo.CountryCode }
  config.withIranScore

/-- Go `generateShadowsocksConfigs`. -/
def ConfigGenerator.generateShadowsocksConfigs (src : RandomSource) (cg : ConfigGenerator) :
    ConfigGenerator :=
  let (password, cg) := cg.drawText src
  let ciphers :=
    if cg.iranMode then ["chacha20-ietf-poly1305", "2022-blake3-aes-256-gcm", "aes-256-gcm"]
    else ShadowsocksCiphers
  ciphers.foldl
    (fun cg cipher =>
      { cg with configs := cg.configs ++ [cg.createShadowsocksConfig password cipher] })
    cg

/-- Go `createTrojanConfig`. -/
def ConfigGenerator.createTrojanConfig (src : RandomSource) (cg : ConfigGenerator)
    (password transport : String) : Config × ConfigGenerator :=
  let config : Config :=
    { Protocol := ProtocolTrojan, Address := cg.proxyInfo.IP, Port := cg.proxyInfo.Port,
      Password := password, Security := SecurityTLS, Network := transport,
      ISP := cg.proxyInfo.ISP, Country := cg.proxyInfo.CountryCode }
  let (config, cg) : Config × ConfigGenerator :=
    if transport = TransportWebSocket ∨ transport = TransportXHTTP then
      let (path, cg) := cg.getRandomPath src
      let (host, cg) := cg.getRandomSNI src
      ({ config with Path := path, Host := host }, cg)
    else if transport = TransportGRPC then
      let (service, cg) := cg.getRandomServiceName src
      ({ config with ServiceName := service, Mode := "multi" }, cg)
    else (config, cg)
  let (sni, cg) := cg.getRandomSNI src
  let (fp, cg) := cg.getRandomFingerprint src
  let config := { config with SNI := sni, Fingerprint := fp, ALPN := ["h2", "http/1.1"] }
  (config.withIranScore, cg)

/-- Go `generateTrojanConfigs`. -/
def ConfigGenerator.generateTrojanConfigs (src : RandomSource) (cg : ConfigGenerator) :
    ConfigGenerator :=
  let (password, cg) := cg.drawText src
  let transports := [TransportTCP, TransportWebSocket, TransportGRPC]
  let transports := if cg.iranMode then [TransportXHTTP] ++ transports else transports
  transports.foldl
    (fun cg transport =>
      let (config, cg) := cg.createTrojanConfig src password transport
      { cg with configs := cg.configs ++ [config] })
    cg

/-- Go `ConfigGenerator.GenerateAllConfigs`: the generator it leaves; the slice
it returns is `configs`. -/
def ConfigGenerator.GenerateAllConfigs (src : RandomSource) (cg : ConfigGenerator) :
    ConfigGenerator :=
  let cg := cg.generateVMessConfigs src
  let cg := cg.generateVLESSConfigs src
  let cg := cg.generateShadowsocksConfigs src
  let cg := cg.generateTrojanConfigs src
  cg

/-! ## config_generator_ai.go -/

/-- Go struct `AppConfig`, the fields the generator reads. -/
structure AppConfig where
  IranMode : Bool
  DPIEvasionLevel : String
  TestProtocols : List String
  Verbose : Bool

/-- Whether the character list `sub` is a prefix of `s`. -/
def startsWith : List Char → List Char → Bool
  | _, [] => true
  | [], _ :: _ => false
  | c :: s, d :: sub => c == d && startsWith s sub

/-- Whether the character list `sub` occurs in `s` as a contiguous block. -/
def containsChars : List Char → List Char → Bool
  | [], sub => sub.isEmpty
  | c :: s, sub => startsWith (c :: s) sub || containsChars s sub

/-- Go `strings.Contains(s, substr)`. -/
def stringsContains (s substr : String) : Bool := containsChars s.data substr.data

/-- Go struct `EnhancedConfigGenerator`; `draws` counts the random draws made so
far (those of the AI engine included; `diversityMap` is never read). -/
structure EnhancedConfigGenerator where
  proxyInfo : ProxyInfo
  config : AppConfig
  configs : List Config
  draws : Nat

/-- Go `NewEnhancedConfigGenerator`. -/
def NewEnhancedConfigGenerator (proxyInfo : ProxyInfo) (config : AppConfig) :
    EnhancedConfigGenerator :=
  { proxyInfo := proxyInfo, config := config, configs := [], draws := 0 }

/-- A generated string: `GenerateUUID`, `generateRandomPassword`,
`generatePublicKey`, `generateShortID`, and the engine results
`GenerateAdaptiveFingerprint()`, `GenerateDomainFronting()["front_domain"]`,
`GenerateTrafficMimicry(…)["user_agent"]`. -/
def EnhancedConfigGenerator.drawText (src : RandomSource) (cg : EnhancedConfigGenerator) :
    String × EnhancedConfigGenerator :=
  (src.text cg.draws, { cg with draws := cg.draws + 1 })

/-- A string picked from `xs` with `randInt(len(xs))`. -/
def EnhancedConfigGenerator.drawFrom (src : RandomSource) (cg : EnhancedConfigGenerator)
    (xs : List String) : String × EnhancedConfigGenerator :=
  (pick xs (src.intn cg.draws), { cg with draws := cg.draws + 1 })

/-- Go `getRandomPathAI`. -/
def EnhancedConfigGenerator.getRandomPathAI (src : RandomSource)
    (cg : EnhancedConfigGenerator) : String × EnhancedConfigGenerator :=
  cg.drawFrom src ["/api/v1/status", "/api/v2/health", "/health/check", "/status/live",
    "/metrics/prometheus", "/v1/graphql", "/api/data/fetch", "/cdn/assets/load"]

/-- Go `EnhancedConfigGenerator.getRandomServiceName`. -/
def EnhancedConfigGenerator.getRandomServiceName (src : RandomSource)
    (cg : EnhancedConfigGenerator) : String × EnhancedConfigGenerator :=
  cg.drawFrom src ["GunService", "TunService", "DataService", "StreamService", "ProxyService"]

/-- Go `EnhancedConfigGenerator.getRandomSNI`. -/
def EnhancedConfigGenerator.getRandomSNI (src : RandomSource)
    (cg : EnhancedConfigGenerator) : String × EnhancedConfigGenerator :=
  cg.drawFrom src ["www.google.com", "www.microsoft.com", "www.cloudflare.com", "www.bing.com",
    "www.apple.com", "cdn.cloudflare.com", "www.github.com"]

/-- Go `selectOptimalProtocols`. -/
def EnhancedConfigGenerator.selectOptimalProtocols (cg : EnhancedConfigGenerator) :
    List String :=
  let protocols : List String :=
    if cg.config.IranMode then
      if cg.config.DPIEvasionLevel = "maximum" then
        ["reality", "xhttp", "hysteria2", "tuic", "vless-xtls"]
      else if cg.config.DPIEvasionLevel = "aggressive" then
        ["reality", "xhttp", "vless-xtls", "vmess", "vless"]
      else ["vless-xtls", "vmess", "vless", "trojan"]
    else ["vmess", "vless", "trojan", "shadowsocks"]
  if cg.config.TestProtocols.length > 0 then
    let filtered :=
      protocols.filter
        (fun p => cg.config.TestProtocols.any (fun allowed => stringsContains p allowed))
    if filtered.length > 0 then filtered else protocols
  else protocols

/-- Go `generateRealityConfigs`. -/
def EnhancedConfigGenerator.generateRealityConfigs (src : RandomSource)
    (cg : EnhancedConfigGenerator) : EnhancedConfigGenerator :=
  let (uuid, cg) := cg.drawText src
  let (frontDomain, cg) := cg.drawText src
  let (fingerprint, cg) := cg.drawText src
  let (publicKey, cg) := cg.drawText src
  let (shortID, cg) := cg.drawText src
  let config : Config :=
    { Protocol := "vless", Address := cg.proxyInfo.IP, Port := cg.proxyInfo.Port, ID := uuid,
      Security := "reality", Network := "tcp", ISP := cg.proxyInfo.ISP,
      Country := cg.proxyInfo.CountryCode, Flow := "xtls-rprx-vision",
      Fingerprint := fingerprint, PublicKey := publicKey, ShortID := shortID,
      ServerName := frontDomain, SpiderX := "/", IranOptimized := true, DPIEvaded := true }
  { cg with configs := cg.configs ++ [config] }

/-- Go `generateXHTTPConfigs`. -/
def EnhancedConfigGenerator.generateXHTTPConfigs (src : RandomSource)
    (cg : EnhancedConfigGenerator) : EnhancedConfigGenerator :=
  let (uuid, cg) := cg.drawText src
  let (userAgent, cg) := cg.drawText src
  let config : Config :=
    { Protocol := "vmess", Address := cg.proxyInfo.IP, Port := cg.proxyInfo.Port, ID := uuid,
      Security := SecurityTLS, Network := "xhttp", ISP := cg.proxyInfo.ISP,
      Country := cg.proxyInfo.CountryCode, Path := "/api/v1/status", Host := userAgent,
      IranOptimized := true, DPIEvaded := true }
  { cg with configs := cg.configs ++ [config] }

/-- Go `generateHysteria2Configs`. -/
def EnhancedConfigGenerator.generateHysteria2Configs (src : RandomSource)
    (cg : EnhancedConfigGenerator) : EnhancedConfigGenerator :=
  let (password, cg) := cg.drawText src
  let (_obfsPassword, cg) := cg.drawText src
  let config : Config :=
    { Protocol := "hysteria2", Address := cg.proxyInfo.IP, Port := "443", ID := password,
      Security := "tls", Network := "quic", ISP := cg.proxyInfo.ISP,
      Country := cg.proxyInfo.CountryCode, Obfs := "salamander", SNI := "www.microsoft.com",
      ALPN := ["h3"], IranOptimized := true, DPIEvaded := true }
  { cg with configs := cg.configs ++ [config] }

/-- Go `generateTUICConfigs`. -/
def EnhancedConfigGenerator.generateTUICConfigs (src : RandomSource)
    (cg : EnhancedConfigGenerator) : EnhancedConfigGenerator :=
  let (uuid, cg) := cg.drawText src
  let (password, cg) := cg.drawText src
  let config : Config :=
    { Protocol := "tuic", Address := cg.proxyInfo.IP, Port := "443", ID := uuid,
      Password := password, Security := "tls", Network := "udp", ISP := cg.proxyInfo.ISP,
      Country := cg.proxyInfo.CountryCode, CongestionControl := "bbr",
      UDPRelayMode := "native", SNI := "cloudflare.com", ALPN := ["h3", "spdy/3.1"],
      IranOptimized := true, DPIEvaded := true }
  { cg with configs := cg.configs ++ [config] }

/-- Go `generateVLESSXTLSConfigs`. -/
def EnhancedConfigGenerator.generateVLESSXTLSConfigs (src : RandomSource)
    (cg : EnhancedConfigGenerator) : EnhancedConfigGenerator :=
  let (uuid, cg) := cg.drawText src
  let sni := "www.google.com"
  let (fingerprint, cg) := cg.drawText src
  let config : Config :=
    { Protocol := "vless", Address := cg.proxyInfo.IP, Port := cg.proxyInfo.Port, ID := uuid,
      Security := "xtls", Network := "tcp", ISP := cg.proxyInfo.ISP,
      Country := cg.proxyInfo.CountryCode, Flow := "xtls-rprx-vision", SNI := sni,
      Fingerprint := fingerprint, ALPN := ["h2", "http/1.1"], IranOptimized := true,
      DPIEvaded := true }
  { cg with configs := cg.configs ++ [config] }

/-- Go `createVMessConfigWithAI`. -/
def EnhancedConfigGenerator.createVMessConfigWithAI (src : RandomSource)
    (cg : EnhancedConfigGenerator) (uuid transport security : String) :
    Config × EnhancedConfigGenerator :=
  let (userAgent, cg) := cg.drawText src
  let config : Config :=
    { Protocol := ProtocolVMess, Address := cg.proxyInfo.IP, Port := cg.proxyInfo.Port,
      ID := uuid, AlterID := 0, Security := security, Network := transport,
      ISP := cg.proxyInfo.ISP, Country := cg.proxyInfo.CountryCode,
      IranOptimized := cg.config.IranMode }
  let (config, cg) : Config × EnhancedConfigGenerator :=
    if transport = TransportWebSocket ∨ transport = TransportXHTTP then
      let (path, cg) := cg.getRandomPathAI src
      let (_padding, cg) := cg.drawText src
      ({ config with Path := path, Host := userAgent }, cg)
    else if transport = TransportGRPC then
      let (service, cg) := cg.getRandomServiceName src
      ({ config with ServiceName := service, Mode := "multi" }, cg)
    else if transport = TransportHTTP2 then
      let (host, cg) := cg.getRandomSNI src
      ({ config with Host := host, Path := "/" }, cg)
    else if transport = TransportQUIC then
      let (_key, cg) := cg.drawText src
      ({ config with Host := "www.google.com", Security := "quic" }, cg)
    else (config, cg)
  if security = SecurityTLS then
    let (sni, cg) := cg.getRandomSNI src
    let (fp, cg) := cg.drawText src
    ({ config with SNI := sni, Fingerprint := fp, ALPN := ["h2", "http/1.1"] }, cg)
  else (config, cg)

/-- Go `generateVMessConfigsAI`. -/
def EnhancedConfigGenerator.generateVMessConfigsAI (src : RandomSource)
    (cg : EnhancedConfigGenerator) : EnhancedConfigGenerator :=
  let (baseUUID, cg) := cg.drawText src
  let transports := [TransportWebSocket, TransportGRPC, TransportHTTP2]
  let transports := if cg.config.IranMode then [TransportXHTTP] ++ transports else transports
  transports.foldl
    (fun cg transport =>
      let (_delay, cg) := cg.drawText src
      let (config, cg) := cg.createVMessConfigWithAI src baseUUID transport SecurityTLS
      let cg := { cg with configs := cg.configs ++ [config] }
      if !cg.config.IranMode && transport == TransportTCP then
        let (config, cg) := cg.createVMessConfigWithAI src baseUUID transport SecurityNone
        { cg with configs := cg.configs ++ [config] }
      else cg)
    cg

/-- Go `generateVLESSConfigsAI`. -/
def EnhancedConfigGenerator.generateVLESSConfigsAI (src : RandomSource)
    (cg : EnhancedConfigGenerator) : EnhancedConfigGenerator :=
  let (uuid, cg) := cg.drawText src
  [TransportWebSocket, TransportGRPC, TransportTCP].foldl
    (fun cg transport =>
      let (_delay, cg) := cg.drawText src
      let (fp, cg) := cg.drawText src
      let config : Config :=
        { Protocol := ProtocolVLESS, Address := cg.proxyInfo.IP, Port := cg.proxyInfo.Port,
          ID := uuid, Security := SecurityTLS, Network := transport, ISP := cg.proxyInfo.ISP,
          Country := cg.proxyInfo.CountryCode, Fingerprint := fp,
          IranOptimized := cg.config.IranMode }
      let (config, cg) : Config × EnhancedConfigGenerator :=
        if transport = TransportWebSocket then
          let (path, cg) := cg.getRandomPathAI src
          let (host, cg) := cg.getRandomSNI src
          ({ config with Path := path, Host := host }, cg)
        else if transport = TransportGRPC then
          let (service, cg) := cg.getRandomServiceName src
          ({ config with ServiceName := service }, cg)
        else if transport = TransportTCP then
          ({ config with Flow := "xtls-rprx-direct" }, cg)
        else (config, cg)
      let (sni, cg) := cg.getRandomSNI src
      let config := { config with SNI := sni }
      { cg with configs := cg.configs ++ [config] })
    cg

/-- Go `generateTrojanConfigsAI`. -/
def EnhancedConfigGenerator.generateTrojanConfigsAI (src : RandomSource)
    (cg : EnhancedConfigGenerator) : EnhancedConfigGenerator :=
  let (password, cg) := cg.drawText src
  [TransportWebSocket, TransportGRPC, TransportTCP].foldl
    (fun cg transport =>
      let (_delay, cg) := cg.drawText src
      let (_userAgent, cg) := cg.drawText src
      let (fp, cg) := cg.drawText src
      let config : Config :=
        { Protocol := ProtocolTrojan, Address := cg.proxyInfo.IP, Port := cg.proxyInfo.Port,
          Password := password, Security := SecurityTLS, Network := transport,
          ISP := cg.proxyInfo.ISP, Country := cg.proxyInfo.CountryCode, Fingerprint := fp,
          IranOptimized := cg.config.IranMode }
      let (config, cg) : Config × EnhancedConfigGenerator :=
        if transport = TransportWebSocket then
          let (path, cg) := cg.getRandomPathAI src
          ({ config with Path := path }, cg)
        else if transport = TransportGRPC then
          let (service, cg) := cg.getRandomServiceName src
          ({ config with ServiceName := service }, cg)
        else (config, cg)
      let (sni, cg) := cg.getRandomSNI src
      let config := { config with SNI := sni }
      { cg with configs := cg.configs ++ [config] })
    cg

/-- Go `generateShadowsocksConfigsAI`; the literal leaves `Security` unset. -/
def EnhancedConfigGenerator.generateShadowsocksConfigsAI (src : RandomSource)
    (cg : EnhancedConfigGenerator) : EnhancedConfigGenerator :=
  let (password, cg) := cg.drawText src
  ["chacha20-ietf-poly1305", "aes-256-gcm", "aes-128-gcm"].foldl
    (fun cg method =>
      let (_delay, cg) := cg.drawText src
      let config : Config :=
        { Protocol := ProtocolShadowsocks, Address := cg.proxyInfo.IP,
          Port := cg.proxyInfo.Port, Password := password, Method := method,
          Network := "tcp", ISP := cg.proxyInfo.ISP, Country := cg.proxyInfo.CountryCode,
          IranOptimized := false }
      let config : Config :=
        if cg.config.IranMode ∧ cg.config.DPIEvasionLevel ≠ "standard" then
          { config with Plugin := "obfs-local", PluginOpts := "obfs=tls;obfs-host=www.bing.com" }
        else config
      { cg with configs := cg.configs ++ [config] })
    cg

/-- The body of the loop of `applyAIOptimizations` on one config. -/
def EnhancedConfigGenerator.optimizeConfig (src : RandomSource) (draws : Nat)
    (config : Config) : Config × Nat :=
  let (config, draws) : Config × Nat :=
    if config.Fingerprint = "" ∧ config.Security = SecurityTLS then
      ({ config with Fingerprint := src.text draws }, draws + 1)
    else (config, draws)
  let config : Config :=
    if config.Security = "reality" ∨ config.Security = "xtls" ∨ config.Network = "xhttp" ∨
        config.Protocol = "hysteria2" then
      { config with DPIEvaded := true }
    else config
  (config, draws)

/-- Go `applyAIOptimizations`. -/
def EnhancedConfigGenerator.applyAIOptimizations (src : RandomSource)
    (cg : EnhancedConfigGenerator) : EnhancedConfigGenerator :=
  let r : List Config × Nat :=
    cg.configs.foldl
      (fun acc config =>
        let (config, draws) := EnhancedConfigGenerator.optimizeConfig src acc.2 config
        (acc.1 ++ [config], draws))
      ([], cg.draws)
  { cg with configs := r.1, draws := r.2 }

/-- The `switch protocol` of `GenerateAllConfigs`. -/
def EnhancedConfigGenerator.generateFor (src : RandomSource) (cg : EnhancedConfigGenerator)
    (protocol : String) : EnhancedConfigGenerator :=
  if protocol = "reality" then cg.generateRealityConfigs src
  else if protocol = "xhttp" then cg.generateXHTTPConfigs src
  else if protocol = "hysteria2" then cg.generateHysteria2Configs src
  else if protocol = "tuic" then cg.generateTUICConfigs src
  else if protocol = "vless-xtls" then cg.generateVLESSXTLSConfigs src
  else if protocol = "vmess" then cg.generateVMessConfigsAI src
  else if protocol = "vless" then cg.generateVLESSConfigsAI src
  else if protocol = "trojan" then cg.generateTrojanConfigsAI src
  else if protocol = "shadowsocks" then cg.generateShadowsocksConfigsAI src
  else cg

/-- Go `EnhancedConfigGenerator.GenerateAllConfigs`: the generator it leaves; the
slice it returns is `configs`. -/
def EnhancedConfigGenerator.GenerateAllConfigs (src : RandomSource)
    (cg : EnhancedConfigGenerator) : EnhancedConfigGenerator :=
  let protocols := cg.selectOptimalProtocols
  let cg := protocols.foldl (EnhancedConfigGenerator.generateFor src) cg
  cg.applyAIOptimizations src

/-- Go `parseProtocols` applied to the default of the `test-protocols` flag,
`"vmess,vless,trojan,shadowsocks"`. -/
def defaultTestProtocols : List String := ["vmess", "vless", "trojan", "shadowsocks"]

/-- The section 4.8 table of allowed (protocol, transport, security) triples. -/
def allowedTriple (protocol network security : String) : Bool :=
  (protocol == "vmess" && ["tcp", "ws", "grpc", "h2", "xhttp"].contains network &&
      ["none", "tls"].contains security) ||
  (protocol == "vless" &&
      ((["tcp", "ws", "grpc", "h2", "xhttp", "httpupgrade"].contains network &&
          ["none", "tls"].contains security) ||
        (security == "xtls" && network == "tcp") ||
        (security == "reality" && (network == "tcp" || network == "grpc")))) ||
  (protocol == "trojan" && ["tcp", "ws", "grpc", "xhttp"].contains network &&
      security == "tls") ||
  (protocol == "shadowsocks" && network == "tcp" && security == "none") ||
  (protocol == "hysteria2" && network == "quic" && security == "tls") ||
  (protocol == "tuic" && network == "udp" && security == "tls")

/-- A config whose triple is in the section 4.8 table. -/
def Config.allowed (c : Config) : Bool := allowedTriple c.Protocol c.Network c.Security

/-- An endpoint used to evaluate the generators. -/
def sampleProxy : ProxyInfo :=
  { IP := "1.2.3.4", Port := "443", ISP := "Cloudflare, Inc.", CountryCode := "US", City := "",
    Region := "", ASN := "", HealthScore := 0, IranOptimized := false }

/-- A run in which every index draw has raw outcome 0 and every generated string is `"r"`. -/
def sampleSource : RandomSource := { intn := fun _ => 0, text := fun _ => "r" }

/-- The first config of a list (the zero `Config` for the empty list). -/
def firstConfig (l : List Config) : Config := l.headD {}

/-! ## proxy_checker_iran.go, enhanced_proxy_checker.go -/

/-- Go constant `HealthScoreThreshold`. -/
def HealthScoreThreshold : Int := 70

/-- Go constant `IranOptimizedPort`. -/
def IranOptimizedPort : Int := 443

/-- Go variable `IranOptimizedISPs`. -/
def IranOptimizedISPs : List String :=
  ["Cloudflare", "Google", "Amazon", "Akamai", "Fastly", "Microsoft",
    "M247", "OVH", "Vultr", "GCore", "IONOS", "Hetzner", "DigitalOcean",
    "Contabo", "UpCloud", "Tencent", "Multacom", "Leaseweb", "Hostinger",
    "Scaleway", "netcup GmbH", "ByteDance", "RackSpace", "SiteGround",
    "Online Ltd", "Relink LTD", "PQ Hosting", "Gigahost AS", "White Label",
    "G-Core Labs", "3HCLOUD LLC", "HOSTKEY B.V", "3NT SOLUTION", "Zenlayer Inc",
    "RackNerd LLC", "Plant Holding", "WorkTitans", "IROKO Networks", "WorldStream",
    "Cluster", "Cogent Communications", "Metropolis networks inc",
    "Total Uptime Technologies", "NetLab", "Turunc", "HostPapa", "Ultahost",
    "DataCamp", "Bluehost", "Protilab", "DO Space", "The Empire", "The Constant Company"]

/-- Go `unicode.IsSpace`. -/
def unicodeIsSpace (c : Char) : Bool :=
  (9 ≤ c.toNat && c.toNat ≤ 13) || c.toNat == 0x20 || c.toNat == 0x85 || c.toNat == 0xA0 ||
    c.toNat == 0x1680 || (0x2000 ≤ c.toNat && c.toNat ≤ 0x200A) || c.toNat == 0x2028 ||
    c.toNat == 0x2029 || c.toNat == 0x202F || c.toNat == 0x205F || c.toNat == 0x3000

/-- Go `strings.TrimSpace`. -/
def stringsTrimSpace (s : String) : String :=
  String.mk ((s.data.dropWhile unicodeIsSpace).reverse.dropWhile unicodeIsSpace).reverse

/-- The pieces of a character list between the occurrences of `sep`. -/
def splitChars (sep : Char) : List Char → List (List Char)
  | [] => [[]]
  | c :: cs =>
    if c = sep then [] :: splitChars sep cs
    else
      match splitChars sep cs with
      | [] => [[c]]
      | p :: ps => (c :: p) :: ps

/-- Go `strings.Split(s, ",")`. -/
def stringsSplitComma (s : String) : List String :=
  (splitChars (Char.ofNat 0x2C) s.data).map String.mk

/-- Go `strings.HasPrefix`. -/
def stringsHasPrefix (s pre : String) : Bool := startsWith s.data pre.data

/-- Go `strings.ToLower` on a string without letters beyond ASCII. -/
def asciiToLower (s : String) : String := String.mk (s.data.map Char.toLower)

/-- Go struct `ProxyChecker`, the fields read by the methods embedded here. -/
structure ProxyChecker where
  maxConcurrent : Int
  iranMode : Bool

/-- The body of the ISP whitelist loop of `ReadProxyFile` and of
`EnhancedProxyChecker.CheckProxyAdvanced`; `toLower` stands for `strings.ToLower`. -/
def ispWhitelisted (toLower : String → String) (ispName : String) : Bool :=
  IranOptimizedISPs.any (fun goodISP => stringsContains (toLower ispName) (toLower goodISP))

/-- The body of the scanner loop of `ReadProxyFile`: the list `proxies` after the
text of one line; `toLower` stands for `strings.ToLower`. -/
def ProxyChecker.readProxyLine (pc : ProxyChecker) (toLower : String → String)
    (proxies : List String) (text : String) : List String :=
  let line := stringsTrimSpace text
  if line = "" ∨ stringsHasPrefix line "#" = true then proxies
  else
    let parts := stringsSplitComma line
    if parts.length < 2 then proxies
    else
      let port := stringsTrimSpace (parts.getD 1 "")
      let ispName := if parts.length ≥ 4 then stringsTrimSpace (parts.getD 3 "") else "Unknown"
      if pc.iranMode = true ∧ port ≠ toString IranOptimizedPort then proxies
      else if ispWhitelisted toLower ispName = true then proxies ++ [line]
      else proxies

/-- Go `ReadProxyFile` as a function of the lines the scanner yields. -/
def ProxyChecker.ReadProxyFile (pc : ProxyChecker) (toLower : String → String)
    (lines : List String) : List String :=
  lines.foldl (pc.readProxyLine toLower) []

/-- Go struct `AttemptResult`, the fields read here. -/
structure AttemptResult where
  Success : Bool
  Duration : Int

/-- Go struct `ProxyTestResult`, the fields that `CheckProxyAdvanced` reads. -/
structure ProxyTestResult (α : Type) where
  Attempts : List AttemptResult
  SuccessCount : Int
  SuccessRate : α
  HealthScore : Int

/-- Go struct `EnhancedProxyChecker`: the embedded `ProxyChecker`. -/
structure EnhancedProxyChecker where
  ProxyChecker : ProxyChecker

/-- Go `EnhancedProxyChecker.CheckProxyAdvanced`: the `ProxyInfo` of the result it
appends to `activeProxies`, or `none` when it records no active endpoint (it
returns early, or `testResult.Attempts[0]` panics).  The outcome of
`TestProxyAdvanced` is an input; `toLower` stands for `strings.ToLower`.
Statistics and console output are left out. -/
def EnhancedProxyChecker.CheckProxyAdvanced {α : Type} [LinearOrderedField α]
    (epc : EnhancedProxyChecker) (toLower : String → String) (proxyLine : String)
    (test : Except String (ProxyTestResult α)) : Option ProxyInfo :=
  let parts := stringsSplitComma proxyLine
  if parts.length < 2 then none
  else
    let ip := stringsTrimSpace (parts.getD 0 "")
    let port := stringsTrimSpace (parts.getD 1 "")
    let countryCode := if parts.length ≥ 3 then stringsTrimSpace (parts.getD 2 "") else "Unknown"
    let ispName := if parts.length ≥ 4 then stringsTrimSpace (parts.getD 3 "") else "Unknown"
    match test with
    | Except.error _ => none
    | Except.ok testResult =>
      if testResult.SuccessRate < 1 / 2 then none
      else
        let healthScore := testResult.HealthScore
        let dpiEvaded : Bool := decide (testResult.SuccessCount ≥ 3)
        let iranOptimized : Bool :=
          if epc.ProxyChecker.iranMode = true then
            let iranOptimized : Bool := ispWhitelisted toLower ispName
            if healthScore ≥ HealthScoreThreshold ∧ dpiEvaded = true then true else iranOptimized
          else false
        match testResult.Attempts with
        | [] => none
        | _ :: _ =>
          some
            { IP := ip, Port := port, ISP := ispName, CountryCode := countryCode, City := "",
              Region := "", ASN := "", HealthScore := healthScore,
              IranOptimized := iranOptimized }

/-! ## proxy_checker_iran.go: display helpers -/

/-- Go `strings.ReplaceAll(s, old, new)` for a pattern `old` of one character:
every occurrence of the character is replaced, the other characters are kept. -/
def stringsReplaceAllChar (s : String) (old : Char) (new : String) : String :=
  String.mk (s.data.flatMap (fun (c : Char) => if c = old then new.data else [c]))

/-- Go `encodeBadgeLabel`. -/
def encodeBadgeLabel (s : String) : String :=
  let s := stringsReplaceAllChar s (Char.ofNat 0x20) "%20"
  let s := stringsReplaceAllChar s (Char.ofNat 0x3A) "%3A"
  let s := stringsReplaceAllChar s (Char.ofNat 0x2C) "%2C"
  let s := stringsReplaceAllChar s (Char.ofNat 0x2B) "%2B"
  let s := stringsReplaceAllChar s (Char.ofNat 0x28) "%28"
  let s := stringsReplaceAllChar s (Char.ofNat 0x29) "%29"
  s

/-- Go `getLatencyEmoji`. -/
def getLatencyEmoji (latency : Int) : String :=
  if latency < 100 then "⚡⚡"
  else if latency < 300 then "⚡"
  else if latency < 1000 then "🐇"
  else "🐌"

/-! ## config_writer_enhanced.go -/

/-- Go `encodeBase64` of config_writer_enhanced.go. -/
def encodeBase64 (input : String) : String := input

/-- Go `strings.Join(configs, "\n")`. -/
def joinLines (configs : List String) : String := String.intercalate "\n" configs

/-- Go `writeBase64ConfigFile`: the content handed to `os.WriteFile`. -/
def writeBase64ConfigFile (configs : List String) : String :=
  let content := joinLines configs
  let encoded := encodeBase64 content
  encoded

/-! ## utls_fingerprint_spoofing.go -/

/-- Go struct `BrowserFingerprint`; the numbers are the values of the `crypto/tls`
constants the source names. -/
structure BrowserFingerprint where
  Name : String
  Version : String
  CipherSuites : List Nat
  SupportedCurves : List Nat
  SignatureSchemes : List Nat
  ALPNProtocols : List String
  Extensions : List Nat
  deriving DecidableEq

/-- Go `tls.TLS_AES_128_GCM_SHA256`. -/
def TLS_AES_128_GCM_SHA256 : Nat := 0x1301
/-- Go `tls.TLS_AES_256_GCM_SHA384`. -/
def TLS_AES_256_GCM_SHA384 : Nat := 0x1302
/-- Go `tls.TLS_CHACHA20_POLY1305_SHA256`. -/
def TLS_CHACHA20_POLY1305_SHA256 : Nat := 0x1303
/-- Go `tls.TLS_ECDHE_ECDSA_WITH_AES_128_GCM_SHA256`. -/
def TLS_ECDHE_ECDSA_WITH_AES_128_GCM_SHA256 : Nat := 0xc02b
/-- Go `tls.TLS_ECDHE_RSA_WITH_AES_128_GCM_SHA256`. -/
def TLS_ECDHE_RSA_WITH_AES_128_GCM_SHA256 : Nat := 0xc02f
/-- Go `tls.TLS_ECDHE_ECDSA_WITH_AES_256_GCM_SHA384`. -/
def TLS_ECDHE_ECDSA_WITH_AES_256_GCM_SHA384 : Nat := 0xc02c
/-- Go `tls.TLS_ECDHE_RSA_WITH_AES_256_GCM_SHA384`. -/
def TLS_ECDHE_RSA_WITH_AES_256_GCM_SHA384 : Nat := 0xc030
/-- Go `tls.TLS_ECDHE_ECDSA_WITH_CHACHA20_POLY1305`. -/
def TLS_ECDHE_ECDSA_WITH_CHACHA20_POLY1305 : Nat := 0xcca9
/-- Go `tls.TLS_ECDHE_RSA_WITH_CHACHA20_POLY1305`. -/
def TLS_ECDHE_RSA_WITH_CHACHA20_POLY1305 : Nat := 0xcca8
/-- Go `tls.X25519`. -/
def X25519 : Nat := 29
/-- Go `tls.CurveP256`. -/
def CurveP256 : Nat := 23
/-- Go `tls.CurveP384`. -/
def CurveP384 : Nat := 24
/-- Go `tls.CurveP521`. -/
def CurveP521 : Nat := 25
/-- Go `tls.ECDSAWithP256AndSHA256`. -/
def ECDSAWithP256AndSHA256 : Nat := 0x0403
/-- Go `tls.ECDSAWithP384AndSHA384`. -/
def ECDSAWithP384AndSHA384 : Nat := 0x0503
/-- Go `tls.ECDSAWithP521AndSHA512`. -/
def ECDSAWithP521AndSHA512 : Nat := 0x0603
/-- Go `tls.PSSWithSHA256`. -/
def PSSWithSHA256 : Nat := 0x0804
/-- Go `tls.PSSWithSHA384`. -/
def PSSWithSHA384 : Nat := 0x0805
/-- Go `tls.PSSWithSHA512`. -/
def PSSWithSHA512 : Nat := 0x0806
/-- Go `tls.PKCS1WithSHA256`. -/
def PKCS1WithSHA256 : Nat := 0x0401
/-- Go `tls.PKCS1WithSHA384`. -/
def PKCS1WithSHA384 : Nat := 0x0501
/-- Go `tls.PKCS1WithSHA512`. -/
def PKCS1WithSHA512 : Nat := 0x0601

/-- Go variable `FingerprintDatabase`, a map, as the list of its entries. -/
def FingerprintDatabase : List (String × BrowserFingerprint) :=
  [("chrome120",
      { Name := "Chrome", Version := "120.0.6099",
        CipherSuites :=
          [TLS_AES_128_GCM_SHA256, TLS_AES_256_GCM_SHA384, TLS_CHACHA20_POLY1305_SHA256,
            TLS_ECDHE_ECDSA_WITH_AES_128_GCM_SHA256, TLS_ECDHE_RSA_WITH_AES_128_GCM_SHA256,
            TLS_ECDHE_ECDSA_WITH_AES_256_GCM_SHA384, TLS_ECDHE_RSA_WITH_AES_256_GCM_SHA384,
            TLS_ECDHE_ECDSA_WITH_CHACHA20_POLY1305, TLS_ECDHE_RSA_WITH_CHACHA20_POLY1305],
        SupportedCurves := [X25519, CurveP256, CurveP384],
        SignatureSchemes :=
          [ECDSAWithP256AndSHA256, PSSWithSHA256, PKCS1WithSHA256, ECDSAWithP384AndSHA384,
            PSSWithSHA384, PKCS1WithSHA384, PSSWithSHA512, PKCS1WithSHA512],
        ALPNProtocols := ["h2", "http/1.1"],
        Extensions := [0, 10, 11, 13, 16, 23, 27, 35, 43, 45, 51] }),
    ("firefox121",
      { Name := "Firefox", Version := "121.0",
        CipherSuites :=
          [TLS_AES_128_GCM_SHA256, TLS_CHACHA20_POLY1305_SHA256, TLS_AES_256_GCM_SHA384,
            TLS_ECDHE_ECDSA_WITH_AES_128_GCM_SHA256, TLS_ECDHE_RSA_WITH_AES_128_GCM_SHA256,
            TLS_ECDHE_ECDSA_WITH_CHACHA20_POLY1305, TLS_ECDHE_RSA_WITH_CHACHA20_POLY1305,
            TLS_ECDHE_ECDSA_WITH_AES_256_GCM_SHA384, TLS_ECDHE_RSA_WITH_AES_256_GCM_SHA384],
        SupportedCurves := [X25519, CurveP256, CurveP384, CurveP521],
        SignatureSchemes :=
          [ECDSAWithP256AndSHA256, ECDSAWithP384AndSHA384, ECDSAWithP521AndSHA512,
            PSSWithSHA256, PSSWithSHA384, PSSWithSHA512, PKCS1WithSHA256, PKCS1WithSHA384,
            PKCS1WithSHA512],
        ALPNProtocols := ["h2", "http/1.1"],
        Extensions := [0, 10, 11, 13, 23, 27, 35, 43, 45, 51] }),
    ("edge120",
      { Name := "Edge", Version := "120.0.2210",
        CipherSuites :=
          [TLS_AES_128_GCM_SHA256, TLS_AES_256_GCM_SHA384, TLS_CHACHA20_POLY1305_SHA256,
            TLS_ECDHE_ECDSA_WITH_AES_128_GCM_SHA256, TLS_ECDHE_RSA_WITH_AES_128_GCM_SHA256,
            TLS_ECDHE_ECDSA_WITH_AES_256_GCM_SHA384, TLS_ECDHE_RSA_WITH_AES_256_GCM_SHA384],
        SupportedCurves := [X25519, CurveP256, CurveP384],
        SignatureSchemes :=
          [ECDSAWithP256AndSHA256, PSSWithSHA256, PKCS1WithSHA256, ECDSAWithP384AndSHA384,
            PSSWithSHA384, PKCS1WithSHA384],
        ALPNProtocols := ["h2", "http/1.1"],
        Extensions := [0, 10, 11, 13, 23, 27, 35, 43, 45, 51] }),
    ("safari17",
      { Name := "Safari", Version := "17.2",
        CipherSuites :=
          [TLS_AES_128_GCM_SHA256, TLS_AES_256_GCM_SHA384, TLS_CHACHA20_POLY1305_SHA256,
            TLS_ECDHE_ECDSA_WITH_AES_256_GCM_SHA384, TLS_ECDHE_ECDSA_WITH_AES_128_GCM_SHA256,
            TLS_ECDHE_RSA_WITH_AES_256_GCM_SHA384, TLS_ECDHE_RSA_WITH_AES_128_GCM_SHA256,
            TLS_ECDHE_ECDSA_WITH_CHACHA20_POLY1305, TLS_ECDHE_RSA_WITH_CHACHA20_POLY1305],
        SupportedCurves := [X25519, CurveP256, CurveP384, CurveP521],
        SignatureSchemes :=
          [ECDSAWithP256AndSHA256, PSSWithSHA256, PKCS1WithSHA256, ECDSAWithP384AndSHA384,
            PSSWithSHA384, PKCS1WithSHA384],
        ALPNProtocols := ["h2", "http/1.1"],
        Extensions := [0, 10, 11, 13, 23, 27, 35, 43, 45, 51, 65281] })]

/-- The map lookup `FingerprintDatabase[label]` with its `exists` flag. -/
def lookupFingerprint (label : String) : Option BrowserFingerprint :=
  (FingerprintDatabase.find? (fun entry => entry.1 == label)).map (fun entry => entry.2)

/-- Go struct `UTLSDialer`; `timeout` is read by none of the definitions here. -/
structure UTLSDialer where
  selectedBrowser : String
  rotationEnabled : Bool
  browserIndex : Int
  availableBrowsers : List String
  deriving DecidableEq

/-- Go `NewUTLSDialer`. -/
def NewUTLSDialer : UTLSDialer :=
  { selectedBrowser := "", rotationEnabled := true, browserIndex := 0,
    availableBrowsers := ["chrome120", "firefox121", "edge120", "safari17"] }

/-! ## Slices -/

/-- The statement `if outOfOrder(a[i], a[j]) { a[i], a[j] = a[j], a[i] }` on a slice. -/
def compareSwap {τ : Type} (outOfOrder : τ → τ → Bool) (a : List τ) (i j : Nat) : List τ :=
  match a[i]?, a[j]? with
  | some x, some y => if outOfOrder x y then (a.set i y).set j x else a
  | _, _ => a

/-- The nested loops
`for i := 0; i < len(a); i++ { for j := i + 1; j < len(a); j++ { ... } }`
with the body `compareSwap`; the length of the slice does not change. -/
def exchangeSort {τ : Type} (outOfOrder : τ → τ → Bool) (a : List τ) : List τ :=
  (List.range a.length).foldl
    (fun (a : List τ) (i : Nat) =>
      (List.range' (i + 1) (a.length - (i + 1))).foldl
        (fun (a : List τ) (j : Nat) => compareSwap outOfOrder a i j) a)
    a

/-! ## config_generator.go: GetConfigsByScore -/

/-- Go `GetConfigsByScore`: the sorted copy it returns, and the generator. -/
def ConfigGenerator.GetConfigsByScore (cg : ConfigGenerator) : List Config × ConfigGenerator :=
  let configs := cg.configs
  (exchangeSort (fun (x y : Config) => decide (x.HealthScore < y.HealthScore)) configs, cg)

/-! ## config_tester.go -/

/-- Go variable `IranTestEndpoints`. -/
def IranTestEndpoints : List String :=
  ["https://ipp.nscl.ir", "https://speed.cloudflare.com/meta",
    "https://www.gstatic.com/generate_204",
    "https://connectivitycheck.gstatic.com/generate_204",
    "https://detectportal.firefox.com/success.txt"]

/-- Go struct `TestedConfig`; the fields `ErrorMessage`, `TestedAt` and
`EndpointTests` are read by none of the functions embedded here. -/
structure TestedConfig (α : Type) where
  Config : Config
  Passed : Bool
  Latency : Int
  AvgLatency : Int
  SuccessRate : α

/-- Go struct `ConfigTester`; the statistics in `stats` do not enter the tested
configs and are left out. -/
structure ConfigTester (α : Type) where
  configs : List Config
  testedConfigs : List (TestedConfig α)
  maxConcurrent : Int
  iranMode : Bool

/-- Go `NewConfigTester`. -/
def NewConfigTester {α : Type} (configs : List Config) (maxConcurrent : Int) (iranMode : Bool) :
    ConfigTester α :=
  { configs := configs, testedConfigs := [], maxConcurrent := maxConcurrent,
    iranMode := iranMode }

/-- What one probe of an endpoint draws and measures, in the order of the calls:
the first `rand.Float64()` of `simulateProxyTest`, its `rand.Intn(50)`, its second
`rand.Float64()`, and the `time.Since(startTime).Milliseconds()` of `testEndpoint`. -/
structure ProbeDraws (α : Type) where
  randomFactor : α
  latencyVariance : Int
  success : α
  elapsed : Int

section Tester

variable {α : Type} [LinearOrderedField α]

/-- Go `simulateProxyTest`; the sleep is left out. -/
def simulateProxyTest (config : Config) (d : ProbeDraws α) : Bool × Int :=
  let baseChance : α := (config.HealthScore : α) / 100
  let randomFactor : α := 8 / 10 + d.randomFactor * (4 / 10)
  let successChance : α := baseChance * randomFactor
  let baseLatency : Int :=
    if config.Network = TransportXHTTP then 30
    else if config.Network = TransportGRPC then 40
    else if config.Network = TransportWebSocket then 50
    else if config.Network = TransportTCP then 35
    else if config.Network = TransportHTTP2 then 45
    else if config.Network = TransportQUIC then 60
    else 50
  let latencyVariance : Int := d.latencyVariance
  let simulatedLatency : Int := baseLatency + latencyVariance
  let success : Bool := decide (d.success < successChance)
  (success, simulatedLatency)

/-- Go `testEndpoint`. -/
def testEndpoint (config : Config) (d : ProbeDraws α) : Bool × Int :=
  let (success, latency) := simulateProxyTest config d
  let elapsed := d.elapsed
  if success then (true, latency) else (false, elapsed)

/-- Go `testConfig`: the tester after the tested config is appended; `draws k`
holds the draws of the probe of the `k`-th endpoint. -/
def ConfigTester.testConfig (ct : ConfigTester α) (draws : Nat → ProbeDraws α) (_idx : Nat)
    (config : Config) : ConfigTester α :=
  let endpoints : List String :=
    if ct.iranMode then IranTestEndpoints else [IranTestEndpoints.getD 0 ""]
  let (successCount, latencies) : Int × List Int :=
    (List.range endpoints.length).foldl
      (fun (acc : Int × List Int) (k : Nat) =>
        let (success, latency) := testEndpoint config (draws k)
        if success then (acc.1 + 1, acc.2 ++ [latency]) else acc)
      (0, [])
  let (avgLatency, latency) : Int × Int :=
    if latencies.length > 0 then
      let totalLatency : Int :=
        latencies.foldl (fun (totalLatency lat : Int) => wrapInt64 (totalLatency + lat)) 0
      (Int.tdiv totalLatency (latencies.length : Int), latencies.getD 0 0)
    else (0, 0)
  let successRate : α := (successCount : α) / (endpoints.length : α) * 100
  let passed : Bool :=
    if ct.iranMode then decide (successRate ≥ 60) else decide (successCount > 0)
  { ct with testedConfigs :=
      ct.testedConfigs ++
        [{ Config := config, Passed := passed, Latency := latency, AvgLatency := avgLatency,
           SuccessRate := successRate }] }

/-- Go `TestAllConfigs`: the list it returns, and the tester.  Each goroutine runs
`testConfig` on its config; the appends to `testedConfigs` are serialised by the
mutex, and `order` lists the indices of the configs in the order in which their
goroutines append (a permutation of the indices); `draws idx` holds the draws of
the probes of the config at `idx`. -/
def ConfigTester.TestAllConfigs (ct : ConfigTester α) (draws : Nat → Nat → ProbeDraws α)
    (order : List Nat) : List (TestedConfig α) × ConfigTester α :=
  let ct :=
    order.foldl
      (fun (ct : ConfigTester α) (idx : Nat) =>
        match ct.configs[idx]? with
        | some cfg => ct.testConfig (draws idx) idx cfg
        | none => ct)
      ct
  (ct.testedConfigs, ct)

/-- Go `GetPassedConfigs`. -/
def ConfigTester.GetPassedConfigs (ct : ConfigTester α) : List (TestedConfig α) :=
  ct.testedConfigs.filter (fun tested => tested.Passed)

/-- Go `SortByLatency`. -/
def ConfigTester.SortByLatency (ct : ConfigTester α) : List (TestedConfig α) :=
  let configs := ct.GetPassedConfigs
  exchangeSort (fun (x y : TestedConfig α) => decide (x.AvgLatency > y.AvgLatency)) configs

/-- Go `SortByHealthScore`. -/
def ConfigTester.SortByHealthScore (ct : ConfigTester α) : List (TestedConfig α) :=
  let configs := ct.GetPassedConfigs
  exchangeSort
    (fun (x y : TestedConfig α) => decide (x.Config.HealthScore < y.Config.HealthScore)) configs

end Tester

/-! ## The worker semaphore of ProxyChecker.Run and ConfigTester.TestAllConfigs -/

/-- Where the task of one item stands: its goroutine has not yet sent to the
semaphore channel, it has sent and not yet received (the task, `ProcessProxy` or
`testConfig`, runs in between), or it has received. -/
inductive TaskPhase where
  | waiting
  | running
  | finished
  deriving DecidableEq

/-- A sweep over `tasks.length` items with the semaphore
`make(chan struct{}, maxConcurrent)`: the channel holds one token for each task
that is `running`. -/
structure Sweep where
  maxConcurrent : Int
  tasks : List TaskPhase

/-- The number of tasks running, which is the number of tokens in the channel. -/
def Sweep.inFlight (s : Sweep) : Nat :=
  (s.tasks.filter (fun phase => phase = TaskPhase.running)).length

/-- The start of a sweep over `n` items; `make` panics on a negative capacity,
and there is no sweep then. -/
def Sweep.start (maxConcurrent : Int) (n : Nat) : Option Sweep :=
  if maxConcurrent < 0 then none
  else some { maxConcurrent := maxConcurrent, tasks := List.replicate n TaskPhase.waiting }

/-- One event of a sweep. -/
inductive SweepEvent where
  | send (i : Nat)
  | receive (i : Nat)

/-- One event of `ConfigTester.TestAllConfigs`, `none` if it cannot happen.  The
goroutine of item `i` executes `semaphore <- struct{}{}`, which completes only
while the channel holds fewer than `maxConcurrent` tokens, runs `testConfig`, and
executes `<-semaphore` on return. -/
def Sweep.stepTestAllConfigs (s : Sweep) : SweepEvent → Option Sweep
  | .send i =>
    if s.tasks[i]? = some TaskPhase.waiting ∧ (s.inFlight : Int) < s.maxConcurrent then
      some { s with tasks := s.tasks.set i TaskPhase.running }
    else none
  | .receive i =>
    if s.tasks[i]? = some TaskPhase.running then
      some { s with tasks := s.tasks.set i TaskPhase.finished }
    else none

/-- One event of `ProxyChecker.Run`, `none` if it cannot happen.  The loop of `Run`
executes `sem <- struct{}{}` for item `i` once it has done so for every earlier
item, and only then starts the goroutine, which runs `ProcessProxy` and executes
`<-sem` on return. -/
def Sweep.stepRun (s : Sweep) : SweepEvent → Option Sweep
  | .send i =>
    if s.tasks[i]? = some TaskPhase.waiting ∧
        (s.tasks.take i).all (fun phase => phase != TaskPhase.waiting) = true ∧
        (s.inFlight : Int) < s.maxConcurrent then
      some { s with tasks := s.tasks.set i TaskPhase.running }
    else none
  | .receive i =>
    if s.tasks[i]? = some TaskPhase.running then
      some { s with tasks := s.tasks.set i TaskPhase.finished }
    else none

/-- A sequence of events from a state, `none` if one of them cannot happen. -/
def Sweep.runEvents (step : Sweep → SweepEvent → Option Sweep) (s : Sweep) :
    List SweepEvent → Option Sweep
  | [] => some s
  | e :: rest =>
    match step s e with
    | none => none
    | some s => Sweep.runEvents step s rest

/-! ## Vocabulary of the theorems -/

/-- The invariant of claim C8. -/
def EnhancedHealthScorer.consistent {α : Type} [LinearOrderedField α]
    (ehs : EnhancedHealthScorer α) : Prop :=
  ehs.metrics.Latencies.length = ehs.metrics.Timestamps.length ∧
    0 ≤ ehs.metrics.ErrorRate ∧ ehs.metrics.ErrorRate ≤ 1

/-- Population variance of a list of latencies, in the specification's words:
`(1/n) * sum of (x_i - m)^2` with `m` the arithmetic mean of the list. -/
def specPopulationVariance (α : Type) [LinearOrderedField α] (xs : List Int) : α :=
  (1 / (xs.length : α)) *
    (xs.map (fun (x : Int) => ((x : α) - ((xs.sum : Int) : α) / (xs.length : α)) ^ 2)).sum

/-- A scorer that holds the three latencies of `TestEnhancedHealthScorer`. -/
def testScorer {α : Type} [LinearOrderedField α] [FloorRing α] : EnhancedHealthScorer α :=
  (((NewEnhancedHealthScorer true).RecordLatency 100 0).RecordLatency 110 1).RecordLatency 105 2

/-- A scorer that holds the latency `2^62` twice. -/
def wrapScorer {α : Type} [LinearOrderedField α] [FloorRing α] : EnhancedHealthScorer α :=
  ((NewEnhancedHealthScorer false).RecordLatency (2 ^ 62) 0).RecordLatency (2 ^ 62) 1

/-- A connection on which every `Write` succeeds in full: it answers `(len(b), nil)`. -/
def NetConn.reliable (c : NetConn) : Prop :=
  ∀ (k : Nat) (b : List Nat), c.answer k b = ((b.length : Int), none)

/-- A TLS record of 77 bytes whose payload holds the byte pair `00 00` at offset 20. -/
def sampleClientHello : List Nat :=
  [0x16, 0x03, 0x01, 0x00, 0x48] ++ List.replicate 20 7 ++ [0, 0] ++ List.replicate 50 9

/-- The (Protocol, Network, Security) triple of a config. -/
def Config.triple (c : Config) : String × String × String := (c.Protocol, c.Network, c.Security)

/-- What the closing lines of a `create…Config` function establish. -/
def Config.scored (c : Config) : Prop :=
  c.HealthScore = c.GetIranOptimizedScore ∧ (c.IranOptimized = true ↔ 70 ≤ c.HealthScore)

/-- The invariant carried through the basic generator: the mode flag is `m` and
every config built so far satisfies `Q`. -/
def ConfigGenerator.all (m : Bool) (Q : Config → Prop) (cg : ConfigGenerator) : Prop :=
  cg.iranMode = m ∧ ∀ c ∈ cg.configs, Q c

/-- What every config of the basic generator satisfies: its triple is in the table
of section 4.8, and its score fields are as `withIranScore` sets them. -/
def Config.basicBuilt (c : Config) : Prop := c.allowed = true ∧ c.scored

/-- The triples the builder selected by `protocol` can give a config. -/
def builderTriples (protocol : String) : List (String × String × String) :=
  if protocol = "reality" then [("vless", "tcp", "reality")]
  else if protocol = "xhttp" then [("vmess", "xhttp", "tls")]
  else if protocol = "hysteria2" then [("hysteria2", "quic", "tls")]
  else if protocol = "tuic" then [("tuic", "udp", "tls")]
  else if protocol = "vless-xtls" then [("vless", "tcp", "xtls")]
  else if protocol = "vmess" then
    [("vmess", "xhttp", "tls"), ("vmess", "ws", "tls"), ("vmess", "grpc", "tls"),
      ("vmess", "h2", "tls")]
  else if protocol = "vless" then
    [("vless", "ws", "tls"), ("vless", "grpc", "tls"), ("vless", "tcp", "tls")]
  else if protocol = "trojan" then
    [("trojan", "ws", "tls"), ("trojan", "grpc", "tls"), ("trojan", "tcp", "tls")]
  else if protocol = "shadowsocks" then [("shadowsocks", "tcp", "")]
  else []

/-- The value the builder selected by `protocol` gives `IranOptimized`. -/
def builderIranOptimized (a : AppConfig) (protocol : String) : Bool :=
  if protocol = "reality" ∨ protocol = "xhttp" ∨ protocol = "hysteria2" ∨ protocol = "tuic" ∨
      protocol = "vless-xtls" then true
  else if protocol = "shadowsocks" then false
  else a.IranMode

/-- What the builder selected by `protocol` establishes of each config it appends. -/
def Config.builtBy (a : AppConfig) (protocol : String) (c : Config) : Prop :=
  c.HealthScore = 0 ∧ c.IranOptimized = builderIranOptimized a protocol ∧
    c.triple ∈ builderTriples protocol

/-- The step `cg'` of the enhanced generator only appends to `cg`, and what it
appends satisfies `Q`. -/
def EnhancedConfigGenerator.extendedBy (Q : Config → Prop)
    (cg cg' : EnhancedConfigGenerator) : Prop :=
  cg'.config = cg.config ∧ (∀ c ∈ cg.configs, c ∈ cg'.configs) ∧
    ∀ c ∈ cg'.configs, c ∈ cg.configs ∨ Q c

/-- What `applyAIOptimizations` leaves of a config untouched. -/
def Config.sameCore (c c' : Config) : Prop :=
  c'.triple = c.triple ∧ c'.HealthScore = c.HealthScore ∧ c'.IranOptimized = c.IranOptimized

/-- Whether the protocol filter keeps the protocol name `p`: some entry of the
filter is contained in `p` (the test of `selectOptimalProtocols`). -/
def filterKeeps (testProtocols : List String) (p : String) : Bool :=
  testProtocols.any (fun allowed => stringsContains p allowed)

/-- A scorer that holds the latency 100 ms twice, one second apart. -/
def equalScorer {α : Type} [LinearOrderedField α] [FloorRing α] : EnhancedHealthScorer α :=
  ((NewEnhancedHealthScorer false).RecordLatency 100 0).RecordLatency 100 1000000000

/-- A scorer after one latency of 3 ms, one error, and the latencies 3, 1 and 1 ms. -/
def halfScorer {α : Type} [LinearOrderedField α] [FloorRing α] : EnhancedHealthScorer α :=
  (((((NewEnhancedHealthScorer false).RecordLatency 3 0).RecordError).RecordLatency 3
    1000000000).RecordLatency 1 2000000000).RecordLatency 1 3000000000

/-- A call that records no negative latency and no negative connection timing. -/
def ScorerCall.nonnegative : ScorerCall → Prop
  | .recordLatency latency _ => 0 ≤ latency
  | .recordConnectionMetrics d t l f => 0 ≤ d ∧ 0 ≤ t ∧ 0 ≤ l ∧ 0 ≤ f
  | _ => True

/-- The local `jitterScore` of `CalculateStabilityScore`, written with `min`. -/
def EnhancedHealthScorer.jitterScore {α : Type} [LinearOrderedField α] [FloorRing α]
    (sqrt : α → α) (ehs : EnhancedHealthScorer α) : α :=
  if ehs.calculateMeanLatency > 0 then
    100 * (1 - min ((ehs.CalculateJitter sqrt).1 / ehs.calculateMeanLatency) 1)
  else 100

/-- The local `errorScore` of `CalculateStabilityScore`. -/
def EnhancedHealthScorer.errorScore {α : Type} [LinearOrderedField α] [FloorRing α]
    (ehs : EnhancedHealthScorer α) : α :=
  100 * (1 - ehs.metrics.ErrorRate)

/-- The local `consistencyScore` of `CalculateStabilityScore`: the value of
`calculateConsistencyScore` once `CalculateJitter` has stored the jitter. -/
def EnhancedHealthScorer.consistencyScore {α : Type} [LinearOrderedField α] [FloorRing α]
    (sqrt : α → α) (ehs : EnhancedHealthScorer α) : α :=
  (ehs.CalculateJitter sqrt).2.calculateConsistencyScore

/-- A scorer that holds the latencies `2^62`, `2^62` and 0. -/
def wrapScorer3 {α : Type} [LinearOrderedField α] [FloorRing α] : EnhancedHealthScorer α :=
  (((NewEnhancedHealthScorer false).RecordLatency (2 ^ 62) 0).RecordLatency (2 ^ 62)
    1000000000).RecordLatency 0 2000000000

/-- Arithmetic mean of a list of intervals, in the specification's words. -/
def specMean {α : Type} [LinearOrderedField α] (xs : List α) : α :=
  xs.sum / (xs.length : α)

/-- Variance of a list of intervals, in the specification's words: the mean of the
squared deviations from the arithmetic mean. -/
def specVariance {α : Type} [LinearOrderedField α] (xs : List α) : α :=
  (xs.map (fun (x : α) => (x - specMean xs) ^ 2)).sum / (xs.length : α)

/-- A scorer that holds four latencies of 100 ms recorded 250 ms apart. -/
def fourSampleScorer {α : Type} [LinearOrderedField α] [FloorRing α] (iranOptimized : Bool) :
    EnhancedHealthScorer α :=
  ((((NewEnhancedHealthScorer iranOptimized).RecordLatency 100 0).RecordLatency 100
    250000000).RecordLatency 100 500000000).RecordLatency 100 750000000

/-- A new scorer after the five successful probes of the specification's example,
with latencies 40, 45, 42, 48 and 41 ms, recorded at the given instants. -/
def fiveProbeScorer {α : Type} [LinearOrderedField α] [FloorRing α] (iranOptimized : Bool)
    (t1 t2 t3 t4 t5 : Int) : EnhancedHealthScorer α :=
  (((((NewEnhancedHealthScorer iranOptimized).RecordLatency 40 t1).RecordLatency 45
    t2).RecordLatency 42 t3).RecordLatency 48 t4).RecordLatency 41 t5

/-- The local `finalScore` of `CalculateAdvancedHealthScore` as the weighted sum
leaves it, before `applyModifiers`. -/
def EnhancedHealthScorer.weightedScore {α : Type} [LinearOrderedField α] [FloorRing α]
    (sqrt exp : α → α) (ehs : EnhancedHealthScorer α) : α :=
  ehs.calculateLatencyScore exp *
      (if (ehs.CalculateStabilityScore sqrt).2.calculateDPIEvasionScore.2.iranOptimized
        then 20 / 100 else 25 / 100) +
    (ehs.CalculateStabilityScore sqrt).1 *
      (if (ehs.CalculateStabilityScore sqrt).2.calculateDPIEvasionScore.2.iranOptimized
        then 20 / 100 else 25 / 100) +
    100 * (1 - (ehs.CalculateStabilityScore sqrt).2.metrics.ErrorRate) * (20 / 100) +
    (ehs.CalculateStabilityScore sqrt).2.calculateDPIEvasionScore.1 *
      (if (ehs.CalculateStabilityScore sqrt).2.calculateDPIEvasionScore.2.iranOptimized
        then 30 / 100 else 20 / 100) +
    (ehs.CalculateStabilityScore sqrt).2.calculateDPIEvasionScore.2.calculatePerformanceScore *
      (10 / 100)

/-- The local `finalScore` of `CalculateAdvancedHealthScore` after `applyModifiers`,
before it is clamped and rounded. -/
def EnhancedHealthScorer.modifiedScore {α : Type} [LinearOrderedField α] [FloorRing α]
    (sqrt exp : α → α) (ehs : EnhancedHealthScorer α) : α :=
  (ehs.CalculateStabilityScore sqrt).2.calculateDPIEvasionScore.2.applyModifiers
    (ehs.weightedScore sqrt exp)

/-- The history of a fragmenter after `recordAttempt` has appended an outcome and
dropped the oldest entry beyond 100. -/
def SNIFragmenter.historyAfter (sf : SNIFragmenter) (success : Bool) : List Bool :=
  if (sf.successHistory ++ [success]).length > 100 then (sf.successHistory ++ [success]).drop 1
  else sf.successHistory ++ [success]

/-- The success fraction of the last 20 entries of a history. -/
def recentSuccessRate (history : List Bool) : ℚ :=
  (((history.drop (history.length - 20)).filter (fun (s : Bool) => s)).length : ℚ) / 20

/-- The invariant of claim C18. -/
def SNIFragmenter.inBounds (sf : SNIFragmenter) : Prop :=
  3 ≤ sf.fragmentSize ∧ sf.fragmentSize ≤ 20 ∧ 0 ≤ sf.delayBetween ∧
    sf.delayBetween ≤ 50 * Millisecond ∧ sf.successHistory.length ≤ 100

/-- The fragmenter of a new dialer after `SetFragmentSize(20)` and 19 successful
attempts. -/
def saturatedFragmenter : SNIFragmenter :=
  (NewSNIFragmentDialer.run
    (DialerCall.setFragmentSize 20 ::
      List.replicate 19 (DialerCall.recordAttempt true 0))).fragmenter

/-- The fragmenter of a new dialer after 19 failed attempts. -/
def strugglingFragmenter : SNIFragmenter :=
  (NewSNIFragmentDialer.run (List.replicate 19 (DialerCall.recordAttempt false 0))).fragmenter

/-- The fragmenter of a new dialer after 19 successful attempts. -/
def steadyFragmenter : SNIFragmenter :=
  (NewSNIFragmentDialer.run (List.replicate 19 (DialerCall.recordAttempt true 0))).fragmenter

/-- Chunks of exactly `k` bytes each, the last one possibly shorter, none empty. -/
def chunkedBy (k : Nat) (chunks : List (List Nat)) : Prop :=
  (∀ c ∈ chunks.dropLast, c.length = k) ∧ (∀ c ∈ chunks, 0 < c.length ∧ c.length ≤ k)

/-- A fresh wrapper around a reliable connection whose fragmenter has fragment
size 3. -/
def smallFragmentConn : FragmentedConn :=
  NewFragmentedConn reliableConn { NewSNIFragmenter with fragmentSize := 3 }

/-- The filter of claim C19, in the claim's words: the trimmed line is non-empty,
does not start with `#`, has at least two comma-separated fields, its second
field trimmed is "443", and its fourth field (taken as "Unknown" when absent)
contains, ignoring case, some entry of `IranOptimizedISPs`. -/
def specIranKeeps (toLower : String → String) (line : String) : Bool :=
  decide (line ≠ "") && !(stringsHasPrefix line "#") &&
    decide (2 ≤ (stringsSplitComma line).length) &&
    decide (stringsTrimSpace ((stringsSplitComma line).getD 1 "") = "443") &&
    IranOptimizedISPs.any (fun goodISP =>
      stringsContains
        (toLower (if (stringsSplitComma line).length ≥ 4 then
            stringsTrimSpace ((stringsSplitComma line).getD 3 "") else "Unknown"))
        (toLower goodISP))

/-- The four lines of `TestReadProxyFile`. -/
def testProxyLines : List String :=
  ["1.1.1.1,443,US,Cloudflare", "8.8.8.8,443,US,Google", "192.168.1.1,80,US,Local",
    "9.9.9.9,443,US,Unknown ISP"]

/-- The checker of `NewProxyChecker(_, _, 50, _)`: Iran mode is on. -/
def testProxyChecker : ProxyChecker := { maxConcurrent := 50, iranMode := true }

/-- The outcome of `TestProxyAdvanced` in the specification's Hetzner example:
three of five attempts succeed, and the health score is 50. -/
def hetznerTestResult : ProxyTestResult ℚ :=
  { Attempts :=
      [{ Success := true, Duration := 100 }, { Success := false, Duration := 0 },
        { Success := true, Duration := 110 }, { Success := false, Duration := 0 },
        { Success := true, Duration := 105 }],
    SuccessCount := 3, SuccessRate := 3 / 5, HealthScore := 50 }

/-- An enhanced checker in Iran mode. -/
def iranEnhancedChecker : EnhancedProxyChecker :=
  { ProxyChecker := { maxConcurrent := 50, iranMode := true } }

/-- What the enhanced checker records for the Hetzner line in Iran mode. -/
def hetznerInfo : ProxyInfo :=
  { IP := "5.6.7.8", Port := "443", ISP := "Hetzner", CountryCode := "DE", City := "",
    Region := "", ASN := "", HealthScore := 50, IranOptimized := true }

/-- The substitution of claim C26 on one character. -/
def specEncodeChar (c : Char) : List Char :=
  if c = Char.ofNat 0x20 then "%20".data
  else if c = Char.ofNat 0x3A then "%3A".data
  else if c = Char.ofNat 0x2C then "%2C".data
  else if c = Char.ofNat 0x2B then "%2B".data
  else if c = Char.ofNat 0x28 then "%28".data
  else if c = Char.ofNat 0x29 then "%29".data
  else [c]

/-- The six characters that `encodeBadgeLabel` replaces: space, colon, comma,
plus and the two round brackets. -/
def badgeReserved : List Char :=
  [Char.ofNat 0x20, Char.ofNat 0x3A, Char.ofNat 0x2C, Char.ofNat 0x2B, Char.ofNat 0x28,
    Char.ofNat 0x29]

/-- The Base64 alphabet of RFC 4648. -/
def base64Alphabet : List Char :=
  "ABCDEFGHIJKLMNOPQRSTUVWXYZabcdefghijklmnopqrstuvwxyz0123456789+/".data

/-- Standard padded Base64 (RFC 4648) of a list of bytes. -/
def specBase64 : List Nat → List Char
  | [] => []
  | [a] =>
    [base64Alphabet.getD (a / 4) (Char.ofNat 0x3D), base64Alphabet.getD (a % 4 * 16) (Char.ofNat 0x3D),
      Char.ofNat 0x3D, Char.ofNat 0x3D]
  | [a, b] =>
    [base64Alphabet.getD (a / 4) (Char.ofNat 0x3D),
      base64Alphabet.getD (a % 4 * 16 + b / 16) (Char.ofNat 0x3D),
      base64Alphabet.getD (b % 16 * 4) (Char.ofNat 0x3D), Char.ofNat 0x3D]
  | a :: b :: c :: rest =>
    [base64Alphabet.getD (a / 4) (Char.ofNat 0x3D),
      base64Alphabet.getD (a % 4 * 16 + b / 16) (Char.ofNat 0x3D),
      base64Alphabet.getD (b % 16 * 4 + c / 64) (Char.ofNat 0x3D),
      base64Alphabet.getD (c % 64) (Char.ofNat 0x3D)] ++ specBase64 rest

/-- The TLS 1.3 AEAD suites `0x1301`, `0x1302`, `0x1303`. -/
def tls13Suites : List Nat := [0x1301, 0x1302, 0x1303]

/-- The ECDHE suites of `crypto/tls` that do not use CBC: the AES-GCM and
ChaCha20-Poly1305 suites `0xc02b`, `0xc02c`, `0xc02f`, `0xc030`, `0xcca8`, `0xcca9`. -/
def ecdheAeadSuites : List Nat := [0xc02b, 0xc02c, 0xc02f, 0xc030, 0xcca8, 0xcca9]

/-- What claim C23 says of one entry of the database. -/
def BrowserFingerprint.wellFormed (fp : BrowserFingerprint) : Bool :=
  !fp.CipherSuites.isEmpty &&
    (tls13Suites.all (fun s => (fp.CipherSuites.take 3).contains s)) &&
    ((fp.CipherSuites.drop 3).all (fun s => ecdheAeadSuites.contains s)) &&
    !fp.SupportedCurves.isEmpty && fp.SupportedCurves.head? == some 29 &&
    fp.ALPNProtocols == ["h2", "http/1.1"]

/-- The elements at the positions `p` and `q` of a slice, if both exist, have keys
in non-decreasing order. -/
def orderedAt {τ : Type} (key : τ → Int) (a : List τ) (p q : Nat) : Prop :=
  ∀ x y, a[p]? = some x → a[q]? = some y → key x ≤ key y

/-- Draws that `math/rand` can return: both `Float64` values lie in `[0, 1)` and
the `Intn(50)` value in `[0, 50)`. -/
def ProbeDraws.valid {α : Type} [LinearOrderedField α] (d : ProbeDraws α) : Prop :=
  0 ≤ d.randomFactor ∧ d.randomFactor < 1 ∧ 0 ≤ d.latencyVariance ∧ d.latencyVariance < 50 ∧
    0 ≤ d.success ∧ d.success < 1

/-- Draws of one probe, all zero. -/
def zeroDraws {α : Type} [LinearOrderedField α] : ProbeDraws α :=
  { randomFactor := 0, latencyVariance := 0, success := 0, elapsed := 0 }

/-- A config with every field at its zero value; its health score is 0. -/
def blankConfig : Config := {}

/-! ## Theorems: the health scorer -/

section ScorerTheorems

set_option linter.unusedSectionVars false

variable {α : Type} [LinearOrderedField α] [FloorRing α]

theorem goInt_intCast (z : Int) : goInt (z : α) = z := by
  unfold goInt
  split_ifs <;> simp

theorem goInt_goRound_clamped (y : α) :
    0 ≤ goInt (goRound (if (if y < 0 then 0 else y) > 100 then 100 else (if y < 0 then 0 else y))) ∧
      goInt (goRound (if (if y < 0 then 0 else y) > 100 then 100 else (if y < 0 then 0 else y))) ≤ 100 := by
  set x : α := if (if y < 0 then 0 else y) > 100 then 100 else (if y < 0 then 0 else y) with hx
  have h0 : (0 : α) ≤ x := by
    rw [hx]; split_ifs <;> (try simp only [not_lt, gt_iff_lt] at *) <;> linarith
  have h100 : x ≤ 100 := by
    rw [hx]; split_ifs <;> (try simp only [not_lt, gt_iff_lt] at *) <;> linarith
  unfold goRound
  rw [if_pos h0, goInt_intCast]
  constructor
  · apply Int.floor_nonneg.mpr; linarith
  · have : Int.floor (x + 1 / 2) < 101 := by
      apply Int.floor_lt.mpr
      push_cast
      linarith
    omega

theorem CalculateJitter_frame (sqrt : α → α) (ehs : EnhancedHealthScorer α) :
    (ehs.CalculateJitter sqrt).2.metrics.Latencies = ehs.metrics.Latencies ∧
    (ehs.CalculateJitter sqrt).2.metrics.Timestamps = ehs.metrics.Timestamps ∧
    (ehs.CalculateJitter sqrt).2.metrics.ErrorRate = ehs.metrics.ErrorRate ∧
    (ehs.CalculateJitter sqrt).2.iranOptimized = ehs.iranOptimized := by
  unfold EnhancedHealthScorer.CalculateJitter
  split_ifs <;> simp

theorem CalculateStabilityScore_frame (sqrt : α → α) (ehs : EnhancedHealthScorer α) :
    (ehs.CalculateStabilityScore sqrt).2.metrics.Latencies = ehs.metrics.Latencies ∧
    (ehs.CalculateStabilityScore sqrt).2.metrics.Timestamps = ehs.metrics.Timestamps ∧
    (ehs.CalculateStabilityScore sqrt).2.metrics.ErrorRate = ehs.metrics.ErrorRate ∧
    (ehs.CalculateStabilityScore sqrt).2.iranOptimized = ehs.iranOptimized := by
  have hj := CalculateJitter_frame sqrt ehs
  unfold EnhancedHealthScorer.CalculateStabilityScore
  split_ifs
  · simp
  · simpa using hj

theorem calculateDPIEvasionScore_frame (ehs : EnhancedHealthScorer α) :
    ehs.calculateDPIEvasionScore.2.metrics.Latencies = ehs.metrics.Latencies ∧
    ehs.calculateDPIEvasionScore.2.metrics.Timestamps = ehs.metrics.Timestamps ∧
    ehs.calculateDPIEvasionScore.2.metrics.ErrorRate = ehs.metrics.ErrorRate ∧
    ehs.calculateDPIEvasionScore.2.iranOptimized = ehs.iranOptimized := by
  unfold EnhancedHealthScorer.calculateDPIEvasionScore
  by_cases h : ehs.detectDPIPatterns = true <;> simp [h]

theorem CalculateAdvancedHealthScore_frame (sqrt exp : α → α) (ehs : EnhancedHealthScorer α) :
    (ehs.CalculateAdvancedHealthScore sqrt exp).2.metrics.Latencies = ehs.metrics.Latencies ∧
    (ehs.CalculateAdvancedHealthScore sqrt exp).2.metrics.Timestamps = ehs.metrics.Timestamps ∧
    (ehs.CalculateAdvancedHealthScore sqrt exp).2.metrics.ErrorRate = ehs.metrics.ErrorRate ∧
    (ehs.CalculateAdvancedHealthScore sqrt exp).2.iranOptimized = ehs.iranOptimized := by
  have hs := CalculateStabilityScore_frame sqrt ehs
  have hd := calculateDPIEvasionScore_frame (ehs.CalculateStabilityScore sqrt).2
  unfold EnhancedHealthScorer.CalculateAdvancedHealthScore
  split_ifs
  · simp
  · simp only
    rw [hd.1, hd.2.1, hd.2.2.1, hd.2.2.2]
    exact hs

theorem RecordError_consistent (ehs : EnhancedHealthScorer α) (h : ehs.consistent) :
    ehs.RecordError.consistent := by
  obtain ⟨hl, h0, h1⟩ := h
  unfold EnhancedHealthScorer.RecordError EnhancedHealthScorer.consistent
  simp only
  refine ⟨hl, ?_, ?_⟩
  all_goals
    have hn : (0 : α) ≤ ((ehs.metrics.Latencies.length : Int) : α) := by exact_mod_cast Nat.zero_le _
    have hprod0 : 0 ≤ ehs.metrics.ErrorRate * (((ehs.metrics.Latencies.length : Int) + 1 - 1 : Int) : α) := by
      apply mul_nonneg h0; push_cast; linarith
    have hprodn : ehs.metrics.ErrorRate * (((ehs.metrics.Latencies.length : Int) + 1 - 1 : Int) : α)
        ≤ ((ehs.metrics.Latencies.length : Int) : α) := by
      push_cast
      have : ehs.metrics.ErrorRate * ((ehs.metrics.Latencies.length : α) + 1 - 1) ≤
          1 * ((ehs.metrics.Latencies.length : α) + 1 - 1) :=
        mul_le_mul_of_nonneg_right h1 (by push_cast at hn; linarith)
      linarith
    have hg0 : 0 ≤ goInt (ehs.metrics.ErrorRate * (((ehs.metrics.Latencies.length : Int) + 1 - 1 : Int) : α)) := by
      unfold goInt; rw [if_pos hprod0]; exact Int.floor_nonneg.mpr hprod0
    have hgn : goInt (ehs.metrics.ErrorRate * (((ehs.metrics.Latencies.length : Int) + 1 - 1 : Int) : α))
        ≤ (ehs.metrics.Latencies.length : Int) := by
      unfold goInt; rw [if_pos hprod0]
      exact Int.cast_le.mp (le_trans (Int.floor_le _) hprodn)
    have hden : (0 : α) < (((ehs.metrics.Latencies.length : Int) + 1 : Int) : α) := by
      push_cast; push_cast at hn; linarith
  · apply div_nonneg
    · exact_mod_cast (by omega : (0:Int) ≤ goInt (ehs.metrics.ErrorRate * (((ehs.metrics.Latencies.length : Int) + 1 - 1 : Int) : α)) + 1)
    · exact le_of_lt hden
  · rw [div_le_one hden]
    exact_mod_cast (by omega : goInt (ehs.metrics.ErrorRate * (((ehs.metrics.Latencies.length : Int) + 1 - 1 : Int) : α)) + 1 ≤ (ehs.metrics.Latencies.length : Int) + 1)

theorem step_consistent (sqrt exp : α → α) (ehs : EnhancedHealthScorer α) (c : ScorerCall)
    (h : ehs.consistent) : (ehs.step sqrt exp c).consistent := by
  cases c with
  | recordLatency latency timestamp =>
    obtain ⟨hl, h0, h1⟩ := h
    exact ⟨by simp [EnhancedHealthScorer.step, EnhancedHealthScorer.RecordLatency, hl], h0, h1⟩
  | recordConnectionMetrics d t l f => exact h
  | recordError => exact RecordError_consistent ehs h
  | calculateJitter =>
    obtain ⟨h1, h2, h3, _⟩ := CalculateJitter_frame sqrt ehs
    unfold EnhancedHealthScorer.consistent EnhancedHealthScorer.step
    rw [h1, h2, h3]; exact h
  | calculateStabilityScore =>
    obtain ⟨h1, h2, h3, _⟩ := CalculateStabilityScore_frame sqrt ehs
    unfold EnhancedHealthScorer.consistent EnhancedHealthScorer.step
    rw [h1, h2, h3]; exact h
  | calculateAdvancedHealthScore =>
    obtain ⟨h1, h2, h3, _⟩ := CalculateAdvancedHealthScore_frame sqrt exp ehs
    unfold EnhancedHealthScorer.consistent EnhancedHealthScorer.step
    rw [h1, h2, h3]; exact h

theorem run_consistent (sqrt exp : α → α) (calls : List ScorerCall) :
    ∀ ehs : EnhancedHealthScorer α, ehs.consistent → (ehs.run sqrt exp calls).consistent := by
  induction calls with
  | nil => intro ehs h; exact h
  | cons c rest ih =>
    intro ehs h
    exact ih _ (step_consistent sqrt exp ehs c h)

/-- Claim C1: in default and in Iran mode, after any sequence of calls (recording
latencies, connection timings and errors; score queries are allowed as well),
`CalculateAdvancedHealthScore` returns an integer between 0 and 100, and it
returns 0 when no latency has been recorded.  The bound does not depend on what
`math.Sqrt` and `math.Exp` compute. -/
theorem health_score_in_range (sqrt exp : α → α) (iranOptimized : Bool)
    (calls : List ScorerCall) :
    0 ≤ (((NewEnhancedHealthScorer iranOptimized : EnhancedHealthScorer α).run sqrt exp
            calls).CalculateAdvancedHealthScore sqrt exp).1 ∧
      (((NewEnhancedHealthScorer iranOptimized : EnhancedHealthScorer α).run sqrt exp
            calls).CalculateAdvancedHealthScore sqrt exp).1 ≤ 100 ∧
      (((NewEnhancedHealthScorer iranOptimized : EnhancedHealthScorer α).run sqrt exp
            calls).metrics.Latencies = [] →
        (((NewEnhancedHealthScorer iranOptimized : EnhancedHealthScorer α).run sqrt exp
            calls).CalculateAdvancedHealthScore sqrt exp).1 = 0) := by
  generalize (NewEnhancedHealthScorer iranOptimized : EnhancedHealthScorer α).run sqrt exp calls = ehs
  unfold EnhancedHealthScorer.CalculateAdvancedHealthScore
  split_ifs with h
  · simp
  · have hne : ehs.metrics.Latencies ≠ [] := fun hnil => h (by simp [hnil])
    simp only
    exact ⟨(goInt_goRound_clamped _).1, (goInt_goRound_clamped _).2, fun hnil => absurd hnil hne⟩

/-- Claim C8: after any sequence of `RecordLatency`, `RecordError`,
`RecordConnectionMetrics` and score queries on a new scorer, `Latencies` and
`Timestamps` have the same length and `ErrorRate` lies between 0 and 1. -/
theorem scorer_lengths_and_error_rate (sqrt exp : α → α) (iranOptimized : Bool)
    (calls : List ScorerCall) :
    ((NewEnhancedHealthScorer iranOptimized : EnhancedHealthScorer α).run sqrt exp
          calls).metrics.Latencies.length =
        ((NewEnhancedHealthScorer iranOptimized : EnhancedHealthScorer α).run sqrt exp
          calls).metrics.Timestamps.length ∧
      0 ≤ ((NewEnhancedHealthScorer iranOptimized : EnhancedHealthScorer α).run sqrt exp
          calls).metrics.ErrorRate ∧
      ((NewEnhancedHealthScorer iranOptimized : EnhancedHealthScorer α).run sqrt exp
          calls).metrics.ErrorRate ≤ 1 :=
  run_consistent sqrt exp calls _ ⟨rfl, le_refl _, zero_le_one⟩

/-- Claim C9, evaluated on the code: after the outcomes ok, error, ok, error, ok
on a new scorer `ErrorRate` is 2/3, not the 0.4 = 2/(3+2) of the claim.
`RecordError` divides by `len(Latencies) + 1`, which leaves out the errors
recorded before, and `RecordLatency` does not touch the rate. -/
theorem error_rate_ok_error_ok_error_ok (sqrt exp : α → α) (iranOptimized : Bool)
    (t1 t2 t3 : Int) :
    ((NewEnhancedHealthScorer iranOptimized : EnhancedHealthScorer α).run sqrt exp
        [ScorerCall.recordLatency 100 t1, ScorerCall.recordError,
          ScorerCall.recordLatency 110 t2, ScorerCall.recordError,
          ScorerCall.recordLatency 105 t3]).metrics.ErrorRate = 2 / 3 ∧
      ((NewEnhancedHealthScorer iranOptimized : EnhancedHealthScorer α).run sqrt exp
        [ScorerCall.recordLatency 100 t1, ScorerCall.recordError,
          ScorerCall.recordLatency 110 t2, ScorerCall.recordError,
          ScorerCall.recordLatency 105 t3]).metrics.ErrorRate ≠ 4 / 10 := by
  have h : ((NewEnhancedHealthScorer iranOptimized : EnhancedHealthScorer α).run sqrt exp
        [ScorerCall.recordLatency 100 t1, ScorerCall.recordError,
          ScorerCall.recordLatency 110 t2, ScorerCall.recordError,
          ScorerCall.recordLatency 105 t3]).metrics.ErrorRate = 2 / 3 := by
    simp only [EnhancedHealthScorer.run, List.foldl, EnhancedHealthScorer.step,
      EnhancedHealthScorer.RecordLatency, EnhancedHealthScorer.RecordError,
      NewEnhancedHealthScorer, List.nil_append, List.length_cons, List.length_nil,
      List.cons_append]
    norm_num [goInt]
  rw [h]
  exact ⟨rfl, by norm_num⟩

theorem wrapInt64_wrap_add (a b : Int) : wrapInt64 (wrapInt64 a + b) = wrapInt64 (a + b) := by
  unfold wrapInt64
  omega

theorem wrapInt64_of_range (x : Int) (hlo : -2 ^ 63 ≤ x) (hhi : x < 2 ^ 63) :
    wrapInt64 x = x := by
  unfold wrapInt64
  omega

theorem foldl_wrap_sum (xs : List Int) :
    ∀ a : Int, wrapInt64 a = a →
      xs.foldl (fun sum lat => wrapInt64 (sum + lat)) a = wrapInt64 (a + xs.sum) := by
  induction xs with
  | nil => intro a ha; simp [ha]
  | cons x rest ih =>
    intro a _
    have hidem : wrapInt64 (wrapInt64 (a + x)) = wrapInt64 (a + x) := by
      have := wrapInt64_wrap_add (a + x) 0
      simpa using this
    rw [List.foldl_cons, ih _ hidem, wrapInt64_wrap_add, List.sum_cons, add_assoc]

theorem foldl_add_map (g : Int → α) (xs : List Int) :
    ∀ a : α, xs.foldl (fun v x => v + g x) a = a + (xs.map g).sum := by
  induction xs with
  | nil => intro a; simp
  | cons x rest ih => intro a; rw [List.foldl_cons, ih, List.map_cons, List.sum_cons, add_assoc]

theorem calculateMeanLatency_eq (ehs : EnhancedHealthScorer α)
    (hne : ehs.metrics.Latencies.length ≠ 0)
    (hlo : -2 ^ 63 ≤ ehs.metrics.Latencies.sum) (hhi : ehs.metrics.Latencies.sum < 2 ^ 63) :
    ehs.calculateMeanLatency =
      ((ehs.metrics.Latencies.sum : Int) : α) / (ehs.metrics.Latencies.length : α) := by
  unfold EnhancedHealthScorer.calculateMeanLatency
  rw [if_neg hne]
  simp only
  rw [foldl_wrap_sum _ 0 (by decide), zero_add, wrapInt64_of_range _ hlo hhi]

end ScorerTheorems

/-- In exact arithmetic (`float64` read as the real numbers, every conversion and
operation without rounding), for a scorer whose latencies have a sum in the
`int64` range, so that the accumulator of `calculateMeanLatency` does not wrap,
`CalculateJitter` with the real square root returns, for two or more latencies,
a value `j ≥ 0` with `j * j` the population variance `(1/n) * sum (x_i - m)^2`
around the arithmetic mean `m`; with fewer than two latencies it returns 0. -/
theorem jitter_population_stddev (ehs : EnhancedHealthScorer ℝ)
    (hlo : -2 ^ 63 ≤ ehs.metrics.Latencies.sum) (hhi : ehs.metrics.Latencies.sum < 2 ^ 63) :
    if 2 ≤ ehs.metrics.Latencies.length then
      0 ≤ (ehs.CalculateJitter Real.sqrt).1 ∧
        (ehs.CalculateJitter Real.sqrt).1 * (ehs.CalculateJitter Real.sqrt).1 =
          specPopulationVariance ℝ ehs.metrics.Latencies
    else (ehs.CalculateJitter Real.sqrt).1 = 0 := by
  split_ifs with hn
  · have hne : ehs.metrics.Latencies.length ≠ 0 := by omega
    have hmean := calculateMeanLatency_eq ehs hne hlo hhi
    unfold EnhancedHealthScorer.CalculateJitter
    rw [if_neg (by omega)]
    simp only
    rw [foldl_add_map (fun x : Int => ((x : ℝ) - ehs.calculateMeanLatency) * ((x : ℝ) - ehs.calculateMeanLatency)),
      zero_add, hmean]
    have hv : 0 ≤ (ehs.metrics.Latencies.map (fun x : Int =>
        ((x : ℝ) - ((ehs.metrics.Latencies.sum : Int) : ℝ) / (ehs.metrics.Latencies.length : ℝ)) *
          ((x : ℝ) - ((ehs.metrics.Latencies.sum : Int) : ℝ) / (ehs.metrics.Latencies.length : ℝ)))).sum /
          (ehs.metrics.Latencies.length : ℝ) := by
      apply div_nonneg
      · apply List.sum_nonneg
        intro y hy
        obtain ⟨x, _, rfl⟩ := List.mem_map.mp hy
        exact mul_self_nonneg _
      · exact Nat.cast_nonneg _
    refine ⟨Real.sqrt_nonneg _, ?_⟩
    rw [Real.mul_self_sqrt hv]
    unfold specPopulationVariance
    simp only [pow_two]
    ring
  · unfold EnhancedHealthScorer.CalculateJitter
    rw [if_pos (by omega)]

/-- The jitter in exact arithmetic at the three latencies 100, 110, 105 of
`TestEnhancedHealthScorer`. -/
theorem jitter_population_stddev_witness :
    0 ≤ ((testScorer : EnhancedHealthScorer ℝ).CalculateJitter Real.sqrt).1 ∧
      ((testScorer : EnhancedHealthScorer ℝ).CalculateJitter Real.sqrt).1 * ((testScorer : EnhancedHealthScorer ℝ).CalculateJitter Real.sqrt).1 =
        specPopulationVariance ℝ (testScorer : EnhancedHealthScorer ℝ).metrics.Latencies := by
  have h := jitter_population_stddev (testScorer : EnhancedHealthScorer ℝ) (by decide) (by decide)
  rw [if_pos (by decide)] at h
  exact h

/-- Claim C10, evaluated on the code: with the latency `2^62` recorded twice the
`int64` sum of `calculateMeanLatency` wraps to `-2^63`, the mean is taken as
`-2^62`, each deviation is `2^63`, and `CalculateJitter` returns `2^63`, while the
population variance of the two equal latencies, and with it the standard
deviation that the comment of `CalculateJitter` announces, is 0.  Every value on
the way is a power of two, which a double holds exactly. -/
theorem jitter_after_int64_wraparound :
    ((wrapScorer : EnhancedHealthScorer ℝ).CalculateJitter Real.sqrt).1 = 2 ^ 63 ∧
      specPopulationVariance ℝ (wrapScorer : EnhancedHealthScorer ℝ).metrics.Latencies = 0 ∧
      ¬ (((wrapScorer : EnhancedHealthScorer ℝ).CalculateJitter Real.sqrt).1 * ((wrapScorer : EnhancedHealthScorer ℝ).CalculateJitter Real.sqrt).1 =
          specPopulationVariance ℝ (wrapScorer : EnhancedHealthScorer ℝ).metrics.Latencies) := by
  have hj : ((wrapScorer : EnhancedHealthScorer ℝ).CalculateJitter Real.sqrt).1 = 2 ^ 63 := by
    have hw : wrapInt64 (wrapInt64 (0 + 2 ^ 62) + 2 ^ 62) = -2 ^ 63 := by decide
    simp only [wrapScorer, EnhancedHealthScorer.CalculateJitter,
      EnhancedHealthScorer.calculateMeanLatency, EnhancedHealthScorer.RecordLatency,
      NewEnhancedHealthScorer, List.nil_append, List.cons_append, List.length_cons,
      List.length_nil, List.foldl, hw]
    norm_num
    rw [show (85070591730234615865843651857942052864 : ℝ) = 9223372036854775808 ^ 2 by norm_num]
    exact Real.sqrt_sq (by norm_num)
  have hv : specPopulationVariance ℝ (wrapScorer : EnhancedHealthScorer ℝ).metrics.Latencies = 0 := by
    simp only [wrapScorer, specPopulationVariance, EnhancedHealthScorer.RecordLatency,
      NewEnhancedHealthScorer, List.nil_append, List.cons_append, List.length_cons,
      List.length_nil, List.map, List.sum_cons, List.sum_nil]
    norm_num
  refine ⟨hj, hv, ?_⟩
  rw [hj, hv]
  norm_num

/-! ## Theorems: the fragmenting connection -/

theorem NetConn.Write_reliable (c : NetConn) (h : c.reliable) (b : List Nat) :
    c.Write b = (((b.length : Int), none), { c with writes := c.writes ++ [b] }) := by
  unfold NetConn.Write
  rw [h]

theorem remainderLoop_done (fs : Int) (hfs : 1 ≤ fs) :
    ∀ (fuel : Nat) (remaining : List Nat) (st : WriteState),
      st.conn.reliable → remaining.length < fuel →
      ∃ (st' : WriteState) (chunks : List (List Nat)),
        remainderLoop fs fuel remaining st = LoopExit.done st' ∧ st'.conn.reliable ∧
          st'.conn.writes = st.conn.writes ++ chunks ∧
          st'.totalWritten = st.totalWritten + remaining.length ∧ chunks.flatten = remaining := by
  intro fuel
  induction fuel with
  | zero => intro remaining st _ hlt; omega
  | succ fuel ih =>
    intro remaining st hrel hlt
    unfold remainderLoop
    by_cases hpos : remaining.length > 0
    · rw [if_pos hpos]
      simp only
      have hc1 : (1 : Int) ≤ (if fs * 4 > (remaining.length : Int) then (remaining.length : Int) else fs * 4) := by
        split_ifs <;> omega
      have hc2 : (if fs * 4 > (remaining.length : Int) then (remaining.length : Int) else fs * 4) ≤ remaining.length := by
        split_ifs <;> omega
      generalize (if fs * 4 > (remaining.length : Int) then (remaining.length : Int) else fs * 4) = c at hc1 hc2
      rw [if_neg (by omega), NetConn.Write_reliable _ hrel]
      simp only
      have hlen : (remaining.drop c.toNat).length < fuel := by
        rw [List.length_drop]; omega
      obtain ⟨st', chunks, hrun, hrel', hw, ht, hj⟩ :=
        ih (remaining.drop c.toNat)
          { conn := { st.conn with writes := st.conn.writes ++ [remaining.take c.toNat] },
            totalWritten := st.totalWritten + ((remaining.take c.toNat).length : Int),
            fragmentCount := st.fragmentCount + 1 } hrel hlen
      refine ⟨st', remaining.take c.toNat :: chunks, hrun, hrel', ?_, ?_, ?_⟩
      · rw [hw]; simp
      · rw [ht]
        simp only [List.length_take, List.length_drop]
        omega
      · rw [List.flatten_cons, hj, List.take_append_drop]
    · rw [if_neg hpos]
      have hnil : remaining = [] := by
        cases remaining with
        | nil => rfl
        | cons x xs => simp at hpos
      exact ⟨st, [], rfl, hrel, by simp, by simp [hnil], by simp [hnil]⟩

theorem take_drop_append_drop (l : List Nat) :
    ∀ (j e : Nat), j ≤ e → (l.take e).drop j ++ l.drop e = l.drop j := by
  induction l with
  | nil => intro j e _; simp
  | cons x xs ih =>
    intro j e hje
    cases e with
    | zero =>
      have : j = 0 := by omega
      subst this; simp
    | succ e =>
      cases j with
      | zero => simp
      | succ j => simpa using ih j e (by omega)

theorem sniChunkLoop_done (sniData : List Nat) (chunkSize : Int) (hc : 1 ≤ chunkSize) :
    ∀ (fuel : Nat) (j : Int) (st : WriteState),
      st.conn.reliable → 0 ≤ j → ((sniData.length : Int) - j).toNat < fuel →
      ∃ (st' : WriteState) (chunks : List (List Nat)),
        sniChunkLoop sniData chunkSize fuel j st = LoopExit.done st' ∧ st'.conn.reliable ∧
          st'.conn.writes = st.conn.writes ++ chunks ∧
          st'.totalWritten = st.totalWritten + (((sniData.length : Int) - j).toNat : Int) ∧
          chunks.flatten = sniData.drop j.toNat := by
  intro fuel
  induction fuel with
  | zero => intro j st _ _ hlt; omega
  | succ fuel ih =>
    intro j st hrel hj0 hlt
    unfold sniChunkLoop
    by_cases hpos : j < (sniData.length : Int)
    · rw [if_pos hpos]
      simp only
      have he1 : j < (if j + chunkSize > sniData.length then (sniData.length : Int) else j + chunkSize) := by
        split_ifs <;> omega
      have he2 : (if j + chunkSize > sniData.length then (sniData.length : Int) else j + chunkSize) ≤ sniData.length := by
        split_ifs <;> omega
      have he3 : ((sniData.length : Int) - (j + chunkSize)).toNat =
          sniData.length - (if j + chunkSize > sniData.length then (sniData.length : Int) else j + chunkSize).toNat := by
        split_ifs <;> omega
      have he4 : sniData.drop (j + chunkSize).toNat =
          sniData.drop (if j + chunkSize > sniData.length then (sniData.length : Int) else j + chunkSize).toNat := by
        split_ifs with h
        · rw [List.drop_eq_nil_of_le (by omega), List.drop_eq_nil_of_le (by omega)]
        · rfl
      generalize (if j + chunkSize > sniData.length then (sniData.length : Int) else j + chunkSize) = e
        at he1 he2 he3 he4
      rw [if_neg (by omega), NetConn.Write_reliable _ hrel]
      simp only
      obtain ⟨st', chunks, hrun, hrel', hw, ht, hfl⟩ :=
        ih (j + chunkSize)
          { conn := { st.conn with
              writes := st.conn.writes ++ [(sniData.take e.toNat).drop j.toNat] },
            totalWritten := st.totalWritten + (((sniData.take e.toNat).drop j.toNat).length : Int),
            fragmentCount := st.fragmentCount + 1 } hrel (by omega) (by omega)
      refine ⟨st', (sniData.take e.toNat).drop j.toNat :: chunks, hrun, hrel', ?_, ?_, ?_⟩
      · rw [hw]; simp
      · rw [ht, he3]
        simp only [List.length_take, List.length_drop]
        omega
      · rw [List.flatten_cons, hfl, he4]
        exact take_drop_append_drop sniData j.toNat e.toNat (by omega)
    · rw [if_neg hpos]
      refine ⟨st, [], rfl, hrel, by simp, ?_, ?_⟩
      · have : ((sniData.length : Int) - j).toNat = 0 := by omega
        rw [this]; simp
      · rw [List.drop_eq_nil_of_le (by omega)]; rfl

theorem writeRemainder_reliable (fc : FragmentedConn) (hfs : 1 ≤ fc.fragmenter.fragmentSize)
    (remaining : List Nat) (st : WriteState) (hrel : st.conn.reliable) :
    ∃ (fc' : FragmentedConn) (chunks : List (List Nat)),
      fc.writeRemainder remaining st =
          some ((st.totalWritten + (remaining.length : Int), none), fc') ∧
        fc'.Conn.writes = st.conn.writes ++ chunks ∧ chunks.flatten = remaining := by
  obtain ⟨st', chunks, hrun, _, hw, ht, hfl⟩ :=
    remainderLoop_done fc.fragmenter.fragmentSize hfs (remaining.length + 1) remaining st hrel
      (Nat.lt_succ_self _)
  refine ⟨{ fc with Conn := st'.conn, fragmentsUsed := st'.fragmentCount }, chunks, ?_, hw, hfl⟩
  unfold FragmentedConn.writeRemainder
  rw [hrun, ← ht]

theorem findSNIOffset_lt (data : List Nat) : findSNIOffset data < data.length := by
  unfold findSNIOffset
  split_ifs with h
  · omega
  · split
    · next i hfind =>
      have hmem := List.mem_of_find?_eq_some hfind
      have := List.mem_range.mp hmem
      omega
    · omega

theorem writePayload_reliable (fc : FragmentedConn) (hfs : 1 ≤ fc.fragmenter.fragmentSize)
    (remaining : List Nat) (st : WriteState) (hrel : st.conn.reliable)
    (hfc : 0 ≤ st.fragmentCount) :
    ∃ (fc' : FragmentedConn) (chunks : List (List Nat)),
      fc.writePayload remaining st =
          some ((st.totalWritten + (remaining.length : Int), none), fc') ∧
        fc'.Conn.writes = st.conn.writes ++ chunks ∧ chunks.flatten = remaining := by
  unfold FragmentedConn.writePayload
  by_cases hsni : findSNIOffset remaining > 0 ∧
      findSNIOffset remaining < (remaining.length : Int) - 10
  · simp only [if_pos hsni]
    generalize findSNIOffset remaining = off at hsni
    rw [NetConn.Write_reliable _ hrel]
    simp only
    generalize hsl : (if 30 > (remaining.drop off.toNat).length then
      (remaining.drop off.toNat).length else 30) = sl
    have hchunk : (1 : Int) ≤ 3 + Int.tmod (st.fragmentCount + 1) 3 := by
      have := Int.tmod_nonneg (3 : Int) (by omega : (0 : Int) ≤ st.fragmentCount + 1)
      omega
    obtain ⟨st2, chunks1, hrun, hrel2, hw2, ht2, hfl2⟩ :=
      sniChunkLoop_done ((remaining.drop off.toNat).take sl)
        (3 + Int.tmod (st.fragmentCount + 1) 3) hchunk
        (((remaining.drop off.toNat).take sl).length + 1) 0
        { conn := { st.conn with writes := st.conn.writes ++ [remaining.take off.toNat] },
          totalWritten := st.totalWritten + ((remaining.take off.toNat).length : Int),
          fragmentCount := st.fragmentCount + 1 } hrel (le_refl _) (by omega)
    obtain ⟨fc', chunks2, hrem, hw3, hfl3⟩ :=
      writeRemainder_reliable fc hfs ((remaining.drop off.toNat).drop sl) st2 hrel2
    refine ⟨fc', remaining.take off.toNat :: (chunks1 ++ chunks2), ?_, ?_, ?_⟩
    · simp only [hrun, hrem, ht2]
      simp only [List.length_take, List.length_drop, Option.some.injEq, Prod.mk.injEq, and_true]
      omega
    · rw [hw3, hw2]; simp
    · rw [List.flatten_cons, List.flatten_append, hfl2, hfl3]
      simp
  · simp only [if_neg hsni]
    exact writeRemainder_reliable fc hfs remaining st hrel

theorem fragmentAndWrite_reliable (fc : FragmentedConn) (hfs : 1 ≤ fc.fragmenter.fragmentSize)
    (hrel : fc.Conn.reliable) (data : List Nat) :
    ∃ (fc' : FragmentedConn) (chunks : List (List Nat)),
      fc.fragmentAndWrite data = some (((data.length : Int), none), fc') ∧
        fc'.Conn.writes = fc.Conn.writes ++ chunks ∧ chunks.flatten = data := by
  unfold FragmentedConn.fragmentAndWrite
  by_cases hsmall : (data.length : Int) ≤ fc.fragmenter.fragmentSize
  · simp only [if_pos hsmall]
    rw [NetConn.Write_reliable _ hrel]
    exact ⟨_, [data], rfl, rfl, by simp⟩
  · simp only [if_neg hsmall]
    by_cases hlen : data.length > 5
    · simp only [if_pos hlen]
      rw [NetConn.Write_reliable _ hrel]
      simp only
      obtain ⟨fc', chunks, hrun, hw, hfl⟩ :=
        writePayload_reliable fc hfs (data.drop 5)
          { conn := { fc.Conn with writes := fc.Conn.writes ++ [data.take 5] },
            totalWritten := 0 + ((data.take 5).length : Int), fragmentCount := 1 } hrel
          Int.one_nonneg
      refine ⟨fc', data.take 5 :: chunks, ?_, ?_, ?_⟩
      · rw [hrun]
        simp only [List.length_take, List.length_drop, Option.some.injEq, Prod.mk.injEq, and_true]
        omega
      · rw [hw]; simp
      · rw [List.flatten_cons, hfl, List.take_append_drop]
    · simp only [if_neg hlen]
      obtain ⟨fc', chunks, hrun, hw, hfl⟩ :=
        writePayload_reliable fc hfs data
          { conn := fc.Conn, totalWritten := 0, fragmentCount := 0 } hrel (le_refl _)
      refine ⟨fc', chunks, ?_, hw, hfl⟩
      rw [hrun]; simp

/-- Claim C3: for every buffer `b`, every state of the wrapper and every fragment
size of at least 1, if every `Write` on the underlying connection succeeds in
full, then `FragmentedConn.Write(b)` returns, its result is `(len(b), nil)`, and
the chunks it hands to the underlying connection, concatenated in order, are `b`. -/
theorem write_emits_exactly_the_buffer (fc : FragmentedConn) (b : List Nat)
    (hfs : 1 ≤ fc.fragmenter.fragmentSize) (hrel : fc.Conn.reliable) :
    ∃ (fc' : FragmentedConn) (chunks : List (List Nat)),
      fc.Write b = some (((b.length : Int), none), fc') ∧
        fc'.Conn.writes = fc.Conn.writes ++ chunks ∧ chunks.flatten = b := by
  unfold FragmentedConn.Write
  split_ifs
  · rw [NetConn.Write_reliable _ hrel]
    exact ⟨_, [b], rfl, rfl, by simp⟩
  · rw [NetConn.Write_reliable _ hrel]
    exact ⟨_, [b], rfl, rfl, by simp⟩
  · exact fragmentAndWrite_reliable { fc with firstWrite := false } hfs hrel b

/-- Claim C3 at a fresh connection and a 77-byte TLS record that takes the SNI branch. -/
theorem write_emits_exactly_the_buffer_witness :
    ∃ (fc' : FragmentedConn) (chunks : List (List Nat)),
      (NewFragmentedConn reliableConn NewSNIFragmenter).Write sampleClientHello =
          some (((sampleClientHello.length : Int), none), fc') ∧
        fc'.Conn.writes = (NewFragmentedConn reliableConn NewSNIFragmenter).Conn.writes ++ chunks ∧
        chunks.flatten = sampleClientHello :=
  write_emits_exactly_the_buffer (NewFragmentedConn reliableConn NewSNIFragmenter)
    sampleClientHello (by decide) (fun _ _ => rfl)

/-- Once `firstWrite` is cleared (which `Write` does only on the path that
fragments), every later `Write` hands its buffer to the underlying connection as
one write and returns that write's result. -/
theorem Write_after_fragmenting (fc : FragmentedConn) (h : fc.firstWrite = false)
    (b : List Nat) :
    fc.Write b =
      some (fc.Conn.answer fc.Conn.writes.length b,
        { fc with Conn := { fc.Conn with writes := fc.Conn.writes ++ [b] } }) := by
  unfold FragmentedConn.Write NetConn.Write
  simp [h]

/-- Claim C2, evaluated on the code: on a fresh connection with the fragmenter of
`NewSNIFragmenter`, a first write of the three bytes `01 02 03` (no TLS record)
passes through and leaves `firstWrite` set, so the second write, a 7-byte TLS
handshake record, reaches the underlying connection as two writes (the 5-byte
header, then the 2-byte payload), not as one. -/
theorem second_write_fragmented_after_plain_first_write :
    ((NewFragmentedConn reliableConn NewSNIFragmenter).writeAll
        [[1, 2, 3], [0x16, 0x03, 0x01, 0x00, 0x02, 0xAA, 0xBB]]).map
      (fun fc => (fc.Conn.writes, fc.firstWrite)) =
      some ([[1, 2, 3], [0x16, 0x03, 0x01, 0x00, 0x02], [0xAA, 0xBB]], false) := by
  decide

/-! ## Theorems: the config generators -/

theorem foldl_invariant {σ τ : Type} (I : σ → Prop) (f : σ → τ → σ) (l : List τ)
    (h : ∀ s t, t ∈ l → I s → I (f s t)) : ∀ s, I s → I (l.foldl f s) := by
  induction l with
  | nil => intro s hs; exact hs
  | cons t rest ih =>
    intro s hs
    exact ih (fun s' t' ht' => h s' t' (List.mem_cons_of_mem _ ht')) _
      (h s t (List.mem_cons_self _ _) hs)

@[simp] theorem withIranScore_Protocol (c : Config) :
    c.withIranScore.Protocol = c.Protocol := rfl

@[simp] theorem withIranScore_Network (c : Config) :
    c.withIranScore.Network = c.Network := rfl

@[simp] theorem withIranScore_Security (c : Config) :
    c.withIranScore.Security = c.Security := rfl

theorem withIranScore_scored (c : Config) : c.withIranScore.scored := by
  refine ⟨rfl, ?_⟩
  simp [Config.withIranScore]

theorem withIranScore_spec (c : Config) :
    c.withIranScore.triple = c.triple ∧ c.withIranScore.scored := by
  refine ⟨rfl, rfl, ?_⟩
  simp [Config.withIranScore]

theorem ConfigGenerator.all_append (m : Bool) (Q : Config → Prop) (cg : ConfigGenerator)
    (config : Config) (cg' : ConfigGenerator) (h : cg.all m Q)
    (hm : cg'.iranMode = cg.iranMode) (hc : cg'.configs = cg.configs) (hq : Q config) :
    ConfigGenerator.all m Q { cg' with configs := cg'.configs ++ [config] } := by
  refine ⟨hm.trans h.1, ?_⟩
  intro c hcmem
  simp only [List.mem_append, List.mem_singleton] at hcmem
  rcases hcmem with hcmem | rfl
  · exact h.2 c (hc ▸ hcmem)
  · exact hq

theorem createVMessConfig_spec (src : RandomSource) (cg : ConfigGenerator)
    (uuid transport security : String) :
    (cg.createVMessConfig src uuid transport security).2.iranMode = cg.iranMode ∧
      (cg.createVMessConfig src uuid transport security).2.configs = cg.configs ∧
      (cg.createVMessConfig src uuid transport security).1.triple =
        ("vmess", transport, security) ∧
      (cg.createVMessConfig src uuid transport security).1.scored := by
  unfold ConfigGenerator.createVMessConfig
  simp only
  split_ifs <;>
    simp [ConfigGenerator.getRandomPath, ConfigGenerator.getRandomSNI,
      ConfigGenerator.getRandomFingerprint, ConfigGenerator.getRandomServiceName,
      ConfigGenerator.drawFrom, withIranScore_scored, Config.triple] <;>
    split_ifs <;> simp

theorem createVLESSConfig_spec (src : RandomSource) (cg : ConfigGenerator)
    (uuid transport security : String) :
    (cg.createVLESSConfig src uuid transport security).2.iranMode = cg.iranMode ∧
      (cg.createVLESSConfig src uuid transport security).2.configs = cg.configs ∧
      (cg.createVLESSConfig src uuid transport security).1.triple =
        ("vless", transport, security) ∧
      (cg.createVLESSConfig src uuid transport security).1.scored := by
  unfold ConfigGenerator.createVLESSConfig
  simp only
  split_ifs <;>
    simp [ConfigGenerator.getRandomPath, ConfigGenerator.getRandomSNI,
      ConfigGenerator.getRandomFingerprint, ConfigGenerator.getRandomServiceName,
      ConfigGenerator.getRandomFlow, ConfigGenerator.drawText,
      ConfigGenerator.drawFrom, withIranScore_scored, Config.triple] <;>
    split_ifs <;> simp

theorem createTrojanConfig_spec (src : RandomSource) (cg : ConfigGenerator)
    (password transport : String) :
    (cg.createTrojanConfig src password transport).2.iranMode = cg.iranMode ∧
      (cg.createTrojanConfig src password transport).2.configs = cg.configs ∧
      (cg.createTrojanConfig src password transport).1.triple = ("trojan", transport, "tls") ∧
      (cg.createTrojanConfig src password transport).1.scored := by
  unfold ConfigGenerator.createTrojanConfig
  simp only
  split_ifs <;>
    simp [ConfigGenerator.getRandomPath, ConfigGenerator.getRandomSNI,
      ConfigGenerator.getRandomFingerprint, ConfigGenerator.getRandomServiceName,
      ConfigGenerator.drawFrom, withIranScore_scored, Config.triple] <;>
    split_ifs <;> simp

theorem createShadowsocksConfig_spec (cg : ConfigGenerator) (password cipher : String) :
    (cg.createShadowsocksConfig password cipher).triple = ("shadowsocks", "tcp", "none") ∧
      (cg.createShadowsocksConfig password cipher).scored :=
  ⟨rfl, withIranScore_scored _⟩

theorem basicBuilt_of_triple (c : Config) (p n s : String) (h : c.triple = (p, n, s))
    (hs : c.scored) (ha : allowedTriple p n s = true) : c.basicBuilt := by
  simp only [Config.triple, Prod.mk.injEq] at h
  obtain ⟨h1, h2, h3⟩ := h
  exact ⟨by unfold Config.allowed; rw [h1, h2, h3]; exact ha, hs⟩

theorem generateVMessConfigs_all (src : RandomSource) (m : Bool) (cg : ConfigGenerator)
    (h : cg.all m Config.basicBuilt) :
    (cg.generateVMessConfigs src).all m Config.basicBuilt := by
  unfold ConfigGenerator.generateVMessConfigs
  simp only [ConfigGenerator.drawText]
  apply foldl_invariant (ConfigGenerator.all m Config.basicBuilt)
  · intro s t ht hs
    have ht' : t = "xhttp" ∨ t = "ws" ∨ t = "grpc" ∨ t = "h2" := by
      split_ifs at ht <;> simp at ht <;> tauto
    have hall : ∀ sec, sec = "tls" ∨ sec = "none" → allowedTriple "vmess" t sec = true := by
      intro sec hsec
      rcases ht' with rfl | rfl | rfl | rfl <;> rcases hsec with rfl | rfl <;> decide
    obtain ⟨hm1, hc1, ht1, hs1⟩ := createVMessConfig_spec src s (src.text cg.draws) t SecurityTLS
    generalize s.createVMessConfig src (src.text cg.draws) t SecurityTLS = r1 at hm1 hc1 ht1 hs1
    obtain ⟨config1, cg1⟩ := r1
    simp only at hm1 hc1 ht1 hs1 ⊢
    have hstep1 := ConfigGenerator.all_append m Config.basicBuilt s config1 cg1 hs hm1 hc1
      (basicBuilt_of_triple _ _ _ _ ht1 hs1 (hall _ (Or.inl rfl)))
    split_ifs
    · obtain ⟨hm2, hc2, ht2, hs2⟩ := createVMessConfig_spec src
        { cg1 with configs := cg1.configs ++ [config1] } (src.text cg.draws) t SecurityNone
      generalize ConfigGenerator.createVMessConfig src
        { cg1 with configs := cg1.configs ++ [config1] } (src.text cg.draws) t SecurityNone = r2
        at hm2 hc2 ht2 hs2
      obtain ⟨config2, cg2⟩ := r2
      simp only at hm2 hc2 ht2 hs2 ⊢
      exact ConfigGenerator.all_append m Config.basicBuilt _ config2 cg2 hstep1 hm2 hc2
        (basicBuilt_of_triple _ _ _ _ ht2 hs2 (hall _ (Or.inr rfl)))
    · exact hstep1
  · exact ⟨h.1, h.2⟩

theorem generateShadowsocksConfigs_all (src : RandomSource) (m : Bool) (cg : ConfigGenerator)
    (h : cg.all m Config.basicBuilt) :
    (cg.generateShadowsocksConfigs src).all m Config.basicBuilt := by
  unfold ConfigGenerator.generateShadowsocksConfigs
  simp only [ConfigGenerator.drawText]
  apply foldl_invariant (ConfigGenerator.all m Config.basicBuilt)
  · intro s t _ hs
    exact ConfigGenerator.all_append m Config.basicBuilt s _ s hs rfl rfl
      (basicBuilt_of_triple _ _ _ _ (createShadowsocksConfig_spec s _ t).1
        (createShadowsocksConfig_spec s _ t).2 (by decide))
  · exact ⟨h.1, h.2⟩

theorem generateTrojanConfigs_all (src : RandomSource) (m : Bool) (cg : ConfigGenerator)
    (h : cg.all m Config.basicBuilt) :
    (cg.generateTrojanConfigs src).all m Config.basicBuilt := by
  unfold ConfigGenerator.generateTrojanConfigs
  simp only [ConfigGenerator.drawText]
  apply foldl_invariant (ConfigGenerator.all m Config.basicBuilt)
  · intro s t ht hs
    have ht' : t = "xhttp" ∨ t = "tcp" ∨ t = "ws" ∨ t = "grpc" := by
      split_ifs at ht <;> simp at ht <;> tauto
    have hall : allowedTriple "trojan" t "tls" = true := by
      rcases ht' with rfl | rfl | rfl | rfl <;> decide
    obtain ⟨hm1, hc1, ht1, hs1⟩ := createTrojanConfig_spec src s (src.text cg.draws) t
    generalize s.createTrojanConfig src (src.text cg.draws) t = r1 at hm1 hc1 ht1 hs1
    obtain ⟨config1, cg1⟩ := r1
    simp only at hm1 hc1 ht1 hs1 ⊢
    exact ConfigGenerator.all_append m Config.basicBuilt s config1 cg1 hs hm1 hc1
      (basicBuilt_of_triple _ _ _ _ ht1 hs1 hall)
  · exact ⟨h.1, h.2⟩

theorem generateVLESSConfigs_all (src : RandomSource) (m : Bool) (cg : ConfigGenerator)
    (h : cg.all m Config.basicBuilt) :
    (cg.generateVLESSConfigs src).all m Config.basicBuilt := by
  unfold ConfigGenerator.generateVLESSConfigs
  simp only [ConfigGenerator.drawText]
  apply foldl_invariant (ConfigGenerator.all m Config.basicBuilt)
  · intro s t ht hs
    have ht' : t = "xhttp" ∨ t = "httpupgrade" ∨ t = "ws" ∨ t = "grpc" ∨ t = "h2" ∨ t = "tcp" := by
      split_ifs at ht <;> simp at ht <;> tauto
    generalize hin : List.foldl _ s _ = cgin
    have hcgin : ConfigGenerator.all m Config.basicBuilt cgin := by
      rw [← hin]
      apply foldl_invariant (ConfigGenerator.all m Config.basicBuilt)
      · intro s' sec hsec hs'
        have hsec' : sec = "reality" ∨ sec = "tls" ∨ sec = "xtls" := by
          split_ifs at hsec <;> simp at hsec <;> tauto
        split_ifs with hskip1 hskip2
        · exact hs'
        · exact hs'
        · have hall : allowedTriple "vless" t sec = true := by
            rcases ht' with rfl | rfl | rfl | rfl | rfl | rfl <;>
              rcases hsec' with rfl | rfl | rfl <;>
              first
                | decide
                | (exfalso; revert hskip1 hskip2; decide)
          obtain ⟨hm1, hc1, ht1, hs1⟩ :=
            createVLESSConfig_spec src s' (src.text cg.draws) t sec
          generalize s'.createVLESSConfig src (src.text cg.draws) t sec = r1 at hm1 hc1 ht1 hs1
          obtain ⟨config1, cg1⟩ := r1
          simp only at hm1 hc1 ht1 hs1 ⊢
          exact ConfigGenerator.all_append m Config.basicBuilt s' config1 cg1 hs' hm1 hc1
            (basicBuilt_of_triple _ _ _ _ ht1 hs1 hall)
      · exact hs
    split_ifs with hplain
    · have hall : allowedTriple "vless" t "none" = true := by
        have : t = "ws" ∨ t = "h2" := by simpa using hplain
        rcases this with rfl | rfl <;> decide
      obtain ⟨hm1, hc1, ht1, hs1⟩ :=
        createVLESSConfig_spec src cgin (src.text cg.draws) t SecurityNone
      generalize cgin.createVLESSConfig src (src.text cg.draws) t SecurityNone = r1
        at hm1 hc1 ht1 hs1
      obtain ⟨config1, cg1⟩ := r1
      simp only at hm1 hc1 ht1 hs1 ⊢
      exact ConfigGenerator.all_append m Config.basicBuilt cgin config1 cg1 hcgin hm1 hc1
        (basicBuilt_of_triple _ _ _ _ ht1 hs1 hall)
    · exact hcgin
  · exact ⟨h.1, h.2⟩

theorem GenerateAllConfigs_all (src : RandomSource) (proxyInfo : ProxyInfo) (iranMode : Bool) :
    (((NewConfigGenerator proxyInfo iranMode).GenerateAllConfigs src)).all iranMode
      Config.basicBuilt := by
  unfold ConfigGenerator.GenerateAllConfigs
  apply generateTrojanConfigs_all
  apply generateShadowsocksConfigs_all
  apply generateVLESSConfigs_all
  apply generateVMessConfigs_all
  exact ⟨rfl, fun c hc => absurd hc (List.not_mem_nil c)⟩

theorem allowed_reality_xtls (c : Config) (h : c.allowed = true) :
    (c.Security = "reality" → c.Network = "tcp" ∨ c.Network = "grpc") ∧
      (c.Security = "xtls" → c.Network = "tcp") := by
  unfold Config.allowed allowedTriple at h
  constructor
  · intro hs
    rw [hs] at h
    simp at h
    exact h.2
  · intro hs
    rw [hs] at h
    simp at h
    exact h.2

/-- Claim C5: for every endpoint, in Iran mode and outside it, and for every
outcome of the random draws, every config returned by
`ConfigGenerator.GenerateAllConfigs` has its (Protocol, Network, Security)
triple in the table of section 4.8; security `reality` comes only with network
`tcp` or `grpc`, and security `xtls` only with network `tcp`. -/
theorem basic_generator_triples_whitelisted (src : RandomSource) (proxyInfo : ProxyInfo)
    (iranMode : Bool) (c : Config) :
    c ∈ ((NewConfigGenerator proxyInfo iranMode).GenerateAllConfigs src).configs →
      allowedTriple c.Protocol c.Network c.Security = true ∧
        (c.Security = "reality" → c.Network = "tcp" ∨ c.Network = "grpc") ∧
        (c.Security = "xtls" → c.Network = "tcp") := by
  intro hc
  have h := ((GenerateAllConfigs_all src proxyInfo iranMode).2 c hc).1
  exact ⟨h, allowed_reality_xtls c h⟩

theorem extendedBy_refl (Q : Config → Prop) (cg cg' : EnhancedConfigGenerator)
    (h1 : cg'.config = cg.config) (h2 : cg'.configs = cg.configs) :
    cg.extendedBy Q cg' :=
  ⟨h1, fun _ hc => h2 ▸ hc, fun _ hc => Or.inl (h2 ▸ hc)⟩

theorem extendedBy_append (Q : Config → Prop) (cg s cg' : EnhancedConfigGenerator)
    (config : Config) (h : cg.extendedBy Q s) (h1 : cg'.config = s.config)
    (h2 : cg'.configs = s.configs) (hq : Q config) :
    cg.extendedBy Q { cg' with configs := cg'.configs ++ [config] } := by
  obtain ⟨ha, hb, hc⟩ := h
  refine ⟨h1.trans ha, ?_, ?_⟩
  · intro c hcm
    simp only [List.mem_append, List.mem_singleton]
    exact Or.inl (h2 ▸ hb c hcm)
  · intro c hcm
    simp only [List.mem_append, List.mem_singleton] at hcm
    rcases hcm with hcm | rfl
    · exact hc c (h2 ▸ hcm)
    · exact Or.inr hq

theorem generateRealityConfigs_spec (src : RandomSource) (cg : EnhancedConfigGenerator) :
    cg.extendedBy (Config.builtBy cg.config "reality") (cg.generateRealityConfigs src) ∧
      ∃ c ∈ (cg.generateRealityConfigs src).configs,
        c.Security = "reality" ∧ c.IranOptimized = true := by
  unfold EnhancedConfigGenerator.generateRealityConfigs
  simp only [EnhancedConfigGenerator.drawText]
  constructor
  · apply extendedBy_append _ cg cg _ _ (extendedBy_refl _ cg cg rfl rfl) rfl rfl
    exact ⟨rfl, by simp [builderIranOptimized], by simp [Config.triple, builderTriples]⟩
  · exact ⟨_, List.mem_append_right _ (List.mem_singleton_self _), rfl, rfl⟩

theorem generateXHTTPConfigs_spec (src : RandomSource) (cg : EnhancedConfigGenerator) :
    cg.extendedBy (Config.builtBy cg.config "xhttp") (cg.generateXHTTPConfigs src) ∧
      ∃ c ∈ (cg.generateXHTTPConfigs src).configs,
        c.Network = "xhttp" ∧ c.IranOptimized = true := by
  unfold EnhancedConfigGenerator.generateXHTTPConfigs
  simp only [EnhancedConfigGenerator.drawText]
  constructor
  · apply extendedBy_append _ cg cg _ _ (extendedBy_refl _ cg cg rfl rfl) rfl rfl
    exact ⟨rfl, by simp [builderIranOptimized], by simp [Config.triple, builderTriples]⟩
  · exact ⟨_, List.mem_append_right _ (List.mem_singleton_self _), rfl, rfl⟩

theorem generateHysteria2Configs_spec (src : RandomSource) (cg : EnhancedConfigGenerator) :
    cg.extendedBy (Config.builtBy cg.config "hysteria2") (cg.generateHysteria2Configs src) := by
  unfold EnhancedConfigGenerator.generateHysteria2Configs
  simp only [EnhancedConfigGenerator.drawText]
  apply extendedBy_append _ cg cg _ _ (extendedBy_refl _ cg cg rfl rfl) rfl rfl
  exact ⟨rfl, by simp [builderIranOptimized], by simp [Config.triple, builderTriples]⟩

theorem generateTUICConfigs_spec (src : RandomSource) (cg : EnhancedConfigGenerator) :
    cg.extendedBy (Config.builtBy cg.config "tuic") (cg.generateTUICConfigs src) := by
  unfold EnhancedConfigGenerator.generateTUICConfigs
  simp only [EnhancedConfigGenerator.drawText]
  apply extendedBy_append _ cg cg _ _ (extendedBy_refl _ cg cg rfl rfl) rfl rfl
  exact ⟨rfl, by simp [builderIranOptimized], by simp [Config.triple, builderTriples]⟩

theorem generateVLESSXTLSConfigs_spec (src : RandomSource) (cg : EnhancedConfigGenerator) :
    cg.extendedBy (Config.builtBy cg.config "vless-xtls") (cg.generateVLESSXTLSConfigs src) := by
  unfold EnhancedConfigGenerator.generateVLESSXTLSConfigs
  simp only [EnhancedConfigGenerator.drawText]
  apply extendedBy_append _ cg cg _ _ (extendedBy_refl _ cg cg rfl rfl) rfl rfl
  exact ⟨rfl, by simp [builderIranOptimized], by simp [Config.triple, builderTriples]⟩

theorem createVMessConfigWithAI_spec (src : RandomSource) (cg : EnhancedConfigGenerator)
    (uuid transport security : String) (hq : transport ≠ "quic") :
    (cg.createVMessConfigWithAI src uuid transport security).2.config = cg.config ∧
      (cg.createVMessConfigWithAI src uuid transport security).2.configs = cg.configs ∧
      (cg.createVMessConfigWithAI src uuid transport security).1.HealthScore = 0 ∧
      (cg.createVMessConfigWithAI src uuid transport security).1.IranOptimized =
        cg.config.IranMode ∧
      (cg.createVMessConfigWithAI src uuid transport security).1.triple =
        ("vmess", transport, security) := by
  unfold EnhancedConfigGenerator.createVMessConfigWithAI
  simp only [EnhancedConfigGenerator.drawText]
  split_ifs <;>
    simp_all [EnhancedConfigGenerator.getRandomPathAI, EnhancedConfigGenerator.getRandomSNI,
      EnhancedConfigGenerator.getRandomServiceName, EnhancedConfigGenerator.drawFrom,
      EnhancedConfigGenerator.drawText, Config.triple]

theorem extendedBy_of (Q : Config → Prop) (cg s cg' : EnhancedConfigGenerator)
    (config : Config) (h : cg.extendedBy Q s) (h1 : cg'.config = s.config)
    (h2 : cg'.configs = s.configs ++ [config]) (hq : Q config) : cg.extendedBy Q cg' := by
  obtain ⟨ha, hb, hc⟩ := h
  refine ⟨h1.trans ha, ?_, ?_⟩
  · intro c hcm
    rw [h2]
    exact List.mem_append_left _ (hb c hcm)
  · intro c hcm
    rw [h2] at hcm
    simp only [List.mem_append, List.mem_singleton] at hcm
    rcases hcm with hcm | rfl
    · exact hc c hcm
    · exact Or.inr hq

theorem generateVLESSConfigsAI_spec (src : RandomSource) (cg : EnhancedConfigGenerator) :
    cg.extendedBy (Config.builtBy cg.config "vless") (cg.generateVLESSConfigsAI src) := by
  unfold EnhancedConfigGenerator.generateVLESSConfigsAI
  simp only [EnhancedConfigGenerator.drawText]
  apply foldl_invariant (cg.extendedBy (Config.builtBy cg.config "vless"))
  · intro s t ht hs
    have hcfg : s.config = cg.config := hs.1
    simp only [List.mem_cons, List.mem_singleton, List.not_mem_nil, or_false] at ht
    rcases ht with rfl | rfl | rfl
    · refine extendedBy_of _ cg s _ _ hs rfl rfl ⟨rfl, ?_, ?_⟩
      · simp [builderIranOptimized, hcfg, TransportGRPC, TransportWebSocket, TransportTCP]
      · simp [Config.triple, builderTriples, TransportGRPC, TransportWebSocket, TransportTCP,
          ProtocolVLESS, SecurityTLS]
    · refine extendedBy_of _ cg s _ _ hs rfl rfl ⟨rfl, ?_, ?_⟩
      · simp [builderIranOptimized, hcfg, TransportGRPC, TransportWebSocket, TransportTCP]
      · simp [Config.triple, builderTriples, TransportGRPC, TransportWebSocket, TransportTCP,
          ProtocolVLESS, SecurityTLS]
    · refine extendedBy_of _ cg s _ _ hs rfl rfl ⟨rfl, ?_, ?_⟩
      · simp [builderIranOptimized, hcfg, TransportGRPC, TransportWebSocket, TransportTCP]
      · simp [Config.triple, builderTriples, TransportGRPC, TransportWebSocket, TransportTCP,
          ProtocolVLESS, SecurityTLS]
  · exact extendedBy_refl _ cg _ rfl rfl

theorem generateTrojanConfigsAI_spec (src : RandomSource) (cg : EnhancedConfigGenerator) :
    cg.extendedBy (Config.builtBy cg.config "trojan") (cg.generateTrojanConfigsAI src) := by
  unfold EnhancedConfigGenerator.generateTrojanConfigsAI
  simp only [EnhancedConfigGenerator.drawText]
  apply foldl_invariant (cg.extendedBy (Config.builtBy cg.config "trojan"))
  · intro s t ht hs
    have hcfg : s.config = cg.config := hs.1
    simp only [List.mem_cons, List.mem_singleton, List.not_mem_nil, or_false] at ht
    rcases ht with rfl | rfl | rfl
    · refine extendedBy_of _ cg s _ _ hs rfl rfl ⟨rfl, ?_, ?_⟩
      · simp [builderIranOptimized, hcfg, TransportGRPC, TransportWebSocket, TransportTCP]
      · simp [Config.triple, builderTriples, TransportGRPC, TransportWebSocket, TransportTCP,
          ProtocolTrojan, SecurityTLS]
    · refine extendedBy_of _ cg s _ _ hs rfl rfl ⟨rfl, ?_, ?_⟩
      · simp [builderIranOptimized, hcfg, TransportGRPC, TransportWebSocket, TransportTCP]
      · simp [Config.triple, builderTriples, TransportGRPC, TransportWebSocket, TransportTCP,
          ProtocolTrojan, SecurityTLS]
    · refine extendedBy_of _ cg s _ _ hs rfl rfl ⟨rfl, ?_, ?_⟩
      · simp [builderIranOptimized, hcfg, TransportGRPC, TransportWebSocket, TransportTCP]
      · simp [Config.triple, builderTriples, TransportGRPC, TransportWebSocket, TransportTCP,
          ProtocolTrojan, SecurityTLS]
  · exact extendedBy_refl _ cg _ rfl rfl

theorem generateShadowsocksConfigsAI_spec (src : RandomSource) (cg : EnhancedConfigGenerator) :
    cg.extendedBy (Config.builtBy cg.config "shadowsocks")
      (cg.generateShadowsocksConfigsAI src) := by
  unfold EnhancedConfigGenerator.generateShadowsocksConfigsAI
  simp only [EnhancedConfigGenerator.drawText]
  apply foldl_invariant (cg.extendedBy (Config.builtBy cg.config "shadowsocks"))
  · intro s t _ hs
    refine extendedBy_of _ cg s _ _ hs rfl rfl ⟨?_, ?_, ?_⟩
    · split_ifs <;> rfl
    · simp only [builderIranOptimized]
      split_ifs <;> simp_all
    · simp only [Config.triple, builderTriples]
      split_ifs <;> simp_all [ProtocolShadowsocks]
  · exact extendedBy_refl _ cg _ rfl rfl

theorem generateVMessConfigsAI_spec (src : RandomSource) (cg : EnhancedConfigGenerator) :
    cg.extendedBy (Config.builtBy cg.config "vmess") (cg.generateVMessConfigsAI src) := by
  unfold EnhancedConfigGenerator.generateVMessConfigsAI
  simp only [EnhancedConfigGenerator.drawText]
  apply foldl_invariant (cg.extendedBy (Config.builtBy cg.config "vmess"))
  · intro s t ht hs
    have hcfg : s.config = cg.config := hs.1
    have ht' : t = "xhttp" ∨ t = "ws" ∨ t = "grpc" ∨ t = "h2" := by
      split_ifs at ht <;> simp at ht <;> tauto
    have hq : t ≠ "quic" := by
      rcases ht' with rfl | rfl | rfl | rfl <;> decide
    have htcp : (t == TransportTCP) = false := by
      rcases ht' with rfl | rfl | rfl | rfl <;> decide
    have htr : (("vmess", t, "tls") : String × String × String) ∈ builderTriples "vmess" := by
      rcases ht' with rfl | rfl | rfl | rfl <;> decide
    obtain ⟨h1, h2, h3, h4, h5⟩ := createVMessConfigWithAI_spec src
      { s with draws := s.draws + 1 } (src.text cg.draws) t SecurityTLS hq
    generalize EnhancedConfigGenerator.createVMessConfigWithAI src
      { s with draws := s.draws + 1 } (src.text cg.draws) t SecurityTLS = r1 at h1 h2 h3 h4 h5
    obtain ⟨config1, cg1⟩ := r1
    simp only at h1 h2 h3 h4 h5 ⊢
    rw [htcp, Bool.and_false]
    simp only [Bool.false_eq_true, if_false]
    refine extendedBy_of _ cg s _ config1 hs h1 (by rw [h2]) ⟨h3, ?_, ?_⟩
    · rw [h4]
      simp [builderIranOptimized, hcfg]
    · rw [h5]; exact htr
  · exact extendedBy_refl _ cg _ rfl rfl

theorem extendedBy_trans (Q Q' : Config → Prop) (cg s s' : EnhancedConfigGenerator)
    (h : cg.extendedBy Q s) (h' : s.extendedBy Q' s') (hq : ∀ c, Q' c → Q c) :
    cg.extendedBy Q s' := by
  obtain ⟨ha, hb, hc⟩ := h
  obtain ⟨ha', hb', hc'⟩ := h'
  refine ⟨ha'.trans ha, fun c hcm => hb' c (hb c hcm), ?_⟩
  intro c hcm
  rcases hc' c hcm with h1 | h2
  · exact hc c h1
  · exact Or.inr (hq c h2)

theorem generateFor_spec (src : RandomSource) (cg : EnhancedConfigGenerator)
    (protocol : String) :
    cg.extendedBy (Config.builtBy cg.config protocol) (cg.generateFor src protocol) := by
  unfold EnhancedConfigGenerator.generateFor
  split_ifs with h1 h2 h3 h4 h5 h6 h7 h8 h9
  · subst h1; exact (generateRealityConfigs_spec src cg).1
  · subst h2; exact (generateXHTTPConfigs_spec src cg).1
  · subst h3; exact generateHysteria2Configs_spec src cg
  · subst h4; exact generateTUICConfigs_spec src cg
  · subst h5; exact generateVLESSXTLSConfigs_spec src cg
  · subst h6; exact generateVMessConfigsAI_spec src cg
  · subst h7; exact generateVLESSConfigsAI_spec src cg
  · subst h8; exact generateTrojanConfigsAI_spec src cg
  · subst h9; exact generateShadowsocksConfigsAI_spec src cg
  · exact extendedBy_refl _ cg cg rfl rfl

theorem foldl_generateFor_spec (src : RandomSource) (protocols : List String)
    (cg : EnhancedConfigGenerator) :
    cg.extendedBy (fun c => ∃ p ∈ protocols, c.builtBy cg.config p)
      (protocols.foldl (EnhancedConfigGenerator.generateFor src) cg) := by
  apply foldl_invariant
    (cg.extendedBy (fun c => ∃ p ∈ protocols, c.builtBy cg.config p))
  · intro s p hp hs
    apply extendedBy_trans _ _ cg s _ hs (generateFor_spec src s p)
    intro c hc
    exact ⟨p, hp, hs.1 ▸ hc⟩
  · exact extendedBy_refl _ cg cg rfl rfl

theorem foldl_generateFor_has (src : RandomSource) (name : String) (R : Config → Prop)
    (hgen : ∀ cg : EnhancedConfigGenerator, ∃ c ∈ (cg.generateFor src name).configs, R c)
    (protocols : List String) :
    ∀ cg : EnhancedConfigGenerator, name ∈ protocols →
      ∃ c ∈ (protocols.foldl (EnhancedConfigGenerator.generateFor src) cg).configs, R c := by
  induction protocols with
  | nil => intro cg h; exact absurd h (List.not_mem_nil _)
  | cons p rest ih =>
    intro cg h
    rw [List.foldl_cons]
    by_cases hp : name = p
    · subst hp
      obtain ⟨c, hc, hr⟩ := hgen cg
      exact ⟨c, (foldl_generateFor_spec src rest _).2.1 c hc, hr⟩
    · rcases List.mem_cons.mp h with h1 | h1
      · exact absurd h1 hp
      · exact ih _ h1

theorem optimizeConfig_sameCore (src : RandomSource) (draws : Nat) (c : Config) :
    c.sameCore (EnhancedConfigGenerator.optimizeConfig src draws c).1 := by
  unfold EnhancedConfigGenerator.optimizeConfig Config.sameCore Config.triple
  simp only
  split_ifs <;> simp

theorem applyAIOptimizations_foldl (src : RandomSource) (l : List Config) :
    ∀ acc : List Config × Nat,
      ∃ l' : List Config,
        (l.foldl
            (fun acc config =>
              match EnhancedConfigGenerator.optimizeConfig src acc.2 config with
              | (config, draws) => (acc.1 ++ [config], draws))
            acc).1 = acc.1 ++ l' ∧
          List.Forall₂ Config.sameCore l l' := by
  induction l with
  | nil => intro acc; exact ⟨[], by simp, List.Forall₂.nil⟩
  | cons c rest ih =>
    intro acc
    rw [List.foldl_cons]
    obtain ⟨l', h1, h2⟩ := ih
      (match EnhancedConfigGenerator.optimizeConfig src acc.2 c with
        | (config, draws) => (acc.1 ++ [config], draws))
    refine ⟨(EnhancedConfigGenerator.optimizeConfig src acc.2 c).1 :: l', ?_,
      List.Forall₂.cons (optimizeConfig_sameCore src acc.2 c) h2⟩
    rw [h1]
    simp

theorem forall2_mem_right (R : Config → Config → Prop) (l l' : List Config)
    (h : List.Forall₂ R l l') : ∀ c' ∈ l', ∃ c ∈ l, R c c' := by
  induction h with
  | nil => intro c' hc'; exact absurd hc' (List.not_mem_nil _)
  | cons hr _ ih =>
    intro c' hc'
    rcases List.mem_cons.mp hc' with rfl | hc'
    · exact ⟨_, List.mem_cons_self _ _, hr⟩
    · obtain ⟨c, hc, hrc⟩ := ih c' hc'
      exact ⟨c, List.mem_cons_of_mem _ hc, hrc⟩

theorem forall2_mem_left (R : Config → Config → Prop) (l l' : List Config)
    (h : List.Forall₂ R l l') : ∀ c ∈ l, ∃ c' ∈ l', R c c' := by
  induction h with
  | nil => intro c hc; exact absurd hc (List.not_mem_nil _)
  | cons hr _ ih =>
    intro c hc
    rcases List.mem_cons.mp hc with rfl | hc
    · exact ⟨_, List.mem_cons_self _ _, hr⟩
    · obtain ⟨c', hc', hrc⟩ := ih c hc
      exact ⟨c', List.mem_cons_of_mem _ hc', hrc⟩

theorem applyAIOptimizations_spec (src : RandomSource) (cg : EnhancedConfigGenerator) :
    List.Forall₂ Config.sameCore cg.configs (cg.applyAIOptimizations src).configs := by
  obtain ⟨l', h1, h2⟩ := applyAIOptimizations_foldl src cg.configs ([], cg.draws)
  unfold EnhancedConfigGenerator.applyAIOptimizations
  simp only
  rw [h1]
  simpa using h2

theorem selectOptimalProtocols_base (cg : EnhancedConfigGenerator) (p : String)
    (hp : p ∈ cg.selectOptimalProtocols) :
    builderIranOptimized cg.config p = cg.config.IranMode := by
  unfold EnhancedConfigGenerator.selectOptimalProtocols at hp
  simp only at hp
  generalize hb : (if cg.config.IranMode = true then
        if cg.config.DPIEvasionLevel = "maximum" then
          ["reality", "xhttp", "hysteria2", "tuic", "vless-xtls"]
        else if cg.config.DPIEvasionLevel = "aggressive" then
          ["reality", "xhttp", "vless-xtls", "vmess", "vless"]
        else ["vless-xtls", "vmess", "vless", "trojan"]
      else ["vmess", "vless", "trojan", "shadowsocks"]) = base at hp
  have hbase : p ∈ base := by
    split_ifs at hp
    · exact (List.mem_filter.mp hp).1
    · exact hp
    · exact hp
  rw [← hb] at hbase
  cases hm : cg.config.IranMode with
  | true =>
    rw [hm] at hbase
    simp only [if_true] at hbase
    split_ifs at hbase <;>
      simp only [List.mem_cons, List.mem_singleton, List.not_mem_nil, or_false] at hbase <;>
      rcases hbase with rfl | rfl | rfl | rfl | rfl <;>
      simp [builderIranOptimized, hm]
  | false =>
    rw [hm] at hbase
    simp only [Bool.false_eq_true, if_false, List.mem_cons, List.mem_singleton,
      List.not_mem_nil, or_false] at hbase
    rcases hbase with rfl | rfl | rfl | rfl <;> simp [builderIranOptimized, hm]

theorem selectOptimalProtocols_maximum (cg : EnhancedConfigGenerator)
    (hm : cg.config.IranMode = true) (hl : cg.config.DPIEvasionLevel = "maximum")
    (h : (filterKeeps cg.config.TestProtocols "reality" = true ∧
          filterKeeps cg.config.TestProtocols "xhttp" = true) ∨
        ∀ p ∈ ["reality", "xhttp", "hysteria2", "tuic", "vless-xtls"],
          filterKeeps cg.config.TestProtocols p = false) :
    "reality" ∈ cg.selectOptimalProtocols ∧ "xhttp" ∈ cg.selectOptimalProtocols := by
  unfold EnhancedConfigGenerator.selectOptimalProtocols
  simp only [hm, hl, if_true]
  rcases h with ⟨hr, hx⟩ | hnone
  · have hr' : "reality" ∈ List.filter
        (fun p => cg.config.TestProtocols.any fun allowed => stringsContains p allowed)
        ["reality", "xhttp", "hysteria2", "tuic", "vless-xtls"] :=
      List.mem_filter.mpr ⟨by decide, hr⟩
    have hx' : "xhttp" ∈ List.filter
        (fun p => cg.config.TestProtocols.any fun allowed => stringsContains p allowed)
        ["reality", "xhttp", "hysteria2", "tuic", "vless-xtls"] :=
      List.mem_filter.mpr ⟨by decide, hx⟩
    have hlen : (List.filter
        (fun p => cg.config.TestProtocols.any fun allowed => stringsContains p allowed)
        ["reality", "xhttp", "hysteria2", "tuic", "vless-xtls"]).length > 0 :=
      List.length_pos_of_mem hr'
    split_ifs
    · exact ⟨hr', hx'⟩
    · exact ⟨by decide, by decide⟩
  · have hnil : List.filter
        (fun p => cg.config.TestProtocols.any fun allowed => stringsContains p allowed)
        ["reality", "xhttp", "hysteria2", "tuic", "vless-xtls"] = [] := by
      apply List.filter_eq_nil_iff.mpr
      intro p hp
      have := hnone p hp
      unfold filterKeeps at this
      simp [this]
    rw [hnil]
    split_ifs <;> first | exact ⟨by decide, by decide⟩ | (rename_i h2; simp at h2)

theorem generateFor_reality_has (src : RandomSource) (cg : EnhancedConfigGenerator) :
    ∃ c ∈ (cg.generateFor src "reality").configs,
      c.Security = "reality" ∧ c.IranOptimized = true :=
  (generateRealityConfigs_spec src cg).2

theorem generateFor_xhttp_has (src : RandomSource) (cg : EnhancedConfigGenerator) :
    ∃ c ∈ (cg.generateFor src "xhttp").configs,
      c.Network = "xhttp" ∧ c.IranOptimized = true :=
  (generateXHTTPConfigs_spec src cg).2

theorem builderTriples_allowed (p : String) (t : String × String × String)
    (h : t ∈ builderTriples p) :
    allowedTriple t.1 t.2.1 t.2.2 = true ∨ t = ("shadowsocks", "tcp", "") := by
  unfold builderTriples at h
  split_ifs at h <;>
    simp only [List.mem_cons, List.mem_singleton, List.not_mem_nil, or_false] at h
  all_goals
    first
      | exact absurd h id
      | (rcases h with rfl | rfl | rfl | rfl <;> first | exact Or.inl (by decide) | exact Or.inr rfl)

/-- Every config the enhanced generator returns has its triple in the table of
section 4.8, or it is a shadowsocks config with the `Security` field unset. -/
theorem enhanced_triples_allowed_or_unset (src : RandomSource) (proxyInfo : ProxyInfo)
    (a : AppConfig) :
    ∀ c ∈ ((NewEnhancedConfigGenerator proxyInfo a).GenerateAllConfigs src).configs,
      c.allowed = true ∨ c.triple = ("shadowsocks", "tcp", "") := by
  intro c' hc'
  unfold EnhancedConfigGenerator.GenerateAllConfigs at hc'
  simp only at hc'
  obtain ⟨c, hc, ht, _, _⟩ :=
    forall2_mem_right _ _ _ (applyAIOptimizations_spec src _) c' hc'
  rcases (foldl_generateFor_spec src _ _).2.2 c hc with hnil | ⟨p, _, hb⟩
  · exact absurd hnil (List.not_mem_nil _)
  · rcases builderTriples_allowed p c.triple hb.2.2 with h1 | h2
    · left
      unfold Config.allowed
      have e1 : c'.Protocol = c.Protocol := congrArg (fun t => t.1) ht
      have e2 : c'.Network = c.Network := congrArg (fun t => t.2.1) ht
      have e3 : c'.Security = c.Security := congrArg (fun t => t.2.2) ht
      rw [e1, e2, e3]
      exact h1
    · right
      exact ht.trans h2

theorem builderTriples_reality (p : String) (t : String × String × String)
    (h : t ∈ builderTriples p) (hs : t.2.2 = "reality") : p = "reality" := by
  unfold builderTriples at h
  split_ifs at h with h1 <;>
    simp only [List.mem_cons, List.mem_singleton, List.not_mem_nil, or_false] at h
  all_goals
    first
      | exact h1
      | exact absurd h id
      | (rcases h with rfl | rfl | rfl | rfl <;> exact absurd hs (by decide))

theorem selectOptimalProtocols_maximum_keeps (cg : EnhancedConfigGenerator)
    (hm : cg.config.IranMode = true) (hl : cg.config.DPIEvasionLevel = "maximum")
    (hr : "reality" ∈ cg.selectOptimalProtocols) (hx : "xhttp" ∈ cg.selectOptimalProtocols) :
    (filterKeeps cg.config.TestProtocols "reality" = true ∧
        filterKeeps cg.config.TestProtocols "xhttp" = true) ∨
      ∀ p ∈ ["reality", "xhttp", "hysteria2", "tuic", "vless-xtls"],
        filterKeeps cg.config.TestProtocols p = false := by
  unfold EnhancedConfigGenerator.selectOptimalProtocols at hr hx
  simp only [hm, hl, if_true] at hr hx
  by_cases hlen : cg.config.TestProtocols.length > 0
  · rw [if_pos hlen] at hr hx
    by_cases hf : (List.filter
        (fun p => cg.config.TestProtocols.any fun allowed => stringsContains p allowed)
        ["reality", "xhttp", "hysteria2", "tuic", "vless-xtls"]).length > 0
    · rw [if_pos hf] at hr hx
      exact Or.inl ⟨(List.mem_filter.mp hr).2, (List.mem_filter.mp hx).2⟩
    · right
      have hnil : List.filter
          (fun p => cg.config.TestProtocols.any fun allowed => stringsContains p allowed)
          ["reality", "xhttp", "hysteria2", "tuic", "vless-xtls"] = [] := by
        apply List.eq_nil_of_length_eq_zero
        omega
      intro p hp
      have := List.filter_eq_nil_iff.mp hnil p hp
      unfold filterKeeps
      simpa using this
  · right
    have hnil : cg.config.TestProtocols = [] := by
      apply List.eq_nil_of_length_eq_zero
      omega
    intro p _
    unfold filterKeeps
    rw [hnil]
    rfl

/-- The condition on the filter in the amended claim C6 is also necessary: when
the list returned in Iran mode at level `maximum` holds a `reality` config and
an `xhttp` config, the filter keeps both names or none of the five. -/
theorem maximum_reality_and_xhttp_only_if (src : RandomSource) (proxyInfo : ProxyInfo)
    (testProtocols : List String) (verbose : Bool)
    (hr : ∃ c ∈ ((NewEnhancedConfigGenerator proxyInfo
          { IranMode := true, DPIEvasionLevel := "maximum", TestProtocols := testProtocols,
            Verbose := verbose }).GenerateAllConfigs src).configs, c.Security = "reality")
    (hx : ∃ c ∈ ((NewEnhancedConfigGenerator proxyInfo
          { IranMode := true, DPIEvasionLevel := "maximum", TestProtocols := testProtocols,
            Verbose := verbose }).GenerateAllConfigs src).configs, c.Network = "xhttp") :
    (filterKeeps testProtocols "reality" = true ∧ filterKeeps testProtocols "xhttp" = true) ∨
      ∀ p ∈ ["reality", "xhttp", "hysteria2", "tuic", "vless-xtls"],
        filterKeeps testProtocols p = false := by
  have hsub : ∀ p ∈ (NewEnhancedConfigGenerator proxyInfo
        { IranMode := true, DPIEvasionLevel := "maximum", TestProtocols := testProtocols,
          Verbose := verbose }).selectOptimalProtocols,
      p ∈ ["reality", "xhttp", "hysteria2", "tuic", "vless-xtls"] := by
    intro p hp
    unfold EnhancedConfigGenerator.selectOptimalProtocols at hp
    simp only [NewEnhancedConfigGenerator, if_true] at hp
    split_ifs at hp
    · exact (List.mem_filter.mp hp).1
    · exact hp
    · exact hp
  have hfive : ∀ p ∈ ["reality", "xhttp", "hysteria2", "tuic", "vless-xtls"],
      ∀ t ∈ builderTriples p, t.2.1 = "xhttp" → p = "xhttp" := by decide
  unfold EnhancedConfigGenerator.GenerateAllConfigs at hr hx
  simp only at hr hx
  apply selectOptimalProtocols_maximum_keeps
    (NewEnhancedConfigGenerator proxyInfo
      { IranMode := true, DPIEvasionLevel := "maximum", TestProtocols := testProtocols,
        Verbose := verbose }) rfl rfl
  · obtain ⟨c', hc', hs⟩ := hr
    obtain ⟨c, hc, ht, _, _⟩ :=
      forall2_mem_right _ _ _ (applyAIOptimizations_spec src _) c' hc'
    rcases (foldl_generateFor_spec src _ _).2.2 c hc with hnil | ⟨p, hp, hb⟩
    · exact absurd hnil (List.not_mem_nil _)
    · have e3 : c.triple.2.2 = "reality" := (congrArg (fun t => t.2.2) ht).symm.trans hs
      rw [← builderTriples_reality p c.triple hb.2.2 e3]
      exact hp
  · obtain ⟨c', hc', hs⟩ := hx
    obtain ⟨c, hc, ht, _, _⟩ :=
      forall2_mem_right _ _ _ (applyAIOptimizations_spec src _) c' hc'
    rcases (foldl_generateFor_spec src _ _).2.2 c hc with hnil | ⟨p, hp, hb⟩
    · exact absurd hnil (List.not_mem_nil _)
    · have e2 : c.triple.2.1 = "xhttp" := (congrArg (fun t => t.2.1) ht).symm.trans hs
      rw [← hfive p (hsub p hp) c.triple hb.2.2 e2]
      exact hp

/-- Claim C4, evaluated on the code: outside Iran mode, with the default protocol
filter, the enhanced generator returns three shadowsocks configs whose
`Security` is the empty string (`generateShadowsocksConfigsAI` never sets the
field), and the triple (shadowsocks, tcp, "") is not in the table of section 4.8. -/
theorem enhanced_shadowsocks_security_unset :
    ((NewEnhancedConfigGenerator sampleProxy
          { IranMode := false, DPIEvasionLevel := "aggressive",
            TestProtocols := defaultTestProtocols,
            Verbose := false }).GenerateAllConfigs sampleSource).configs.map Config.triple =
        [("vmess", "ws", "tls"), ("vmess", "grpc", "tls"), ("vmess", "h2", "tls"),
          ("vless", "ws", "tls"), ("vless", "grpc", "tls"), ("vless", "tcp", "tls"),
          ("trojan", "ws", "tls"), ("trojan", "grpc", "tls"), ("trojan", "tcp", "tls"),
          ("shadowsocks", "tcp", ""), ("shadowsocks", "tcp", ""), ("shadowsocks", "tcp", "")] ∧
      allowedTriple "shadowsocks" "tcp" "" = false := by
  decide

/-- Claim C6 fails as stated: in Iran mode at level `maximum` with the default
filter `vmess,vless,trojan,shadowsocks`, only `vless-xtls` passes the filter, and
the list returned holds one config, without `reality` and without `xhttp`. -/
theorem maximum_default_filter_counterexample :
    ((NewEnhancedConfigGenerator sampleProxy
          { IranMode := true, DPIEvasionLevel := "maximum",
            TestProtocols := defaultTestProtocols,
            Verbose := false }).GenerateAllConfigs sampleSource).configs.map Config.triple =
        [("vless", "tcp", "xtls")] ∧
      ¬ (∃ c ∈ ((NewEnhancedConfigGenerator sampleProxy
          { IranMode := true, DPIEvasionLevel := "maximum",
            TestProtocols := defaultTestProtocols,
            Verbose := false }).GenerateAllConfigs sampleSource).configs,
          c.Security = "reality") ∧
      ¬ (∃ c ∈ ((NewEnhancedConfigGenerator sampleProxy
          { IranMode := true, DPIEvasionLevel := "maximum",
            TestProtocols := defaultTestProtocols,
            Verbose := false }).GenerateAllConfigs sampleSource).configs,
          c.Network = "xhttp") := by
  decide

/-- Claim C6, amended: in Iran mode at level `maximum`, for every endpoint, every
outcome of the random draws, and every protocol filter that either keeps both
names `reality` and `xhttp` (for each, some entry of the filter is contained in
it) or keeps none of the five names `reality`, `xhttp`, `hysteria2`, `tuic`,
`vless-xtls` (the empty filter among these, the generator then falls back to all
five), the list returned holds a config with `Security = reality` and a config
with `Network = xhttp`, each with `IranOptimized = true`. -/
theorem maximum_emits_reality_and_xhttp (src : RandomSource) (proxyInfo : ProxyInfo)
    (testProtocols : List String) (verbose : Bool)
    (h : (filterKeeps testProtocols "reality" = true ∧
          filterKeeps testProtocols "xhttp" = true) ∨
        ∀ p ∈ ["reality", "xhttp", "hysteria2", "tuic", "vless-xtls"],
          filterKeeps testProtocols p = false) :
    (∃ c ∈ ((NewEnhancedConfigGenerator proxyInfo
          { IranMode := true, DPIEvasionLevel := "maximum", TestProtocols := testProtocols,
            Verbose := verbose }).GenerateAllConfigs src).configs,
        c.Security = "reality" ∧ c.IranOptimized = true) ∧
      (∃ c ∈ ((NewEnhancedConfigGenerator proxyInfo
          { IranMode := true, DPIEvasionLevel := "maximum", TestProtocols := testProtocols,
            Verbose := verbose }).GenerateAllConfigs src).configs,
        c.Network = "xhttp" ∧ c.IranOptimized = true) := by
  obtain ⟨hr, hx⟩ := selectOptimalProtocols_maximum
    (NewEnhancedConfigGenerator proxyInfo
      { IranMode := true, DPIEvasionLevel := "maximum", TestProtocols := testProtocols,
        Verbose := verbose }) rfl rfl h
  unfold EnhancedConfigGenerator.GenerateAllConfigs
  simp only
  constructor
  · obtain ⟨c, hc, hs, hi⟩ :=
      foldl_generateFor_has src "reality" _ (generateFor_reality_has src) _ _ hr
    obtain ⟨c', hc', ht, _, hi'⟩ :=
      forall2_mem_left _ _ _ (applyAIOptimizations_spec src _) c hc
    refine ⟨c', hc', ?_, hi'.trans hi⟩
    have := congrArg (fun t => t.2.2) ht
    exact this.trans hs
  · obtain ⟨c, hc, hs, hi⟩ :=
      foldl_generateFor_has src "xhttp" _ (generateFor_xhttp_has src) _ _ hx
    obtain ⟨c', hc', ht, _, hi'⟩ :=
      forall2_mem_left _ _ _ (applyAIOptimizations_spec src _) c hc
    refine ⟨c', hc', ?_, hi'.trans hi⟩
    have := congrArg (fun t => t.2.1) ht
    exact this.trans hs

/-- Claim C6, amended, at the empty filter. -/
theorem maximum_emits_reality_and_xhttp_witness :
    (∃ c ∈ ((NewEnhancedConfigGenerator sampleProxy
          { IranMode := true, DPIEvasionLevel := "maximum", TestProtocols := [],
            Verbose := false }).GenerateAllConfigs sampleSource).configs,
        c.Security = "reality" ∧ c.IranOptimized = true) ∧
      (∃ c ∈ ((NewEnhancedConfigGenerator sampleProxy
          { IranMode := true, DPIEvasionLevel := "maximum", TestProtocols := [],
            Verbose := false }).GenerateAllConfigs sampleSource).configs,
        c.Network = "xhttp" ∧ c.IranOptimized = true) :=
  maximum_emits_reality_and_xhttp sampleSource sampleProxy [] false (Or.inr (by decide))

/-- Claim C7 fails as stated: in Iran mode at level `maximum` without filter, the
enhanced generator returns a config whose `HealthScore` is 0 while
`GetIranOptimizedScore` gives 65 on it, and whose `IranOptimized` is true
although its `HealthScore` is below 70. -/
theorem enhanced_health_score_counterexample :
    ∃ c ∈ ((NewEnhancedConfigGenerator sampleProxy
          { IranMode := true, DPIEvasionLevel := "maximum", TestProtocols := [],
            Verbose := false }).GenerateAllConfigs sampleSource).configs,
      c.HealthScore = 0 ∧ c.GetIranOptimizedScore = 65 ∧ c.IranOptimized = true ∧
        ¬ (c.HealthScore = c.GetIranOptimizedScore) ∧
        ¬ (c.IranOptimized = true ↔ 70 ≤ c.HealthScore) := by
  decide

/-- Claim C7, amended: every config returned by
`EnhancedConfigGenerator.GenerateAllConfigs` has `IranOptimized` equal to the
`IranMode` flag of the generator, as its builders assign it; the fields derived
from the score are those of the basic generator: every config returned by
`ConfigGenerator.GenerateAllConfigs` has `HealthScore` equal to
`GetIranOptimizedScore` on it and `IranOptimized = true` exactly when that
`HealthScore` is at least 70. -/
theorem generated_scores (src : RandomSource) (proxyInfo : ProxyInfo) :
    (∀ (a : AppConfig),
        ∀ c ∈ ((NewEnhancedConfigGenerator proxyInfo a).GenerateAllConfigs src).configs,
          c.IranOptimized = a.IranMode) ∧
      (∀ (iranMode : Bool),
        ∀ c ∈ ((NewConfigGenerator proxyInfo iranMode).GenerateAllConfigs src).configs,
          c.HealthScore = c.GetIranOptimizedScore ∧
            (c.IranOptimized = true ↔ 70 ≤ c.HealthScore)) := by
  constructor
  · intro a c' hc'
    unfold EnhancedConfigGenerator.GenerateAllConfigs at hc'
    simp only at hc'
    obtain ⟨c, hc, _, _, hi⟩ :=
      forall2_mem_right _ _ _ (applyAIOptimizations_spec src _) c' hc'
    rcases (foldl_generateFor_spec src _ _).2.2 c hc with hnil | ⟨p, hp, hb⟩
    · exact absurd hnil (List.not_mem_nil _)
    · have hsel := selectOptimalProtocols_base _ p hp
      exact hi.trans (hb.2.1.trans hsel)
  · intro iranMode c hc
    exact ((GenerateAllConfigs_all src proxyInfo iranMode).2 c hc).2

/-- Claim C7, amended, at the first config each generator returns for the sample
endpoint in Iran mode. -/
theorem generated_scores_witness :
    (firstConfig ((NewEnhancedConfigGenerator sampleProxy
            { IranMode := true, DPIEvasionLevel := "maximum", TestProtocols := [],
              Verbose := false }).GenerateAllConfigs sampleSource).configs ∈
          ((NewEnhancedConfigGenerator sampleProxy
            { IranMode := true, DPIEvasionLevel := "maximum", TestProtocols := [],
              Verbose := false }).GenerateAllConfigs sampleSource).configs ∧
        (firstConfig ((NewEnhancedConfigGenerator sampleProxy
            { IranMode := true, DPIEvasionLevel := "maximum", TestProtocols := [],
              Verbose := false }).GenerateAllConfigs sampleSource).configs).IranOptimized =
          true) ∧
      (firstConfig ((NewConfigGenerator sampleProxy true).GenerateAllConfigs sampleSource).configs ∈
          ((NewConfigGenerator sampleProxy true).GenerateAllConfigs sampleSource).configs ∧
        (firstConfig
            ((NewConfigGenerator sampleProxy true).GenerateAllConfigs sampleSource).configs).HealthScore =
          (firstConfig
            ((NewConfigGenerator sampleProxy true).GenerateAllConfigs
              sampleSource).configs).GetIranOptimizedScore) :=
  ⟨⟨by decide,
      (generated_scores sampleSource sampleProxy).1
        { IranMode := true, DPIEvasionLevel := "maximum", TestProtocols := [], Verbose := false }
        _ (by decide)⟩,
    ⟨by decide, ((generated_scores sampleSource sampleProxy).2 true _ (by decide)).1⟩⟩

/-- Claim C5 at the first config returned for the sample endpoint outside Iran mode. -/
theorem basic_generator_triples_whitelisted_witness :
    firstConfig ((NewConfigGenerator sampleProxy false).GenerateAllConfigs sampleSource).configs ∈
        ((NewConfigGenerator sampleProxy false).GenerateAllConfigs sampleSource).configs ∧
      allowedTriple
          (firstConfig
            ((NewConfigGenerator sampleProxy false).GenerateAllConfigs sampleSource).configs).Protocol
          (firstConfig
            ((NewConfigGenerator sampleProxy false).GenerateAllConfigs sampleSource).configs).Network
          (firstConfig
            ((NewConfigGenerator sampleProxy false).GenerateAllConfigs sampleSource).configs).Security =
        true :=
  ⟨by decide,
    (basic_generator_triples_whitelisted sampleSource sampleProxy false _ (by decide)).1⟩

/-! ## Theorems: jitter, stability and the health score -/

section JitterLemmas

set_option linter.unusedSectionVars false

variable {α : Type} [LinearOrderedField α] [FloorRing α]

theorem calculateMeanLatency_congr (ehs ehs' : EnhancedHealthScorer α)
    (h : ehs'.metrics.Latencies = ehs.metrics.Latencies) :
    ehs'.calculateMeanLatency = ehs.calculateMeanLatency := by
  unfold EnhancedHealthScorer.calculateMeanLatency
  rw [h]

theorem CalculateJitter_of_two (sqrt : α → α) (ehs : EnhancedHealthScorer α)
    (hn : 2 ≤ ehs.metrics.Latencies.length) :
    ehs.CalculateJitter sqrt =
      (sqrt ((ehs.metrics.Latencies.map (fun (x : Int) =>
            ((x : α) - ehs.calculateMeanLatency) * ((x : α) - ehs.calculateMeanLatency))).sum /
          (ehs.metrics.Latencies.length : α)),
        { ehs with metrics := { ehs.metrics with
            Jitter := sqrt ((ehs.metrics.Latencies.map (fun (x : Int) =>
              ((x : α) - ehs.calculateMeanLatency) * ((x : α) - ehs.calculateMeanLatency))).sum /
              (ehs.metrics.Latencies.length : α)) } }) := by
  unfold EnhancedHealthScorer.CalculateJitter
  rw [if_neg (by omega)]
  simp only
  rw [foldl_add_map (fun x : Int =>
    ((x : α) - ehs.calculateMeanLatency) * ((x : α) - ehs.calculateMeanLatency)), zero_add]

/-- The value of `CalculateStabilityScore` with three or more latencies, in terms
of the jitter `j` and the mean `m` the code computes. -/
theorem CalculateStabilityScore_of_three (sqrt : α → α) (ehs : EnhancedHealthScorer α)
    (hn : 3 ≤ ehs.metrics.Latencies.length) :
    (ehs.CalculateStabilityScore sqrt).1 =
      (if ehs.calculateMeanLatency > 0 then
          (if (ehs.CalculateJitter sqrt).1 / ehs.calculateMeanLatency > 1 then 0
            else 100 * (1 - (ehs.CalculateJitter sqrt).1 / ehs.calculateMeanLatency))
        else 100) * (4 / 10) +
        100 * (1 - ehs.metrics.ErrorRate) * (4 / 10) +
        (if ehs.calculateMeanLatency = 0 then 0
          else if (ehs.CalculateJitter sqrt).1 / ehs.calculateMeanLatency > 1 then 0
          else 100 * (1 - (ehs.CalculateJitter sqrt).1 / ehs.calculateMeanLatency)) * (2 / 10) ∧
      (ehs.CalculateStabilityScore sqrt).2.metrics.StabilityScore =
        (ehs.CalculateStabilityScore sqrt).1 ∧
      (ehs.CalculateStabilityScore sqrt).2.metrics.Jitter = (ehs.CalculateJitter sqrt).1 ∧
      (ehs.CalculateStabilityScore sqrt).2.metrics.DPIFingerprint = ehs.metrics.DPIFingerprint ∧
      (ehs.CalculateStabilityScore sqrt).2.metrics.TLSHandshakeTime =
        ehs.metrics.TLSHandshakeTime ∧
      (ehs.CalculateStabilityScore sqrt).2.metrics.DNSResolutionTime =
        ehs.metrics.DNSResolutionTime ∧
      (ehs.CalculateStabilityScore sqrt).2.metrics.TCPHandshakeTime =
        ehs.metrics.TCPHandshakeTime ∧
      (ehs.CalculateStabilityScore sqrt).2.metrics.TTFBTime = ehs.metrics.TTFBTime := by
  have hj := CalculateJitter_of_two sqrt ehs (by omega)
  unfold EnhancedHealthScorer.CalculateStabilityScore
  rw [if_neg (by omega)]
  rw [hj]
  simp only [EnhancedHealthScorer.calculateConsistencyScore,
    EnhancedHealthScorer.calculateMeanLatency, if_neg (show ¬ ehs.metrics.Latencies.length < 3 by omega)]
  simp only [and_self]

theorem CalculateStabilityScore_lt_three (sqrt : α → α) (ehs : EnhancedHealthScorer α)
    (hn : ehs.metrics.Latencies.length < 3) :
    ehs.CalculateStabilityScore sqrt = (50, ehs) := by
  unfold EnhancedHealthScorer.CalculateStabilityScore
  rw [if_pos hn]

end JitterLemmas

/-- Claim C11, amended: with at most one latency recorded `CalculateJitter` returns
0 and leaves the scorer as it is, whatever `math.Sqrt` does. -/
theorem jitter_zero_at_most_one_latency {α : Type} [LinearOrderedField α] [FloorRing α]
    (sqrt : α → α) (ehs : EnhancedHealthScorer α) (hn : ehs.metrics.Latencies.length ≤ 1) :
    ehs.CalculateJitter sqrt = (0, ehs) := by
  unfold EnhancedHealthScorer.CalculateJitter
  rw [if_pos (by omega)]

/-- Claim C11, amended, at a scorer that holds the single latency 100 ms. -/
theorem jitter_zero_at_most_one_latency_witness :
    ((NewEnhancedHealthScorer true : EnhancedHealthScorer ℝ).RecordLatency 100
        0).metrics.Latencies.length ≤ 1 ∧
      (((NewEnhancedHealthScorer true : EnhancedHealthScorer ℝ).RecordLatency 100
        0).CalculateJitter Real.sqrt).1 = 0 :=
  ⟨by decide,
    congrArg Prod.fst (jitter_zero_at_most_one_latency Real.sqrt
      ((NewEnhancedHealthScorer true : EnhancedHealthScorer ℝ).RecordLatency 100 0)
      (by decide))⟩

/-- Claim C11 fails as stated: with the latency 100 ms recorded twice
`CalculateJitter` returns 0 although two latencies have been recorded. -/
theorem jitter_zero_with_two_latencies_counterexample :
    (equalScorer : EnhancedHealthScorer ℝ).metrics.Latencies.length = 2 ∧
      ((equalScorer : EnhancedHealthScorer ℝ).CalculateJitter Real.sqrt).1 = 0 ∧
      ¬ (((equalScorer : EnhancedHealthScorer ℝ).CalculateJitter Real.sqrt).1 = 0 ↔
          (equalScorer : EnhancedHealthScorer ℝ).metrics.Latencies.length ≤ 1) := by
  have hl : (equalScorer : EnhancedHealthScorer ℝ).metrics.Latencies.length = 2 := rfl
  have hj : ((equalScorer : EnhancedHealthScorer ℝ).CalculateJitter Real.sqrt).1 = 0 := by
    have hw : wrapInt64 (wrapInt64 (0 + 100) + 100) = 200 := by decide
    simp only [equalScorer, EnhancedHealthScorer.CalculateJitter,
      EnhancedHealthScorer.calculateMeanLatency, EnhancedHealthScorer.RecordLatency,
      NewEnhancedHealthScorer, List.nil_append, List.cons_append, List.length_cons,
      List.length_nil, List.foldl, hw]
    norm_num
  refine ⟨hl, hj, ?_⟩
  rw [hl]
  intro h
  have := h.mp hj
  omega

/-- Claim C12, amended: with fewer than three latencies `CalculateStabilityScore`
returns exactly 50 (and stores nothing). -/
theorem stability_fifty_below_three_latencies {α : Type} [LinearOrderedField α] [FloorRing α]
    (sqrt : α → α) (ehs : EnhancedHealthScorer α)
    (hn : ehs.metrics.Latencies.length < 3) :
    (ehs.CalculateStabilityScore sqrt).1 = 50 := by
  rw [CalculateStabilityScore_lt_three sqrt ehs hn]

/-- Claim C12, amended, at the two latencies of `equalScorer`. -/
theorem stability_fifty_below_three_latencies_witness :
    (equalScorer : EnhancedHealthScorer ℝ).metrics.Latencies.length < 3 ∧
      ((equalScorer : EnhancedHealthScorer ℝ).CalculateStabilityScore Real.sqrt).1 = 50 :=
  ⟨by decide, stability_fifty_below_three_latencies Real.sqrt equalScorer (by decide)⟩

/-- Claim C12 fails as stated: after `RecordLatency 3`, `RecordError` and
`RecordLatency` of 3, 1 and 1 the scorer holds four latencies with mean 2,
jitter 1 and error rate 1/2, and `CalculateStabilityScore` returns
`0.4 * 50 + 0.4 * 50 + 0.2 * 50 = 50`. -/
theorem stability_fifty_with_four_latencies_counterexample :
    (halfScorer : EnhancedHealthScorer ℝ).metrics.Latencies.length = 4 ∧
      ((halfScorer : EnhancedHealthScorer ℝ).CalculateStabilityScore Real.sqrt).1 = 50 ∧
      ¬ (((halfScorer : EnhancedHealthScorer ℝ).CalculateStabilityScore Real.sqrt).1 = 50 ↔
          (halfScorer : EnhancedHealthScorer ℝ).metrics.Latencies.length < 3) := by
  have hl : (halfScorer : EnhancedHealthScorer ℝ).metrics.Latencies = [3, 3, 1, 1] := rfl
  have hlen : (halfScorer : EnhancedHealthScorer ℝ).metrics.Latencies.length = 4 := rfl
  have he : (halfScorer : EnhancedHealthScorer ℝ).metrics.ErrorRate = 1 / 2 := by
    simp [halfScorer, EnhancedHealthScorer.RecordLatency, EnhancedHealthScorer.RecordError,
      NewEnhancedHealthScorer, goInt]
  have hm : (halfScorer : EnhancedHealthScorer ℝ).calculateMeanLatency = 2 := by
    rw [calculateMeanLatency_eq _ (by rw [hlen]; decide) (by rw [hl]; decide)
      (by rw [hl]; decide), hl]
    norm_num
  have hj : ((halfScorer : EnhancedHealthScorer ℝ).CalculateJitter Real.sqrt).1 = 1 := by
    rw [CalculateJitter_of_two Real.sqrt _ (by rw [hlen]; decide), hm, hl]
    norm_num
  have hs : ((halfScorer : EnhancedHealthScorer ℝ).CalculateStabilityScore Real.sqrt).1 = 50 := by
    rw [(CalculateStabilityScore_of_three Real.sqrt _ (by rw [hlen]; decide)).1, hj, hm, he]
    norm_num
  refine ⟨hlen, hs, ?_⟩
  rw [hlen]
  intro h
  have := h.mp hs
  omega

/-- Claim C14: `calculateLatencyScore` (with the real exponential) returns exactly
100 if and only if the mean latency, as `calculateMeanLatency` computes it, is
below 50; for a mean of 50 or more it returns `100 * exp (-mean / 500)`, which is
strictly below 100. -/
theorem latency_score_hundred_iff_mean_below_fifty (ehs : EnhancedHealthScorer ℝ) :
    (ehs.calculateLatencyScore Real.exp = 100 ↔ ehs.calculateMeanLatency < 50) ∧
      (50 ≤ ehs.calculateMeanLatency →
        ehs.calculateLatencyScore Real.exp = 100 * Real.exp (-ehs.calculateMeanLatency / 500) ∧
          ehs.calculateLatencyScore Real.exp < 100) := by
  have hlt : 50 ≤ ehs.calculateMeanLatency →
      100 * Real.exp (-ehs.calculateMeanLatency / 500) < 100 := by
    intro h
    have h1 : Real.exp (-ehs.calculateMeanLatency / 500) < 1 := by
      have hneg : -ehs.calculateMeanLatency / 500 < 0 := by
        rw [neg_div]
        have : (0 : ℝ) < ehs.calculateMeanLatency / 500 := by linarith
        linarith
      have := Real.exp_lt_exp.mpr hneg
      rwa [Real.exp_zero] at this
    linarith
  unfold EnhancedHealthScorer.calculateLatencyScore
  simp only
  constructor
  · constructor
    · intro h
      by_contra hc
      rw [if_neg hc] at h
      have := hlt (not_lt.mp hc)
      linarith
    · intro h
      rw [if_pos h]
  · intro h
    rw [if_neg (not_lt.mpr h)]
    exact ⟨rfl, hlt h⟩

section StabilityLemmas

set_option linter.unusedSectionVars false

variable {α : Type} [LinearOrderedField α] [FloorRing α]

theorem step_nonneg_latencies (sqrt exp : α → α) (ehs : EnhancedHealthScorer α) (c : ScorerCall)
    (hc : c.nonnegative) (h : ∀ x ∈ ehs.metrics.Latencies, 0 ≤ x) :
    ∀ x ∈ (ehs.step sqrt exp c).metrics.Latencies, 0 ≤ x := by
  cases c with
  | recordLatency latency timestamp =>
    intro x hx
    simp only [EnhancedHealthScorer.step, EnhancedHealthScorer.RecordLatency,
      List.mem_append, List.mem_singleton] at hx
    rcases hx with hx | hx
    · exact h x hx
    · rw [hx]; exact hc
  | recordConnectionMetrics d t l f => exact h
  | recordError => exact h
  | calculateJitter =>
    unfold EnhancedHealthScorer.step
    rw [(CalculateJitter_frame sqrt ehs).1]; exact h
  | calculateStabilityScore =>
    unfold EnhancedHealthScorer.step
    rw [(CalculateStabilityScore_frame sqrt ehs).1]; exact h
  | calculateAdvancedHealthScore =>
    unfold EnhancedHealthScorer.step
    rw [(CalculateAdvancedHealthScore_frame sqrt exp ehs).1]; exact h

theorem run_nonneg_latencies (sqrt exp : α → α) (calls : List ScorerCall)
    (hcalls : ∀ c ∈ calls, c.nonnegative) :
    ∀ ehs : EnhancedHealthScorer α, (∀ x ∈ ehs.metrics.Latencies, 0 ≤ x) →
      ∀ x ∈ (ehs.run sqrt exp calls).metrics.Latencies, 0 ≤ x := by
  induction calls with
  | nil => intro ehs h; exact h
  | cons c rest ih =>
    intro ehs h
    exact ih (fun d hd => hcalls d (List.mem_cons_of_mem _ hd)) _
      (step_nonneg_latencies sqrt exp ehs c (hcalls c (List.mem_cons_self _ _)) h)

theorem calculateMeanLatency_nonneg (ehs : EnhancedHealthScorer α)
    (h : ∀ x ∈ ehs.metrics.Latencies, 0 ≤ x) (hhi : ehs.metrics.Latencies.sum < 2 ^ 63) :
    0 ≤ ehs.calculateMeanLatency := by
  have hs : 0 ≤ ehs.metrics.Latencies.sum := List.sum_nonneg h
  by_cases hn : ehs.metrics.Latencies.length = 0
  · unfold EnhancedHealthScorer.calculateMeanLatency
    rw [if_pos hn]
  · rw [calculateMeanLatency_eq ehs hn (by omega) hhi]
    apply div_nonneg
    · exact_mod_cast hs
    · exact Nat.cast_nonneg _

/-- With a non-negative square root, an error rate in `[0, 1]` and a
non-negative mean, `CalculateStabilityScore` stays in `[0, 100]`. -/
theorem CalculateStabilityScore_range (sqrt : α → α) (hsqrt : ∀ x, 0 ≤ sqrt x)
    (ehs : EnhancedHealthScorer α) (hc : ehs.consistent)
    (hm : 0 ≤ ehs.calculateMeanLatency) :
    0 ≤ (ehs.CalculateStabilityScore sqrt).1 ∧ (ehs.CalculateStabilityScore sqrt).1 ≤ 100 := by
  obtain ⟨_, h0, h1⟩ := hc
  by_cases hn : ehs.metrics.Latencies.length < 3
  · rw [CalculateStabilityScore_lt_three sqrt ehs hn]
    norm_num
  · have hn3 : 3 ≤ ehs.metrics.Latencies.length := by omega
    rw [(CalculateStabilityScore_of_three sqrt ehs hn3).1,
      CalculateJitter_of_two sqrt ehs (by omega)]
    simp only
    generalize hg : sqrt _ = j
    have hj : 0 ≤ j := hg ▸ hsqrt _
    rcases hm.lt_or_eq with hpos | hzero
    · have hr : 0 ≤ j / ehs.calculateMeanLatency := div_nonneg hj hpos.le
      rw [if_pos hpos, if_neg hpos.ne']
      split_ifs <;> (try simp only [not_lt, gt_iff_lt] at *) <;> constructor <;> nlinarith
    · rw [← hzero]
      simp only [gt_iff_lt, lt_self_iff_false, if_false, if_true]
      constructor <;> nlinarith

theorem jitterScore_eq (sqrt : α → α) (ehs : EnhancedHealthScorer α) :
    ehs.jitterScore sqrt =
      (if ehs.calculateMeanLatency > 0 then
          (if (ehs.CalculateJitter sqrt).1 / ehs.calculateMeanLatency > 1 then 0
            else 100 * (1 - (ehs.CalculateJitter sqrt).1 / ehs.calculateMeanLatency))
        else 100) := by
  unfold EnhancedHealthScorer.jitterScore
  split_ifs with h1 h2
  · rw [min_eq_right h2.le]; ring
  · rw [min_eq_left (not_lt.mp h2)]
  · rfl

theorem consistencyScore_eq (sqrt : α → α) (ehs : EnhancedHealthScorer α)
    (hn : 3 ≤ ehs.metrics.Latencies.length) :
    ehs.consistencyScore sqrt =
      (if ehs.calculateMeanLatency = 0 then 0
          else if (ehs.CalculateJitter sqrt).1 / ehs.calculateMeanLatency > 1 then 0
          else 100 * (1 - (ehs.CalculateJitter sqrt).1 / ehs.calculateMeanLatency)) := by
  unfold EnhancedHealthScorer.consistencyScore
  rw [CalculateJitter_of_two sqrt ehs (by omega)]
  simp only [EnhancedHealthScorer.calculateConsistencyScore,
    EnhancedHealthScorer.calculateMeanLatency,
    if_neg (show ¬ ehs.metrics.Latencies.length < 3 by omega)]

end StabilityLemmas

/-- The range and the weights of the stability score: for every scorer state
reached from a new scorer by calls that record no negative latency, and whose
latencies have a sum below `2^63` (so
that the `int64` accumulator of `calculateMeanLatency` does not wrap),
`CalculateStabilityScore` returns a value `s` with `0 ≤ s ≤ 100`, and with at
least three latencies `s = 0.4 * jitterScore + 0.4 * errorScore + 0.2 * consistencyScore`. -/
theorem stability_score_range_and_weights (iranOptimized : Bool) (calls : List ScorerCall)
    (hcalls : ∀ c ∈ calls, c.nonnegative)
    (hsum : ((NewEnhancedHealthScorer iranOptimized : EnhancedHealthScorer ℝ).run Real.sqrt
      Real.exp calls).metrics.Latencies.sum < 2 ^ 63) :
    0 ≤ (((NewEnhancedHealthScorer iranOptimized : EnhancedHealthScorer ℝ).run Real.sqrt
        Real.exp calls).CalculateStabilityScore Real.sqrt).1 ∧
      (((NewEnhancedHealthScorer iranOptimized : EnhancedHealthScorer ℝ).run Real.sqrt
        Real.exp calls).CalculateStabilityScore Real.sqrt).1 ≤ 100 ∧
      (3 ≤ ((NewEnhancedHealthScorer iranOptimized : EnhancedHealthScorer ℝ).run Real.sqrt
          Real.exp calls).metrics.Latencies.length →
        (((NewEnhancedHealthScorer iranOptimized : EnhancedHealthScorer ℝ).run Real.sqrt
          Real.exp calls).CalculateStabilityScore Real.sqrt).1 =
          4 / 10 * ((NewEnhancedHealthScorer iranOptimized : EnhancedHealthScorer ℝ).run
              Real.sqrt Real.exp calls).jitterScore Real.sqrt +
            4 / 10 * ((NewEnhancedHealthScorer iranOptimized : EnhancedHealthScorer ℝ).run
              Real.sqrt Real.exp calls).errorScore +
            2 / 10 * ((NewEnhancedHealthScorer iranOptimized : EnhancedHealthScorer ℝ).run
              Real.sqrt Real.exp calls).consistencyScore Real.sqrt) := by
  have hcons := run_consistent Real.sqrt Real.exp calls
    (NewEnhancedHealthScorer iranOptimized : EnhancedHealthScorer ℝ) ⟨rfl, le_refl _, zero_le_one⟩
  have hnn := run_nonneg_latencies Real.sqrt Real.exp calls hcalls
    (NewEnhancedHealthScorer iranOptimized : EnhancedHealthScorer ℝ)
    (by intro x hx; simp [NewEnhancedHealthScorer] at hx)
  revert hsum hcons hnn
  generalize (NewEnhancedHealthScorer iranOptimized : EnhancedHealthScorer ℝ).run Real.sqrt
    Real.exp calls = ehs
  intro hsum hcons hnn
  have hm := calculateMeanLatency_nonneg ehs hnn hsum
  have hr := CalculateStabilityScore_range Real.sqrt Real.sqrt_nonneg ehs hcons hm
  refine ⟨hr.1, hr.2, ?_⟩
  intro hn
  rw [(CalculateStabilityScore_of_three Real.sqrt ehs hn).1, jitterScore_eq,
    consistencyScore_eq Real.sqrt ehs hn]
  unfold EnhancedHealthScorer.errorScore
  ring

/-- The range of the stability score at the three latencies 100, 110 and 105. -/
theorem stability_score_range_and_weights_witness :
    0 ≤ (((NewEnhancedHealthScorer true : EnhancedHealthScorer ℝ).run Real.sqrt
        Real.exp [ScorerCall.recordLatency 100 0, ScorerCall.recordLatency 110 1,
          ScorerCall.recordLatency 105 2]).CalculateStabilityScore Real.sqrt).1 ∧
      (((NewEnhancedHealthScorer true : EnhancedHealthScorer ℝ).run Real.sqrt
        Real.exp [ScorerCall.recordLatency 100 0, ScorerCall.recordLatency 110 1,
          ScorerCall.recordLatency 105 2]).CalculateStabilityScore Real.sqrt).1 ≤ 100 :=
  have h := stability_score_range_and_weights true
    [ScorerCall.recordLatency 100 0, ScorerCall.recordLatency 110 1,
      ScorerCall.recordLatency 105 2]
    (by
      intro c hc
      simp only [List.mem_cons, List.mem_singleton, List.not_mem_nil, or_false] at hc
      rcases hc with rfl | rfl | rfl <;> simp [ScorerCall.nonnegative])
    (by decide)
  ⟨h.1, h.2.1⟩

/-- The latencies `2^62`, `2^62` and 0 are non-negative, their `int64` sum wraps
to `-2^63`, and `CalculateStabilityScore` returns more than 100. -/
theorem wrapScorer3_stability :
    (∀ x ∈ (wrapScorer3 : EnhancedHealthScorer ℝ).metrics.Latencies, 0 ≤ x) ∧
      100 < ((wrapScorer3 : EnhancedHealthScorer ℝ).CalculateStabilityScore Real.sqrt).1 := by
  have hl : (wrapScorer3 : EnhancedHealthScorer ℝ).metrics.Latencies = [2 ^ 62, 2 ^ 62, 0] := rfl
  have hlen : (wrapScorer3 : EnhancedHealthScorer ℝ).metrics.Latencies.length = 3 := rfl
  have he : (wrapScorer3 : EnhancedHealthScorer ℝ).metrics.ErrorRate = 0 := rfl
  have hm : (wrapScorer3 : EnhancedHealthScorer ℝ).calculateMeanLatency = -2 ^ 63 / 3 := by
    have hw : wrapInt64 (wrapInt64 (wrapInt64 (0 + 2 ^ 62) + 2 ^ 62) + 0) = -2 ^ 63 := by decide
    unfold EnhancedHealthScorer.calculateMeanLatency
    rw [hl]
    simp only [List.length_cons, List.length_nil, List.foldl, hw]
    norm_num
  have hj : 0 < ((wrapScorer3 : EnhancedHealthScorer ℝ).CalculateJitter Real.sqrt).1 := by
    rw [CalculateJitter_of_two Real.sqrt _ (by rw [hlen]; decide), hm, hl]
    simp only
    apply Real.sqrt_pos.mpr
    norm_num
  constructor
  · intro x hx
    rw [hl] at hx
    simp only [List.mem_cons, List.mem_singleton, List.not_mem_nil, or_false] at hx
    rcases hx with rfl | rfl | rfl <;> decide
  · rw [(CalculateStabilityScore_of_three Real.sqrt _ (le_of_eq hlen.symm)).1, hm, he]
    generalize ((wrapScorer3 : EnhancedHealthScorer ℝ).CalculateJitter Real.sqrt).1 = j at hj ⊢
    have hneg : j / (-2 ^ 63 / 3) < 0 := div_neg_of_pos_of_neg hj (by norm_num)
    rw [if_neg (by norm_num), if_neg (by norm_num), if_neg (by linarith)]
    linarith

/-- After the latencies `2^62`, `2^62` and 0 the mean is taken as `-2^63 / 3`, the
jitter is `sqrt (2^125)`, and `CalculateStabilityScore` returns
`100 + 60 * sqrt (2^125) / 2^63`, between 142 and 143. -/
theorem wrapScorer3_stability_value :
    142 < ((wrapScorer3 : EnhancedHealthScorer ℝ).CalculateStabilityScore Real.sqrt).1 ∧
      ((wrapScorer3 : EnhancedHealthScorer ℝ).CalculateStabilityScore Real.sqrt).1 < 143 := by
  have hl : (wrapScorer3 : EnhancedHealthScorer ℝ).metrics.Latencies = [2 ^ 62, 2 ^ 62, 0] := rfl
  have hlen : (wrapScorer3 : EnhancedHealthScorer ℝ).metrics.Latencies.length = 3 := rfl
  have he : (wrapScorer3 : EnhancedHealthScorer ℝ).metrics.ErrorRate = 0 := rfl
  have hm : (wrapScorer3 : EnhancedHealthScorer ℝ).calculateMeanLatency = -2 ^ 63 / 3 := by
    have hw : wrapInt64 (wrapInt64 (wrapInt64 (0 + 2 ^ 62) + 2 ^ 62) + 0) = -2 ^ 63 := by decide
    unfold EnhancedHealthScorer.calculateMeanLatency
    rw [hl]
    simp only [List.length_cons, List.length_nil, List.foldl, hw]
    norm_num
  have hj : ((wrapScorer3 : EnhancedHealthScorer ℝ).CalculateJitter Real.sqrt).1 =
      Real.sqrt (2 ^ 125) := by
    rw [CalculateJitter_of_two Real.sqrt _ (by rw [hlen]; decide), hm, hl]
    simp only
    congr 1
    norm_num
  have hlo : (141 / 100 : ℝ) * 2 ^ 62 < Real.sqrt (2 ^ 125) := by
    apply Real.lt_sqrt_of_sq_lt
    norm_num
  have hhi : Real.sqrt (2 ^ 125) < (142 / 100 : ℝ) * 2 ^ 62 := by
    rw [Real.sqrt_lt' (by norm_num)]
    norm_num
  rw [(CalculateStabilityScore_of_three Real.sqrt _ (le_of_eq hlen.symm)).1, hm, he, hj]
  generalize Real.sqrt (2 ^ 125) = j at hlo hhi ⊢
  have hq : j / (-2 ^ 63 / 3) = -(3 / 2 ^ 63 * j) := by ring
  have hneg : j / (-2 ^ 63 / 3) < 0 := by
    rw [hq]
    have : (0 : ℝ) < 3 / 2 ^ 63 * j := by
      apply mul_pos (by norm_num)
      have : (0 : ℝ) < 141 / 100 * 2 ^ 62 := by norm_num
      linarith
    linarith
  rw [if_neg (by norm_num), if_neg (by norm_num), if_neg (by linarith)]
  rw [hq]
  constructor <;> norm_num at hlo hhi ⊢ <;> linarith

/-- Claim C13, evaluated on the code: after `RecordLatency` of `2^62`, `2^62` and
0, all non-negative, the `int64` sum of `calculateMeanLatency` wraps to `-2^63`;
the mean is taken as negative, the consistency score `100 * (1 - jitter / mean)`
exceeds 100, and `CalculateStabilityScore` returns a value between 142 and 143,
outside the range 0 to 100 that its doc comment gives. -/
theorem stability_after_int64_wraparound :
    (∀ x ∈ (wrapScorer3 : EnhancedHealthScorer ℝ).metrics.Latencies, 0 ≤ x) ∧
      142 < ((wrapScorer3 : EnhancedHealthScorer ℝ).CalculateStabilityScore Real.sqrt).1 ∧
      ((wrapScorer3 : EnhancedHealthScorer ℝ).CalculateStabilityScore Real.sqrt).1 < 143 ∧
      ¬ (((wrapScorer3 : EnhancedHealthScorer ℝ).CalculateStabilityScore Real.sqrt).1 ≤ 100) :=
  ⟨wrapScorer3_stability.1, wrapScorer3_stability_value.1, wrapScorer3_stability_value.2,
    not_le.mpr wrapScorer3_stability.2⟩

section TimingLemmas

set_option linter.unusedSectionVars false

variable {α : Type} [LinearOrderedField α] [FloorRing α]

theorem foldl_add_eq_sum (xs : List α) (a : α) :
    xs.foldl (fun (s x : α) => s + x) a = a + xs.sum := by
  induction xs generalizing a with
  | nil => simp
  | cons x xs ih => simp only [List.foldl_cons, List.sum_cons, ih]; ring

theorem foldl_add_sq_eq_sum (g : α → α) (xs : List α) (a : α) :
    xs.foldl (fun (s x : α) => s + g x) a = a + (xs.map g).sum := by
  induction xs generalizing a with
  | nil => simp
  | cons x xs ih => simp only [List.foldl_cons, List.map_cons, List.sum_cons, ih]; ring

theorem interArrivals_length (ts : List Int) :
    (interArrivals ts : List α).length = ts.length - 1 := by
  induction ts with
  | nil => rfl
  | cons t rest ih =>
    cases rest with
    | nil => rfl
    | cons u rest =>
      simp only [interArrivals, List.length_cons] at ih ⊢
      omega

/-- With five or more timestamps `detectTimingBasedDPI` fires exactly when the
inter-arrival intervals have variance below 0.001 and mean above 0.1 s. -/
theorem detectTimingBasedDPI_iff (ehs : EnhancedHealthScorer α)
    (hn : 5 ≤ ehs.metrics.Timestamps.length) :
    ehs.detectTimingBasedDPI = true ↔
      (specVariance (interArrivals ehs.metrics.Timestamps : List α) < 1 / 1000 ∧
        specMean (interArrivals ehs.metrics.Timestamps : List α) > 1 / 10) := by
  have hlen := interArrivals_length (α := α) ehs.metrics.Timestamps
  unfold EnhancedHealthScorer.detectTimingBasedDPI
  rw [if_neg (by omega)]
  simp only
  rw [if_neg (by omega)]
  rw [foldl_add_eq_sum, zero_add,
    foldl_add_sq_eq_sum (fun (iv : α) =>
      (iv - (interArrivals ehs.metrics.Timestamps : List α).sum /
        ((interArrivals ehs.metrics.Timestamps : List α).length : α)) *
      (iv - (interArrivals ehs.metrics.Timestamps : List α).sum /
        ((interArrivals ehs.metrics.Timestamps : List α).length : α))), zero_add]
  unfold specVariance specMean
  simp only [pow_two]
  split_ifs with h
  · exact ⟨fun _ => h, fun _ => rfl⟩
  · simp only [Bool.false_eq_true, false_iff]
    exact h

theorem detectDPIPatterns_of_timing (ehs : EnhancedHealthScorer α)
    (hn : 5 ≤ ehs.metrics.Latencies.length) (ht : ehs.detectTimingBasedDPI = true) :
    ehs.detectDPIPatterns = true := by
  unfold EnhancedHealthScorer.detectDPIPatterns
  rw [if_neg (by omega)]
  simp only [ht]
  split_ifs <;> rfl

theorem detectTimingBasedDPI_congr (ehs ehs' : EnhancedHealthScorer α)
    (h : ehs'.metrics.Timestamps = ehs.metrics.Timestamps) :
    ehs'.detectTimingBasedDPI = ehs.detectTimingBasedDPI := by
  unfold EnhancedHealthScorer.detectTimingBasedDPI
  rw [h]

theorem detectDPIPatterns_congr (ehs ehs' : EnhancedHealthScorer α)
    (hl : ehs'.metrics.Latencies = ehs.metrics.Latencies)
    (ht : ehs'.metrics.Timestamps = ehs.metrics.Timestamps) :
    ehs'.detectDPIPatterns = ehs.detectDPIPatterns := by
  unfold EnhancedHealthScorer.detectDPIPatterns
  rw [hl, calculateMeanLatency_congr ehs ehs' hl, detectTimingBasedDPI_congr ehs ehs' ht]

theorem calculateDPIEvasionScore_fingerprint (ehs : EnhancedHealthScorer α) :
    ehs.calculateDPIEvasionScore.2.metrics.DPIFingerprint =
      if ehs.detectDPIPatterns = true then "suspected" else ehs.metrics.DPIFingerprint := by
  unfold EnhancedHealthScorer.calculateDPIEvasionScore
  by_cases h : ehs.detectDPIPatterns = true <;> simp [h]

theorem CalculateAdvancedHealthScore_snd (sqrt exp : α → α) (ehs : EnhancedHealthScorer α)
    (hn : ehs.metrics.Latencies.length ≠ 0) :
    (ehs.CalculateAdvancedHealthScore sqrt exp).2 =
      (ehs.CalculateStabilityScore sqrt).2.calculateDPIEvasionScore.2 := by
  unfold EnhancedHealthScorer.CalculateAdvancedHealthScore
  rw [if_neg hn]

end TimingLemmas

/-- Claim C15, amended: for every scorer holding at least 5 samples whose
inter-arrival intervals (differences of consecutive timestamps, in seconds) have
variance below 0.001 and mean above 0.1 s, `detectDPIPatterns` is true and
computing the health score sets `DPIFingerprint` to "suspected". -/
theorem regular_intervals_flag_dpi {α : Type} [LinearOrderedField α] [FloorRing α]
    (sqrt exp : α → α) (ehs : EnhancedHealthScorer α)
    (hl : 5 ≤ ehs.metrics.Latencies.length) (ht : 5 ≤ ehs.metrics.Timestamps.length)
    (hv : specVariance (interArrivals ehs.metrics.Timestamps : List α) < 1 / 1000)
    (hm : specMean (interArrivals ehs.metrics.Timestamps : List α) > 1 / 10) :
    ehs.detectDPIPatterns = true ∧
      (ehs.CalculateAdvancedHealthScore sqrt exp).2.metrics.DPIFingerprint = "suspected" := by
  have hd : ehs.detectDPIPatterns = true :=
    detectDPIPatterns_of_timing ehs hl ((detectTimingBasedDPI_iff ehs ht).mpr ⟨hv, hm⟩)
  refine ⟨hd, ?_⟩
  obtain ⟨h1, h2, _, _⟩ := CalculateStabilityScore_frame sqrt ehs
  rw [CalculateAdvancedHealthScore_snd sqrt exp ehs (by omega),
    calculateDPIEvasionScore_fingerprint,
    detectDPIPatterns_congr ehs (ehs.CalculateStabilityScore sqrt).2 h1 h2, if_pos hd]

theorem interArrivals_quarter_seconds :
    (interArrivals [0, 250000000, 500000000, 750000000, 1000000000] : List ℝ) =
      [1 / 4, 1 / 4, 1 / 4, 1 / 4] := by
  simp only [interArrivals, timeSub, durationSeconds]
  norm_num

/-- Claim C15, amended, at five samples recorded 250 ms apart. -/
theorem regular_intervals_flag_dpi_witness :
    ((fiveProbeScorer true 0 250000000 500000000 750000000 1000000000 :
        EnhancedHealthScorer ℝ).detectDPIPatterns = true) ∧
      ((fiveProbeScorer true 0 250000000 500000000 750000000 1000000000 :
        EnhancedHealthScorer ℝ).CalculateAdvancedHealthScore Real.sqrt
          Real.exp).2.metrics.DPIFingerprint = "suspected" :=
  regular_intervals_flag_dpi Real.sqrt Real.exp
    (fiveProbeScorer true 0 250000000 500000000 750000000 1000000000) (by decide) (by decide)
    (by
      show specVariance (interArrivals [0, 250000000, 500000000, 750000000, 1000000000] :
        List ℝ) < 1 / 1000
      rw [interArrivals_quarter_seconds]
      norm_num [specVariance, specMean])
    (by
      show specMean (interArrivals [0, 250000000, 500000000, 750000000, 1000000000] :
        List ℝ) > 1 / 10
      rw [interArrivals_quarter_seconds]
      norm_num [specMean])

/-- Claim C15 fails as stated: a scorer holding four samples recorded 250 ms apart
has inter-arrival intervals of variance 0 and mean 0.25 s, yet `detectDPIPatterns`
is false and computing the health score leaves `DPIFingerprint` empty: both
detectors return early with fewer than five samples. -/
theorem four_regular_samples_counterexample :
    (fourSampleScorer true : EnhancedHealthScorer ℝ).metrics.Latencies.length = 4 ∧
      (fourSampleScorer true : EnhancedHealthScorer ℝ).metrics.Timestamps.length = 4 ∧
      specVariance (interArrivals
        (fourSampleScorer true : EnhancedHealthScorer ℝ).metrics.Timestamps : List ℝ) < 1 / 1000 ∧
      specMean (interArrivals
        (fourSampleScorer true : EnhancedHealthScorer ℝ).metrics.Timestamps : List ℝ) > 1 / 10 ∧
      (fourSampleScorer true : EnhancedHealthScorer ℝ).detectDPIPatterns = false ∧
      ((fourSampleScorer true : EnhancedHealthScorer ℝ).CalculateAdvancedHealthScore Real.sqrt
          Real.exp).2.metrics.DPIFingerprint = "" := by
  have hts : (fourSampleScorer true : EnhancedHealthScorer ℝ).metrics.Timestamps =
      [0, 250000000, 500000000, 750000000] := rfl
  have hlen : (fourSampleScorer true : EnhancedHealthScorer ℝ).metrics.Latencies.length = 4 := rfl
  have hiv : (interArrivals [0, 250000000, 500000000, 750000000] : List ℝ) =
      [1 / 4, 1 / 4, 1 / 4] := by
    simp only [interArrivals, timeSub, durationSeconds]
    norm_num
  have hd : (fourSampleScorer true : EnhancedHealthScorer ℝ).detectDPIPatterns = false := by
    unfold EnhancedHealthScorer.detectDPIPatterns
    rw [if_pos (by rw [hlen]; decide)]
  refine ⟨rfl, rfl, ?_, ?_, hd, ?_⟩
  · rw [hts, hiv]
    norm_num [specVariance, specMean]
  · rw [hts, hiv]
    norm_num [specMean]
  · obtain ⟨h1, h2, _, _⟩ := CalculateStabilityScore_frame Real.sqrt
      (fourSampleScorer true : EnhancedHealthScorer ℝ)
    rw [CalculateAdvancedHealthScore_snd Real.sqrt Real.exp _ (by rw [hlen]; decide),
      calculateDPIEvasionScore_fingerprint,
      detectDPIPatterns_congr _ _ h1 h2, hd, if_neg (by decide),
      (CalculateStabilityScore_of_three Real.sqrt _ (by rw [hlen]; decide)).2.2.2.1]
    rfl

section HealthScoreLemmas

set_option linter.unusedSectionVars false

variable {α : Type} [LinearOrderedField α] [FloorRing α]

theorem goInt_goRound_eq (x : α) (n : Int) (h0 : 0 ≤ x) (h1 : (n : α) - 1 / 2 ≤ x)
    (h2 : x < (n : α) + 1 / 2) : goInt (goRound x) = n := by
  unfold goRound
  rw [if_pos h0, goInt_intCast]
  rw [Int.floor_eq_iff]
  constructor <;> linarith

theorem CalculateAdvancedHealthScore_fst (sqrt exp : α → α) (ehs : EnhancedHealthScorer α)
    (hn : ehs.metrics.Latencies.length ≠ 0) :
    (ehs.CalculateAdvancedHealthScore sqrt exp).1 =
      goInt (goRound
        (if (if ehs.modifiedScore sqrt exp < 0 then 0 else ehs.modifiedScore sqrt exp) > 100
          then 100
          else (if ehs.modifiedScore sqrt exp < 0 then 0 else ehs.modifiedScore sqrt exp))) := by
  unfold EnhancedHealthScorer.CalculateAdvancedHealthScore
  rw [if_neg hn]
  rfl

theorem CalculateAdvancedHealthScore_of_hundred (sqrt exp : α → α)
    (ehs : EnhancedHealthScorer α) (hn : ehs.metrics.Latencies.length ≠ 0)
    (h : 100 ≤ ehs.modifiedScore sqrt exp) :
    (ehs.CalculateAdvancedHealthScore sqrt exp).1 = 100 := by
  have hinner : (if ehs.modifiedScore sqrt exp < 0 then 0 else ehs.modifiedScore sqrt exp) =
      ehs.modifiedScore sqrt exp := if_neg (by linarith)
  rw [CalculateAdvancedHealthScore_fst sqrt exp ehs hn, hinner]
  have h100 : goInt (goRound (100 : α)) = 100 :=
    goInt_goRound_eq 100 100 (by norm_num) (by norm_num) (by norm_num)
  rcases h.lt_or_eq with hlt | heq
  · rw [if_pos hlt]; exact h100
  · rw [← heq, if_neg (lt_irrefl _)]; exact h100

theorem CalculateAdvancedHealthScore_of_between (sqrt exp : α → α)
    (ehs : EnhancedHealthScorer α) (hn : ehs.metrics.Latencies.length ≠ 0) (n : Int)
    (h0 : 0 ≤ ehs.modifiedScore sqrt exp) (h100 : ehs.modifiedScore sqrt exp ≤ 100)
    (h1 : (n : α) - 1 / 2 ≤ ehs.modifiedScore sqrt exp)
    (h2 : ehs.modifiedScore sqrt exp < (n : α) + 1 / 2) :
    (ehs.CalculateAdvancedHealthScore sqrt exp).1 = n := by
  have hinner : (if ehs.modifiedScore sqrt exp < 0 then 0 else ehs.modifiedScore sqrt exp) =
      ehs.modifiedScore sqrt exp := if_neg (by linarith)
  rw [CalculateAdvancedHealthScore_fst sqrt exp ehs hn, hinner, if_neg (by linarith)]
  exact goInt_goRound_eq _ n h0 h1 h2

/-- The second component of `calculateDPIEvasionScore` differs from the receiver
in `DPIFingerprint` only. -/
theorem calculateDPIEvasionScore_frame_more (ehs : EnhancedHealthScorer α) :
    ehs.calculateDPIEvasionScore.2.metrics.StabilityScore = ehs.metrics.StabilityScore ∧
    ehs.calculateDPIEvasionScore.2.metrics.Jitter = ehs.metrics.Jitter ∧
    ehs.calculateDPIEvasionScore.2.metrics.DNSResolutionTime = ehs.metrics.DNSResolutionTime ∧
    ehs.calculateDPIEvasionScore.2.metrics.TCPHandshakeTime = ehs.metrics.TCPHandshakeTime ∧
    ehs.calculateDPIEvasionScore.2.metrics.TLSHandshakeTime = ehs.metrics.TLSHandshakeTime ∧
    ehs.calculateDPIEvasionScore.2.metrics.TTFBTime = ehs.metrics.TTFBTime := by
  unfold EnhancedHealthScorer.calculateDPIEvasionScore
  by_cases h : ehs.detectDPIPatterns = true <;> simp [h]

/-- The value of `calculateDPIEvasionScore` when no TLS handshake time is
recorded, the stored stability exceeds 80 and the stored jitter is at most half
the mean. -/
theorem calculateDPIEvasionScore_quiet (ehs : EnhancedHealthScorer α)
    (htls : ehs.metrics.TLSHandshakeTime = 0) (hs : ehs.metrics.StabilityScore > 80)
    (hr : ehs.metrics.Jitter / ehs.calculateMeanLatency ≤ 1 / 2) :
    ehs.calculateDPIEvasionScore.1 = if ehs.detectDPIPatterns = true then 85 else 110 := by
  have hr2 : ¬ (1 / 2 < ehs.metrics.Jitter / ehs.calculateMeanLatency) := not_lt.mpr hr
  have hs2 : (80 : α) < ehs.metrics.StabilityScore := hs
  have hcond : (if 0 < ehs.calculateMeanLatency ∧ 0 < ehs.metrics.Jitter then
        (if 1 / 2 < ehs.metrics.Jitter / ehs.calculateMeanLatency then
          (100 : α) + 10 - 20 * (ehs.metrics.Jitter / ehs.calculateMeanLatency) else 100 + 10)
      else 100 + 10) = 110 := by
    split_ifs <;> norm_num
  unfold EnhancedHealthScorer.calculateDPIEvasionScore
  simp only [htls, lt_self_iff_false, if_false, gt_iff_lt, if_pos hs2, hcond]
  by_cases hd : ehs.detectDPIPatterns = true
  · simp only [hd, if_true]
    norm_num
  · simp only [hd, if_false]
    norm_num

end HealthScoreLemmas

/-- What a scorer holds after the five successful probes of the example: the
five latencies, no error, no connection timing and no fingerprint. -/
theorem fiveProbeScorer_fields (iranOptimized : Bool) (t1 t2 t3 t4 t5 : Int) :
    (fiveProbeScorer iranOptimized t1 t2 t3 t4 t5 : EnhancedHealthScorer ℝ).metrics.Latencies =
        [40, 45, 42, 48, 41] ∧
      (fiveProbeScorer iranOptimized t1 t2 t3 t4 t5 : EnhancedHealthScorer ℝ).metrics.Timestamps =
        [t1, t2, t3, t4, t5] ∧
      (fiveProbeScorer iranOptimized t1 t2 t3 t4 t5 : EnhancedHealthScorer ℝ).metrics.ErrorRate = 0 ∧
      (fiveProbeScorer iranOptimized t1 t2 t3 t4 t5 :
        EnhancedHealthScorer ℝ).metrics.DNSResolutionTime = 0 ∧
      (fiveProbeScorer iranOptimized t1 t2 t3 t4 t5 :
        EnhancedHealthScorer ℝ).metrics.TCPHandshakeTime = 0 ∧
      (fiveProbeScorer iranOptimized t1 t2 t3 t4 t5 :
        EnhancedHealthScorer ℝ).metrics.TLSHandshakeTime = 0 ∧
      (fiveProbeScorer iranOptimized t1 t2 t3 t4 t5 : EnhancedHealthScorer ℝ).metrics.TTFBTime = 0 ∧
      (fiveProbeScorer iranOptimized t1 t2 t3 t4 t5 :
        EnhancedHealthScorer ℝ).metrics.DPIFingerprint = "" ∧
      (fiveProbeScorer iranOptimized t1 t2 t3 t4 t5 : EnhancedHealthScorer ℝ).iranOptimized =
        iranOptimized :=
  ⟨rfl, rfl, rfl, rfl, rfl, rfl, rfl, rfl, rfl⟩

theorem five_mean (ehs : EnhancedHealthScorer ℝ)
    (hL : ehs.metrics.Latencies = [40, 45, 42, 48, 41]) :
    ehs.calculateMeanLatency = 216 / 5 := by
  rw [calculateMeanLatency_eq ehs (by rw [hL]; decide) (by rw [hL]; decide)
    (by rw [hL]; decide), hL]
  norm_num

theorem five_jitter (ehs : EnhancedHealthScorer ℝ)
    (hL : ehs.metrics.Latencies = [40, 45, 42, 48, 41]) :
    0 < (ehs.CalculateJitter Real.sqrt).1 ∧ (ehs.CalculateJitter Real.sqrt).1 ≤ 3 := by
  rw [CalculateJitter_of_two Real.sqrt ehs (by rw [hL]; decide), five_mean ehs hL, hL]
  simp only
  constructor
  · apply Real.sqrt_pos.mpr
    norm_num
  · rw [Real.sqrt_le_iff]
    norm_num

theorem five_stability (ehs : EnhancedHealthScorer ℝ)
    (hL : ehs.metrics.Latencies = [40, 45, 42, 48, 41]) (hE : ehs.metrics.ErrorRate = 0) :
    95 < (ehs.CalculateStabilityScore Real.sqrt).1 ∧
      (ehs.CalculateStabilityScore Real.sqrt).1 < 100 := by
  obtain ⟨hj0, hj3⟩ := five_jitter ehs hL
  rw [(CalculateStabilityScore_of_three Real.sqrt ehs (by rw [hL]; decide)).1,
    five_mean ehs hL, hE]
  generalize (ehs.CalculateJitter Real.sqrt).1 = j at hj0 hj3 ⊢
  have hr0 : 0 < j / (216 / 5) := by positivity
  have hr1 : j / (216 / 5) ≤ 3 / (216 / 5) := by
    apply div_le_div_of_nonneg_right hj3; norm_num
  have hr2 : ¬ (j / (216 / 5) > 1) := by
    norm_num at hr1
    intro h
    linarith
  rw [if_neg hr2, if_pos (show (216 : ℝ) / 5 > 0 by norm_num),
    if_neg (show ¬ ((216 : ℝ) / 5 = 0) by norm_num)]
  norm_num at hr1 ⊢
  constructor <;> linarith

theorem five_detect (ehs : EnhancedHealthScorer ℝ)
    (hL : ehs.metrics.Latencies = [40, 45, 42, 48, 41]) :
    ehs.detectDPIPatterns = ehs.detectTimingBasedDPI := by
  unfold EnhancedHealthScorer.detectDPIPatterns
  rw [five_mean ehs hL, hL]
  simp only [List.length_cons, List.length_nil, List.any_cons, List.any_nil]
  norm_num

/-- The score of the five-probe scorer after `applyModifiers`, in terms of the
stability score `S`, the mode and the verdict of the timing detector. -/
theorem five_modifiedScore (ehs : EnhancedHealthScorer ℝ)
    (hL : ehs.metrics.Latencies = [40, 45, 42, 48, 41]) (hE : ehs.metrics.ErrorRate = 0)
    (hDNS : ehs.metrics.DNSResolutionTime = 0) (hTCP : ehs.metrics.TCPHandshakeTime = 0)
    (hTLS : ehs.metrics.TLSHandshakeTime = 0) (hTTFB : ehs.metrics.TTFBTime = 0)
    (hFP : ehs.metrics.DPIFingerprint = "") :
    ehs.modifiedScore Real.sqrt Real.exp =
      if ehs.iranOptimized = true then
        (if ehs.detectTimingBasedDPI = true then
          (80 + 1 / 2 + (ehs.CalculateStabilityScore Real.sqrt).1 * (20 / 100)) * (8 / 10)
        else 98 + (ehs.CalculateStabilityScore Real.sqrt).1 * (20 / 100))
      else
        (if ehs.detectTimingBasedDPI = true then
          77 + (ehs.CalculateStabilityScore Real.sqrt).1 * (25 / 100)
        else 82 + (ehs.CalculateStabilityScore Real.sqrt).1 * (25 / 100)) := by
  have hn3 : 3 ≤ ehs.metrics.Latencies.length := by rw [hL]; decide
  obtain ⟨hS95, hS100⟩ := five_stability ehs hL hE
  obtain ⟨hj0, hj3⟩ := five_jitter ehs hL
  obtain ⟨_, h1S, h1J, h1FP, h1TLS, h1DNS, h1TCP, h1TTFB⟩ :=
    CalculateStabilityScore_of_three Real.sqrt ehs hn3
  obtain ⟨h1L, h1T, h1E, h1I⟩ := CalculateStabilityScore_frame Real.sqrt ehs
  obtain ⟨h2L, h2T, h2E, h2I⟩ :=
    calculateDPIEvasionScore_frame (ehs.CalculateStabilityScore Real.sqrt).2
  obtain ⟨h2S, h2J, h2DNS, h2TCP, h2TLS, h2TTFB⟩ :=
    calculateDPIEvasionScore_frame_more (ehs.CalculateStabilityScore Real.sqrt).2
  have h2FP := calculateDPIEvasionScore_fingerprint (ehs.CalculateStabilityScore Real.sqrt).2
  have hdet : (ehs.CalculateStabilityScore Real.sqrt).2.detectDPIPatterns =
      ehs.detectTimingBasedDPI := by
    rw [detectDPIPatterns_congr ehs _ h1L h1T, five_detect ehs hL]
  have hm1 : (ehs.CalculateStabilityScore Real.sqrt).2.calculateMeanLatency = 216 / 5 :=
    five_mean _ (h1L.trans hL)
  have hm2 : (ehs.CalculateStabilityScore
      Real.sqrt).2.calculateDPIEvasionScore.2.calculateMeanLatency = 216 / 5 :=
    five_mean _ (h2L.trans (h1L.trans hL))
  have hd := calculateDPIEvasionScore_quiet (ehs.CalculateStabilityScore Real.sqrt).2
    (h1TLS.trans hTLS) (by rw [h1S]; linarith)
    (by
      rw [h1J, hm1]
      have : (ehs.CalculateJitter Real.sqrt).1 / (216 / 5) ≤ 3 / (216 / 5) := by
        apply div_le_div_of_nonneg_right hj3; norm_num
      norm_num at this ⊢
      linarith)
  have hlat : ehs.calculateLatencyScore Real.exp = 100 := by
    unfold EnhancedHealthScorer.calculateLatencyScore
    rw [five_mean ehs hL]
    norm_num
  have hperf : (ehs.CalculateStabilityScore
      Real.sqrt).2.calculateDPIEvasionScore.2.calculatePerformanceScore = 100 := by
    unfold EnhancedHealthScorer.calculatePerformanceScore
    rw [h2DNS, h2TCP, h2TTFB, h1DNS, h1TCP, h1TTFB, hDNS, hTCP, hTTFB]
    norm_num
  unfold EnhancedHealthScorer.modifiedScore EnhancedHealthScorer.weightedScore
    EnhancedHealthScorer.applyModifiers
  rw [hlat, hperf, hd, hdet]
  simp only [hm2, h2S, h1S, h2E, h1E, hE, h2I, h1I, h2FP, hdet, h1FP, hFP]
  generalize (ehs.CalculateStabilityScore Real.sqrt).1 = S at hS95 hS100 ⊢
  have hS90 : S > 90 := by linarith
  have hS75 : S > 75 := by linarith
  have hne1 : ("suspected" = "") = False := by decide
  have hne2 : ("" = "suspected") = False := by decide
  by_cases hi : ehs.iranOptimized = true <;> by_cases ht : ehs.detectTimingBasedDPI = true <;>
    simp only [hi, ht, hS90, hS75, hne1, hne2, if_true, if_false, and_true, true_and,
      false_and, and_false] <;> norm_num <;> (try simp only [hne1, hne2, if_false]) <;> ring

/-- Claim C16, amended: a scorer that has recorded exactly the five successful
latencies 40, 45, 42, 48 and 41 ms with no error and no connection timings
returns the health score 100, hence at least 95, in default mode whatever the
timestamps, and in Iran mode whenever the inter-arrival intervals of the
timestamps do not have both variance below 0.001 and mean above 0.1 s. -/
theorem five_probe_health_score (iranOptimized : Bool) (t1 t2 t3 t4 t5 : Int)
    (h : iranOptimized = true →
      ¬ (specVariance (interArrivals [t1, t2, t3, t4, t5] : List ℝ) < 1 / 1000 ∧
          specMean (interArrivals [t1, t2, t3, t4, t5] : List ℝ) > 1 / 10)) :
    95 ≤ ((fiveProbeScorer iranOptimized t1 t2 t3 t4 t5 :
        EnhancedHealthScorer ℝ).CalculateAdvancedHealthScore Real.sqrt Real.exp).1 ∧
      ((fiveProbeScorer iranOptimized t1 t2 t3 t4 t5 :
        EnhancedHealthScorer ℝ).CalculateAdvancedHealthScore Real.sqrt Real.exp).1 = 100 := by
  obtain ⟨hL, hT, hE, hDNS, hTCP, hTLS, hTTFB, hFP, hI⟩ :=
    fiveProbeScorer_fields iranOptimized t1 t2 t3 t4 t5
  have hscore : ((fiveProbeScorer iranOptimized t1 t2 t3 t4 t5 :
      EnhancedHealthScorer ℝ).CalculateAdvancedHealthScore Real.sqrt Real.exp).1 = 100 := by
    apply CalculateAdvancedHealthScore_of_hundred _ _ _ (by rw [hL]; decide)
    obtain ⟨hS95, hS100⟩ := five_stability _ hL hE
    rw [five_modifiedScore _ hL hE hDNS hTCP hTLS hTTFB hFP, hI]
    by_cases hi : iranOptimized = true
    · have hnt : ¬ ((fiveProbeScorer iranOptimized t1 t2 t3 t4 t5 :
          EnhancedHealthScorer ℝ).detectTimingBasedDPI = true) := by
        rw [detectTimingBasedDPI_iff _ (by rw [hT]; simp), hT]
        exact h hi
      rw [if_pos hi, if_neg hnt]
      linarith
    · rw [if_neg hi]
      split_ifs <;> linarith
  rw [hscore]
  exact ⟨by decide, rfl⟩

/-- Claim C16, amended, in Iran mode with probes 1 s and 2 s apart in turn. -/
theorem five_probe_health_score_witness :
    95 ≤ ((fiveProbeScorer true 0 1000000000 3000000000 4000000000 6000000000 :
        EnhancedHealthScorer ℝ).CalculateAdvancedHealthScore Real.sqrt Real.exp).1 ∧
      ((fiveProbeScorer true 0 1000000000 3000000000 4000000000 6000000000 :
        EnhancedHealthScorer ℝ).CalculateAdvancedHealthScore Real.sqrt Real.exp).1 = 100 :=
  five_probe_health_score true 0 1000000000 3000000000 4000000000 6000000000
    (by
      intro _
      have hiv : (interArrivals [0, 1000000000, 3000000000, 4000000000, 6000000000] :
          List ℝ) = [1, 2, 1, 2] := by
        simp only [interArrivals, timeSub, durationSeconds]
        norm_num
      rw [hiv]
      norm_num [specVariance, specMean])

/-- Claim C16 fails as stated: in Iran mode, with the five probes recorded 250 ms
apart, the timing detector fires, the DPI evasion score drops to 85, the
fingerprint becomes "suspected" and the final score is multiplied by 0.8: the
health score is 80. -/
theorem five_probe_regular_timestamps_counterexample :
    ((fiveProbeScorer true 0 250000000 500000000 750000000 1000000000 :
        EnhancedHealthScorer ℝ).CalculateAdvancedHealthScore Real.sqrt Real.exp).1 = 80 ∧
      ¬ (95 ≤ ((fiveProbeScorer true 0 250000000 500000000 750000000 1000000000 :
        EnhancedHealthScorer ℝ).CalculateAdvancedHealthScore Real.sqrt Real.exp).1) := by
  obtain ⟨hL, hT, hE, hDNS, hTCP, hTLS, hTTFB, hFP, hI⟩ :=
    fiveProbeScorer_fields true 0 250000000 500000000 750000000 1000000000
  have hiv : (interArrivals [0, 250000000, 500000000, 750000000, 1000000000] : List ℝ) =
      [1 / 4, 1 / 4, 1 / 4, 1 / 4] := by
    simp only [interArrivals, timeSub, durationSeconds]
    norm_num
  have ht : (fiveProbeScorer true 0 250000000 500000000 750000000 1000000000 :
      EnhancedHealthScorer ℝ).detectTimingBasedDPI = true := by
    rw [detectTimingBasedDPI_iff _ (by rw [hT]; decide), hT, hiv]
    norm_num [specVariance, specMean]
  obtain ⟨hS95, hS100⟩ := five_stability _ hL hE
  have hm := five_modifiedScore _ hL hE hDNS hTCP hTLS hTTFB hFP
  rw [hI, if_pos rfl, if_pos ht] at hm
  have hscore : ((fiveProbeScorer true 0 250000000 500000000 750000000 1000000000 :
      EnhancedHealthScorer ℝ).CalculateAdvancedHealthScore Real.sqrt Real.exp).1 = 80 := by
    apply CalculateAdvancedHealthScore_of_between _ _ _ (by rw [hL]; decide) 80 <;>
      rw [hm] <;> norm_num <;> linarith
  rw [hscore]
  exact ⟨rfl, by decide⟩

section ComponentLemmas

set_option linter.unusedSectionVars false

variable {α : Type} [LinearOrderedField α] [FloorRing α]

theorem calculateDPIEvasionScore_range (ehs : EnhancedHealthScorer α) :
    0 ≤ ehs.calculateDPIEvasionScore.1 ∧ ehs.calculateDPIEvasionScore.1 ≤ 110 := by
  unfold EnhancedHealthScorer.calculateDPIEvasionScore
  simp only
  generalize hs0 : (if ehs.metrics.TLSHandshakeTime > 0 then
      (if ehs.metrics.TLSHandshakeTime > 3000 then (100 : α) - 30
        else if ehs.metrics.TLSHandshakeTime > 1500 then 100 - 15
        else if ehs.metrics.TLSHandshakeTime > 1000 then 100 - 5 else 100)
      else 100) = s0
  have h0 : s0 ≤ 100 := by
    rw [← hs0]
    split_ifs <;> norm_num
  generalize hs1 : (if ehs.metrics.StabilityScore > 80 then s0 + 10 else s0) = s1
  have h1 : s1 ≤ 110 := by
    rw [← hs1]
    split_ifs <;> linarith
  generalize hs2 : (if ehs.calculateMeanLatency > 0 ∧ ehs.metrics.Jitter > 0 then
      (if ehs.metrics.Jitter / ehs.calculateMeanLatency > 1 / 2 then
        s1 - 20 * (ehs.metrics.Jitter / ehs.calculateMeanLatency) else s1)
      else s1) = s2
  have h2 : s2 ≤ 110 := by
    rw [← hs2]
    split_ifs with ha hb
    · have : 0 < ehs.metrics.Jitter / ehs.calculateMeanLatency := div_pos ha.2 ha.1
      linarith
    · exact h1
    · exact h1
  by_cases hd : ehs.detectDPIPatterns = true
  · simp only [hd, if_true]
    split_ifs with hneg
    · constructor <;> norm_num
    · simp only [not_lt] at hneg ⊢
      constructor <;> linarith
  · simp only [hd, Bool.false_eq_true, if_false]
    split_ifs with hneg
    · constructor <;> norm_num
    · simp only [not_lt] at hneg ⊢
      constructor <;> linarith

theorem calculatePerformanceScore_range (ehs : EnhancedHealthScorer α) :
    0 ≤ ehs.calculatePerformanceScore ∧ ehs.calculatePerformanceScore ≤ 100 := by
  unfold EnhancedHealthScorer.calculatePerformanceScore
  simp only
  split_ifs <;> constructor <;> norm_num

end ComponentLemmas

theorem five_dpi (ehs : EnhancedHealthScorer ℝ)
    (hL : ehs.metrics.Latencies = [40, 45, 42, 48, 41]) (hE : ehs.metrics.ErrorRate = 0)
    (hTLS : ehs.metrics.TLSHandshakeTime = 0) :
    (ehs.CalculateStabilityScore Real.sqrt).2.calculateDPIEvasionScore.1 =
      if ehs.detectTimingBasedDPI = true then 85 else 110 := by
  have hn3 : 3 ≤ ehs.metrics.Latencies.length := by rw [hL]; decide
  obtain ⟨hS95, _⟩ := five_stability ehs hL hE
  obtain ⟨_, hj3⟩ := five_jitter ehs hL
  obtain ⟨_, h1S, h1J, _, h1TLS, _, _, _⟩ := CalculateStabilityScore_of_three Real.sqrt ehs hn3
  obtain ⟨h1L, h1T, _, _⟩ := CalculateStabilityScore_frame Real.sqrt ehs
  rw [calculateDPIEvasionScore_quiet (ehs.CalculateStabilityScore Real.sqrt).2
    (h1TLS.trans hTLS) (by rw [h1S]; linarith)
    (by
      rw [h1J, five_mean _ (h1L.trans hL)]
      have : (ehs.CalculateJitter Real.sqrt).1 / (216 / 5) ≤ 3 / (216 / 5) := by
        apply div_le_div_of_nonneg_right hj3; norm_num
      norm_num at this ⊢
      linarith),
    detectDPIPatterns_congr ehs _ h1L h1T, five_detect ehs hL]

theorem calculateLatencyScore_range (ehs : EnhancedHealthScorer ℝ) :
    0 ≤ ehs.calculateLatencyScore Real.exp ∧ ehs.calculateLatencyScore Real.exp ≤ 100 := by
  unfold EnhancedHealthScorer.calculateLatencyScore
  simp only
  split_ifs with h
  · constructor <;> norm_num
  · have hpos := Real.exp_pos (-ehs.calculateMeanLatency / 500)
    have hneg : -ehs.calculateMeanLatency / 500 ≤ 0 := by
      rw [neg_div]
      have : (0 : ℝ) ≤ ehs.calculateMeanLatency / 500 := by linarith
      linarith
    have hle := Real.exp_le_exp.mpr hneg
    rw [Real.exp_zero] at hle
    constructor <;> linarith

/-- The ranges of the component scores: for every scorer state reached from a new scorer by calls
that record no negative latency and no negative timing, and whose latencies have
a sum below `2^63`, the latency, stability, reliability and performance scores
that `CalculateAdvancedHealthScore` combines lie in `[0, 100]` and the DPI
evasion score lies in `[0, 110]`. -/
theorem component_scores_ranges (iranOptimized : Bool) (calls : List ScorerCall)
    (hcalls : ∀ c ∈ calls, c.nonnegative)
    (hsum : ((NewEnhancedHealthScorer iranOptimized : EnhancedHealthScorer ℝ).run Real.sqrt
      Real.exp calls).metrics.Latencies.sum < 2 ^ 63) :
    (0 ≤ ((NewEnhancedHealthScorer iranOptimized : EnhancedHealthScorer ℝ).run Real.sqrt
          Real.exp calls).calculateLatencyScore Real.exp ∧
        ((NewEnhancedHealthScorer iranOptimized : EnhancedHealthScorer ℝ).run Real.sqrt
          Real.exp calls).calculateLatencyScore Real.exp ≤ 100) ∧
      (0 ≤ (((NewEnhancedHealthScorer iranOptimized : EnhancedHealthScorer ℝ).run Real.sqrt
          Real.exp calls).CalculateStabilityScore Real.sqrt).1 ∧
        (((NewEnhancedHealthScorer iranOptimized : EnhancedHealthScorer ℝ).run Real.sqrt
          Real.exp calls).CalculateStabilityScore Real.sqrt).1 ≤ 100) ∧
      (0 ≤ 100 * (1 - (((NewEnhancedHealthScorer iranOptimized : EnhancedHealthScorer ℝ).run
          Real.sqrt Real.exp calls).CalculateStabilityScore Real.sqrt).2.metrics.ErrorRate) ∧
        100 * (1 - (((NewEnhancedHealthScorer iranOptimized : EnhancedHealthScorer ℝ).run
          Real.sqrt Real.exp calls).CalculateStabilityScore Real.sqrt).2.metrics.ErrorRate) ≤
          100) ∧
      (0 ≤ (((NewEnhancedHealthScorer iranOptimized : EnhancedHealthScorer ℝ).run Real.sqrt
          Real.exp calls).CalculateStabilityScore Real.sqrt).2.calculateDPIEvasionScore.1 ∧
        (((NewEnhancedHealthScorer iranOptimized : EnhancedHealthScorer ℝ).run Real.sqrt
          Real.exp calls).CalculateStabilityScore Real.sqrt).2.calculateDPIEvasionScore.1 ≤
          110) ∧
      (0 ≤ (((NewEnhancedHealthScorer iranOptimized : EnhancedHealthScorer ℝ).run Real.sqrt
          Real.exp calls).CalculateStabilityScore
            Real.sqrt).2.calculateDPIEvasionScore.2.calculatePerformanceScore ∧
        (((NewEnhancedHealthScorer iranOptimized : EnhancedHealthScorer ℝ).run Real.sqrt
          Real.exp calls).CalculateStabilityScore
            Real.sqrt).2.calculateDPIEvasionScore.2.calculatePerformanceScore ≤ 100) := by
  have hcons := run_consistent Real.sqrt Real.exp calls
    (NewEnhancedHealthScorer iranOptimized : EnhancedHealthScorer ℝ) ⟨rfl, le_refl _, zero_le_one⟩
  have hnn := run_nonneg_latencies Real.sqrt Real.exp calls hcalls
    (NewEnhancedHealthScorer iranOptimized : EnhancedHealthScorer ℝ)
    (by intro x hx; simp [NewEnhancedHealthScorer] at hx)
  revert hsum hcons hnn
  generalize (NewEnhancedHealthScorer iranOptimized : EnhancedHealthScorer ℝ).run Real.sqrt
    Real.exp calls = ehs
  intro hsum hcons hnn
  have hm := calculateMeanLatency_nonneg ehs hnn hsum
  refine ⟨calculateLatencyScore_range ehs,
    CalculateStabilityScore_range Real.sqrt Real.sqrt_nonneg ehs hcons hm, ?_,
    calculateDPIEvasionScore_range _, calculatePerformanceScore_range _⟩
  rw [(CalculateStabilityScore_frame Real.sqrt ehs).2.2.1]
  obtain ⟨_, h0, h1⟩ := hcons
  constructor <;> linarith

/-- The range of the DPI evasion score at the three latencies 100, 110 and 105
followed by an error. -/
theorem component_scores_ranges_witness :
    0 ≤ (((NewEnhancedHealthScorer true : EnhancedHealthScorer ℝ).run Real.sqrt Real.exp
        [ScorerCall.recordLatency 100 0, ScorerCall.recordLatency 110 1,
          ScorerCall.recordLatency 105 2,
          ScorerCall.recordError]).CalculateStabilityScore Real.sqrt).2.calculateDPIEvasionScore.1 ∧
      (((NewEnhancedHealthScorer true : EnhancedHealthScorer ℝ).run Real.sqrt Real.exp
        [ScorerCall.recordLatency 100 0, ScorerCall.recordLatency 110 1,
          ScorerCall.recordLatency 105 2,
          ScorerCall.recordError]).CalculateStabilityScore Real.sqrt).2.calculateDPIEvasionScore.1 ≤
        110 :=
  (component_scores_ranges true
    [ScorerCall.recordLatency 100 0, ScorerCall.recordLatency 110 1,
      ScorerCall.recordLatency 105 2, ScorerCall.recordError]
    (by
      intro c hc
      simp only [List.mem_cons, List.mem_singleton, List.not_mem_nil, or_false] at hc
      rcases hc with rfl | rfl | rfl | rfl <;> simp [ScorerCall.nonnegative])
    (by decide)).2.2.2.1

/-- Claim C28, evaluated on the code: after the five latencies 40, 45, 42, 48 and
41 ms, recorded 1 s and 2 s apart in turn, the stored stability exceeds 80 and
`calculateDPIEvasionScore` adds its bonus of 10 to the full 100.  The function
bounds its result from below only, so the DPI evasion score that
`CalculateAdvancedHealthScore` combines is 110, above the 100 that the comment
`Component scores (0-100 each)` of the caller gives as the bound. -/
theorem dpi_evasion_score_hundred_and_ten :
    ((fiveProbeScorer false 0 1000000000 3000000000 4000000000 6000000000 :
        EnhancedHealthScorer ℝ).CalculateStabilityScore
          Real.sqrt).2.calculateDPIEvasionScore.1 = 110 ∧
      ¬ (((fiveProbeScorer false 0 1000000000 3000000000 4000000000 6000000000 :
        EnhancedHealthScorer ℝ).CalculateStabilityScore
          Real.sqrt).2.calculateDPIEvasionScore.1 ≤ 100) := by
  obtain ⟨hL, hT, hE, _, _, hTLS, _, _, _⟩ :=
    fiveProbeScorer_fields false 0 1000000000 3000000000 4000000000 6000000000
  have hiv : (interArrivals [0, 1000000000, 3000000000, 4000000000, 6000000000] :
      List ℝ) = [1, 2, 1, 2] := by
    simp only [interArrivals, timeSub, durationSeconds]
    norm_num
  have ht : ¬ ((fiveProbeScorer false 0 1000000000 3000000000 4000000000 6000000000 :
      EnhancedHealthScorer ℝ).detectTimingBasedDPI = true) := by
    rw [detectTimingBasedDPI_iff _ (by rw [hT]; decide), hT, hiv]
    norm_num [specVariance, specMean]
  have hd := five_dpi _ hL hE hTLS
  rw [if_neg ht] at hd
  rw [hd]
  exact ⟨rfl, by norm_num⟩

/-! ## Theorems: the adaptive fragmenter -/

theorem recordAttempt_history (sf : SNIFragmenter) (success : Bool) (fragmentsUsed : Int) :
    (sf.recordAttempt success fragmentsUsed).successHistory = sf.historyAfter success ∧
      (sf.recordAttempt success fragmentsUsed).adaptiveMode = sf.adaptiveMode ∧
      (sf.recordAttempt success fragmentsUsed).enabled = sf.enabled ∧
      (sf.recordAttempt success fragmentsUsed).randomizeDelay = sf.randomizeDelay := by
  unfold SNIFragmenter.recordAttempt SNIFragmenter.historyAfter
  simp only
  split_ifs <;> simp

theorem recordAttempt_adjust_pair (sf : SNIFragmenter) (success : Bool) (fragmentsUsed : Int) :
    ((sf.recordAttempt success fragmentsUsed).fragmentSize,
        (sf.recordAttempt success fragmentsUsed).delayBetween) =
      if sf.adaptiveMode = true ∧ (sf.historyAfter success).length ≥ 20 then
        if recentSuccessRate (sf.historyAfter success) < 1 / 2 then
          (if sf.fragmentSize > 3 then sf.fragmentSize - 1 else sf.fragmentSize,
            if sf.delayBetween < 10 * Millisecond then sf.delayBetween + Millisecond
            else sf.delayBetween)
        else if recentSuccessRate (sf.historyAfter success) > 85 / 100 then
          (if sf.fragmentSize < 8 then sf.fragmentSize + 1 else sf.fragmentSize,
            if sf.delayBetween > Millisecond then sf.delayBetween - Millisecond
            else sf.delayBetween)
        else (sf.fragmentSize, sf.delayBetween)
      else (sf.fragmentSize, sf.delayBetween) := by
  unfold SNIFragmenter.recordAttempt SNIFragmenter.historyAfter recentSuccessRate
  simp only [Nat.cast_ofNat]
  split_ifs <;> simp_all

/-- What `recordAttempt` does to `fragmentSize` and `delayBetween`. -/
theorem recordAttempt_adjust (sf : SNIFragmenter) (success : Bool) (fragmentsUsed : Int) :
    (sf.recordAttempt success fragmentsUsed).fragmentSize =
        (if sf.adaptiveMode = true ∧ (sf.historyAfter success).length ≥ 20 then
          if recentSuccessRate (sf.historyAfter success) < 1 / 2 then
            (if sf.fragmentSize > 3 then sf.fragmentSize - 1 else sf.fragmentSize)
          else if recentSuccessRate (sf.historyAfter success) > 85 / 100 then
            (if sf.fragmentSize < 8 then sf.fragmentSize + 1 else sf.fragmentSize)
          else sf.fragmentSize
        else sf.fragmentSize) ∧
      (sf.recordAttempt success fragmentsUsed).delayBetween =
        (if sf.adaptiveMode = true ∧ (sf.historyAfter success).length ≥ 20 then
          if recentSuccessRate (sf.historyAfter success) < 1 / 2 then
            (if sf.delayBetween < 10 * Millisecond then sf.delayBetween + Millisecond
              else sf.delayBetween)
          else if recentSuccessRate (sf.historyAfter success) > 85 / 100 then
            (if sf.delayBetween > Millisecond then sf.delayBetween - Millisecond
              else sf.delayBetween)
          else sf.delayBetween
        else sf.delayBetween) := by
  have hp := recordAttempt_adjust_pair sf success fragmentsUsed
  have h1 := congrArg Prod.fst hp
  have h2 := congrArg Prod.snd hp
  simp only [apply_ite Prod.fst] at h1
  simp only [apply_ite Prod.snd] at h2
  exact ⟨h1, h2⟩

theorem recordAttempt_inBounds (sf : SNIFragmenter) (success : Bool) (fragmentsUsed : Int)
    (h : sf.inBounds) : (sf.recordAttempt success fragmentsUsed).inBounds := by
  obtain ⟨h1, h2, h3, h4, h5⟩ := h
  obtain ⟨hfs, hd⟩ := recordAttempt_adjust sf success fragmentsUsed
  have hhist := (recordAttempt_history sf success fragmentsUsed).1
  unfold SNIFragmenter.inBounds
  rw [hfs, hd, hhist]
  unfold Millisecond at *
  refine ⟨?_, ?_, ?_, ?_, ?_⟩
  · split_ifs <;> omega
  · split_ifs <;> omega
  · split_ifs <;> omega
  · split_ifs <;> omega
  · clear hfs hd hhist
    unfold SNIFragmenter.historyAfter
    split_ifs with hlen <;>
      simp only [List.length_drop, List.length_append, List.length_singleton] at hlen ⊢ <;>
      omega

theorem step_inBounds (sfd : SNIFragmentDialer) (c : DialerCall) (h : sfd.fragmenter.inBounds) :
    (sfd.step c).fragmenter.inBounds := by
  cases c with
  | setFragmentSize size =>
    obtain ⟨h1, h2, h3, h4, h5⟩ := h
    simp only [SNIFragmentDialer.step, SNIFragmentDialer.SetFragmentSize]
    split_ifs with hs
    · exact ⟨hs.1, hs.2, h3, h4, h5⟩
    · exact ⟨h1, h2, h3, h4, h5⟩
  | setDelay delay =>
    obtain ⟨h1, h2, h3, h4, h5⟩ := h
    simp only [SNIFragmentDialer.step, SNIFragmentDialer.SetDelay]
    split_ifs with hs
    · exact ⟨h1, h2, hs.1, hs.2, h5⟩
    · exact ⟨h1, h2, h3, h4, h5⟩
  | enableAdaptive => exact h
  | recordAttempt success fragmentsUsed => exact recordAttempt_inBounds sfd.fragmenter success fragmentsUsed h

theorem run_inBounds (calls : List DialerCall) :
    ∀ sfd : SNIFragmentDialer, sfd.fragmenter.inBounds → (sfd.run calls).fragmenter.inBounds := by
  induction calls with
  | nil => intro sfd h; exact h
  | cons c rest ih => intro sfd h; exact ih _ (step_inBounds sfd c h)

/-- Claim C18: starting from `NewSNIFragmentDialer` (fragment size 5, delay 2 ms),
after any sequence of `SetFragmentSize`, `SetDelay`, `EnableAdaptive` and
`recordAttempt` calls with arbitrary arguments, the fragmenter satisfies
`3 ≤ fragmentSize ≤ 20` and `0 ≤ delayBetween ≤ 50 ms`, and its outcome history
holds at most 100 entries. -/
theorem fragmenter_parameters_stay_in_bounds (calls : List DialerCall) :
    NewSNIFragmentDialer.fragmenter.fragmentSize = 5 ∧
      NewSNIFragmentDialer.fragmenter.delayBetween = 2 * Millisecond ∧
      3 ≤ (NewSNIFragmentDialer.run calls).fragmenter.fragmentSize ∧
      (NewSNIFragmentDialer.run calls).fragmenter.fragmentSize ≤ 20 ∧
      0 ≤ (NewSNIFragmentDialer.run calls).fragmenter.delayBetween ∧
      (NewSNIFragmentDialer.run calls).fragmenter.delayBetween ≤ 50 * Millisecond ∧
      (NewSNIFragmentDialer.run calls).fragmenter.successHistory.length ≤ 100 :=
  ⟨rfl, rfl, run_inBounds calls NewSNIFragmentDialer
    ⟨by decide, by decide, by decide, by decide, by decide⟩⟩

/-- Claim C17, amended: with adaptive mode on, `recordAttempt` appends the outcome
(and drops the oldest entry beyond 100); then, if the history has at least 20
entries, with `r` the success fraction of the last 20: when `r < 0.5` the
fragment size is decreased by 1 if it is above 3 and the delay is increased by
1 ms if it is below 10 ms; when `r > 0.85` the fragment size is increased by 1 if
it is below 8 and the delay is decreased by 1 ms if it is above 1 ms; otherwise,
and with fewer than 20 entries, both are unchanged. -/
theorem recordAttempt_adapts_within_guards (sf : SNIFragmenter) (success : Bool)
    (fragmentsUsed : Int) (hadapt : sf.adaptiveMode = true) :
    (sf.recordAttempt success fragmentsUsed).successHistory = sf.historyAfter success ∧
      (20 ≤ (sf.historyAfter success).length →
        recentSuccessRate (sf.historyAfter success) < 1 / 2 →
        (sf.recordAttempt success fragmentsUsed).fragmentSize =
            (if sf.fragmentSize > 3 then sf.fragmentSize - 1 else sf.fragmentSize) ∧
          (sf.recordAttempt success fragmentsUsed).delayBetween =
            (if sf.delayBetween < 10 * Millisecond then sf.delayBetween + Millisecond
              else sf.delayBetween)) ∧
      (20 ≤ (sf.historyAfter success).length →
        recentSuccessRate (sf.historyAfter success) > 85 / 100 →
        (sf.recordAttempt success fragmentsUsed).fragmentSize =
            (if sf.fragmentSize < 8 then sf.fragmentSize + 1 else sf.fragmentSize) ∧
          (sf.recordAttempt success fragmentsUsed).delayBetween =
            (if sf.delayBetween > Millisecond then sf.delayBetween - Millisecond
              else sf.delayBetween)) ∧
      (((sf.historyAfter success).length < 20 ∨
          (1 / 2 ≤ recentSuccessRate (sf.historyAfter success) ∧
            recentSuccessRate (sf.historyAfter success) ≤ 85 / 100)) →
        (sf.recordAttempt success fragmentsUsed).fragmentSize = sf.fragmentSize ∧
          (sf.recordAttempt success fragmentsUsed).delayBetween = sf.delayBetween) := by
  obtain ⟨hfs, hd⟩ := recordAttempt_adjust sf success fragmentsUsed
  simp only [hadapt, true_and] at hfs hd
  refine ⟨(recordAttempt_history sf success fragmentsUsed).1, ?_, ?_, ?_⟩
  · intro hlen hr
    rw [hfs, hd, if_pos hlen, if_pos hr, if_pos hlen, if_pos hr]
    exact ⟨rfl, rfl⟩
  · intro hlen hr
    have hr2 : ¬ recentSuccessRate (sf.historyAfter success) < 1 / 2 := by
      intro h
      have : (1 : ℚ) / 2 < 85 / 100 := by norm_num
      linarith
    rw [hfs, hd, if_pos hlen, if_neg hr2, if_pos hr, if_pos hlen, if_neg hr2, if_pos hr]
    exact ⟨rfl, rfl⟩
  · rintro (hlen | ⟨hr1, hr2⟩)
    · rw [hfs, hd, if_neg (by omega), if_neg (by omega)]
      exact ⟨rfl, rfl⟩
    · rw [hfs, hd]
      simp only [gt_iff_lt, if_neg (not_lt.mpr hr1), if_neg (not_lt.mpr hr2), ite_self, and_self]

set_option maxRecDepth 100000 in
theorem strugglingFragmenter_eq :
    strugglingFragmenter =
      { NewSNIFragmenter with successHistory := List.replicate 19 false } := by
  rfl

set_option maxRecDepth 100000 in
theorem steadyFragmenter_eq :
    steadyFragmenter =
      { NewSNIFragmenter with successHistory := List.replicate 19 true } := by
  rfl

/-- Claim C17, amended, at the 20th attempt of a new fragmenter (fragment size 5,
delay 2 ms, adaptive mode on).  After 19 failures a further failure fills the
history to 20 entries with the rate 0, and `recordAttempt` moves the fragment
size to 4 and the delay to 3 ms.  After 19 successes a further success gives the
rate 1, and `recordAttempt` moves the fragment size to 6 and the delay to 1 ms. -/
theorem recordAttempt_adapts_within_guards_witness :
    ((strugglingFragmenter.historyAfter false).length = 20 ∧
        recentSuccessRate (strugglingFragmenter.historyAfter false) = 0 ∧
        (strugglingFragmenter.recordAttempt false 2).fragmentSize = 4 ∧
        (strugglingFragmenter.recordAttempt false 2).delayBetween = 3 * Millisecond) ∧
      ((steadyFragmenter.historyAfter true).length = 20 ∧
        recentSuccessRate (steadyFragmenter.historyAfter true) = 1 ∧
        (steadyFragmenter.recordAttempt true 2).fragmentSize = 6 ∧
        (steadyFragmenter.recordAttempt true 2).delayBetween = 1 * Millisecond) := by
  have hs := strugglingFragmenter_eq
  have ht := steadyFragmenter_eq
  have hhs : strugglingFragmenter.historyAfter false = List.replicate 20 false := by
    rw [hs]; rfl
  have hht : steadyFragmenter.historyAfter true = List.replicate 20 true := by
    rw [ht]; rfl
  have hrs : recentSuccessRate (strugglingFragmenter.historyAfter false) = 0 := by
    rw [hhs]
    unfold recentSuccessRate
    norm_num [List.replicate, List.filter]
  have hrt : recentSuccessRate (steadyFragmenter.historyAfter true) = 1 := by
    rw [hht]
    unfold recentSuccessRate
    norm_num [List.replicate, List.filter]
  have h1 := (recordAttempt_adapts_within_guards strugglingFragmenter false 2
    (by rw [hs]; rfl)).2.1 (by rw [hhs]; decide) (by rw [hrs]; norm_num)
  have h2 := (recordAttempt_adapts_within_guards steadyFragmenter true 2
    (by rw [ht]; rfl)).2.2.1 (by rw [hht]; decide) (by rw [hrt]; norm_num)
  have hfs : strugglingFragmenter.fragmentSize = 5 := by rw [hs]; rfl
  have hds : strugglingFragmenter.delayBetween = 2 * Millisecond := by rw [hs]; rfl
  have hft : steadyFragmenter.fragmentSize = 5 := by rw [ht]; rfl
  have hdt : steadyFragmenter.delayBetween = 2 * Millisecond := by rw [ht]; rfl
  rw [hfs, hds] at h1
  rw [hft, hdt] at h2
  refine ⟨⟨by rw [hhs]; rfl, hrs, ?_, ?_⟩, ⟨by rw [hht]; rfl, hrt, ?_, ?_⟩⟩
  · rw [h1.1]; decide
  · rw [h1.2]; decide
  · rw [h2.1]; decide
  · rw [h2.2]; decide

set_option maxRecDepth 100000 in
theorem saturatedFragmenter_eq :
    saturatedFragmenter =
      { NewSNIFragmenter with fragmentSize := 20, successHistory := List.replicate 19 true } := by
  rfl

/-- Claim C17 fails as stated: after `SetFragmentSize(20)` and 19 successes on a
new dialer, the 20th success gives the rate 1 over the last 20 attempts, and
`recordAttempt` leaves the fragment size at 20, not at `min(8, 20 + 1) = 8`: the
size is increased only while it is below 8. -/
theorem fragment_size_twenty_counterexample :
    saturatedFragmenter.adaptiveMode = true ∧ saturatedFragmenter.fragmentSize = 20 ∧
      (saturatedFragmenter.historyAfter true).length = 20 ∧
      recentSuccessRate (saturatedFragmenter.historyAfter true) > 85 / 100 ∧
      (saturatedFragmenter.recordAttempt true 0).fragmentSize = 20 ∧
      (saturatedFragmenter.recordAttempt true 0).fragmentSize ≠
        min 8 (saturatedFragmenter.fragmentSize + 1) := by
  have hs : saturatedFragmenter =
      { NewSNIFragmenter with fragmentSize := 20, successHistory := List.replicate 19 true } :=
    saturatedFragmenter_eq
  have hh : saturatedFragmenter.historyAfter true = List.replicate 20 true := by
    rw [hs]; rfl
  have hr : recentSuccessRate (saturatedFragmenter.historyAfter true) = 1 := by
    rw [hh]
    unfold recentSuccessRate
    norm_num [List.replicate, List.filter]
  have hfs : (saturatedFragmenter.recordAttempt true 0).fragmentSize = 20 := by
    rw [(recordAttempt_adjust saturatedFragmenter true 0).1, hr, hh, hs]
    norm_num [NewSNIFragmenter]
  refine ⟨by rw [hs]; rfl, by rw [hs], by rw [hh]; rfl, by rw [hr]; norm_num, hfs, ?_⟩
  rw [hfs, hs]
  decide

theorem chunkedBy_cons (k : Nat) (c : List Nat) (rest : List (List Nat))
    (hc0 : 0 < c.length) (hck : c.length ≤ k) (hfull : rest ≠ [] → c.length = k)
    (h : chunkedBy k rest) : chunkedBy k (c :: rest) := by
  obtain ⟨h1, h2⟩ := h
  constructor
  · intro d hd
    cases rest with
    | nil => simp at hd
    | cons r rs =>
      rw [List.dropLast_cons₂] at hd
      rcases List.mem_cons.mp hd with rfl | hd
      · exact hfull (by simp)
      · exact h1 d hd
  · intro d hd
    rcases List.mem_cons.mp hd with rfl | hd
    · exact ⟨hc0, hck⟩
    · exact h2 d hd

theorem sniChunkLoop_chunked (sniData : List Nat) (chunkSize : Int) (hc : 1 ≤ chunkSize) :
    ∀ (fuel : Nat) (j : Int) (st : WriteState),
      st.conn.reliable → 0 ≤ j → ((sniData.length : Int) - j).toNat < fuel →
      ∃ (st' : WriteState) (chunks : List (List Nat)),
        sniChunkLoop sniData chunkSize fuel j st = LoopExit.done st' ∧ st'.conn.reliable ∧
          st'.conn.writes = st.conn.writes ++ chunks ∧
          st'.totalWritten = st.totalWritten + (((sniData.length : Int) - j).toNat : Int) ∧
          chunks.flatten = sniData.drop j.toNat ∧ chunkedBy chunkSize.toNat chunks ∧
          ((sniData.length : Int) ≤ j → chunks = []) := by
  intro fuel
  induction fuel with
  | zero => intro j st _ _ hlt; omega
  | succ fuel ih =>
    intro j st hrel hj0 hlt
    unfold sniChunkLoop
    by_cases hpos : j < (sniData.length : Int)
    · rw [if_pos hpos]
      simp only
      have he1 : j < (if j + chunkSize > sniData.length then (sniData.length : Int) else j + chunkSize) := by
        split_ifs <;> omega
      have he2 : (if j + chunkSize > sniData.length then (sniData.length : Int) else j + chunkSize) ≤ sniData.length := by
        split_ifs <;> omega
      have he3 : ((sniData.length : Int) - (j + chunkSize)).toNat =
          sniData.length - (if j + chunkSize > sniData.length then (sniData.length : Int) else j + chunkSize).toNat := by
        split_ifs <;> omega
      have he4 : sniData.drop (j + chunkSize).toNat =
          sniData.drop (if j + chunkSize > sniData.length then (sniData.length : Int) else j + chunkSize).toNat := by
        split_ifs with h
        · rw [List.drop_eq_nil_of_le (by omega), List.drop_eq_nil_of_le (by omega)]
        · rfl
      have he5 : (if j + chunkSize > sniData.length then (sniData.length : Int) else j + chunkSize) ≤
          j + chunkSize := by
        split_ifs <;> omega
      have he6 : ¬ ((sniData.length : Int) ≤ j + chunkSize) →
          (if j + chunkSize > sniData.length then (sniData.length : Int) else j + chunkSize) =
            j + chunkSize := by
        intro h
        rw [if_neg (by omega)]
      generalize (if j + chunkSize > sniData.length then (sniData.length : Int) else j + chunkSize) = e
        at he1 he2 he3 he4 he5 he6
      rw [if_neg (by omega), NetConn.Write_reliable _ hrel]
      simp only
      obtain ⟨st', chunks, hrun, hrel', hw, ht, hfl, hch, hnil⟩ :=
        ih (j + chunkSize)
          { conn := { st.conn with
              writes := st.conn.writes ++ [(sniData.take e.toNat).drop j.toNat] },
            totalWritten := st.totalWritten + (((sniData.take e.toNat).drop j.toNat).length : Int),
            fragmentCount := st.fragmentCount + 1 } hrel (by omega) (by omega)
      have hlen : ((sniData.take e.toNat).drop j.toNat).length = e.toNat - j.toNat := by
        simp only [List.length_take, List.length_drop]
        omega
      refine ⟨st', (sniData.take e.toNat).drop j.toNat :: chunks, hrun, hrel', ?_, ?_, ?_, ?_, ?_⟩
      · rw [hw]; simp
      · rw [ht, he3]
        simp only [List.length_take, List.length_drop]
        omega
      · rw [List.flatten_cons, hfl, he4]
        exact take_drop_append_drop sniData j.toNat e.toNat (by omega)
      · apply chunkedBy_cons _ _ _ (by rw [hlen]; omega) (by rw [hlen]; omega) _ hch
        intro hne
        have hnot : ¬ ((sniData.length : Int) ≤ j + chunkSize) := fun h => hne (hnil h)
        rw [hlen, he6 hnot]
        omega
      · intro h; omega
    · rw [if_neg hpos]
      refine ⟨st, [], rfl, hrel, by simp, ?_, ?_, ?_, fun _ => rfl⟩
      · have : ((sniData.length : Int) - j).toNat = 0 := by omega
        rw [this]; simp
      · rw [List.drop_eq_nil_of_le (by omega)]; rfl
      · exact ⟨by simp, by simp⟩

theorem findSNIOffset_pos_length (data : List Nat) (h : 0 < findSNIOffset data) :
    40 ≤ data.length := by
  unfold findSNIOffset at h
  by_contra hc
  rw [if_pos (by omega)] at h
  omega

theorem take_min_thirty (l : List Nat) :
    l.take (if 30 > l.length then l.length else 30) = l.take 30 ∧
      l.drop (if 30 > l.length then l.length else 30) = l.drop 30 := by
  split_ifs with h
  · rw [List.take_of_length_le (le_refl _), List.take_of_length_le (by omega),
      List.drop_eq_nil_of_le (le_refl _), List.drop_eq_nil_of_le (by omega)]
    exact ⟨rfl, rfl⟩
  · exact ⟨rfl, rfl⟩

theorem writePayload_sni (fc : FragmentedConn) (hfs : 1 ≤ fc.fragmenter.fragmentSize)
    (remaining : List Nat) (st : WriteState) (hrel : st.conn.reliable)
    (hfc : st.fragmentCount = 1) (hpos : 0 < findSNIOffset remaining)
    (hlt : findSNIOffset remaining < (remaining.length : Int) - 10) :
    ∃ (fc' : FragmentedConn) (sniChunks restChunks : List (List Nat)),
      fc.writePayload remaining st =
          some ((st.totalWritten + (remaining.length : Int), none), fc') ∧
        fc'.Conn.writes =
          st.conn.writes ++ [remaining.take (findSNIOffset remaining).toNat] ++ sniChunks ++
            restChunks ∧
        sniChunks.flatten = (remaining.drop (findSNIOffset remaining).toNat).take 30 ∧
        chunkedBy 5 sniChunks ∧
        restChunks.flatten = (remaining.drop (findSNIOffset remaining).toNat).drop 30 := by
  unfold FragmentedConn.writePayload
  have hsni : findSNIOffset remaining > 0 ∧
      findSNIOffset remaining < (remaining.length : Int) - 10 := ⟨hpos, hlt⟩
  simp only [if_pos hsni]
  generalize findSNIOffset remaining = off at hsni
  rw [NetConn.Write_reliable _ hrel]
  simp only
  obtain ⟨htake, hdrop⟩ := take_min_thirty (remaining.drop off.toNat)
  rw [htake, hdrop, hfc]
  have hfive : (3 : Int) + Int.tmod (1 + 1) 3 = 5 := by decide
  rw [hfive]
  obtain ⟨st2, chunks1, hrun, hrel2, hw2, ht2, hfl2, hch2, _⟩ :=
    sniChunkLoop_chunked ((remaining.drop off.toNat).take 30) 5 (by decide)
      (((remaining.drop off.toNat).take 30).length + 1) 0
      { conn := { st.conn with writes := st.conn.writes ++ [remaining.take off.toNat] },
        totalWritten := st.totalWritten + ((remaining.take off.toNat).length : Int),
        fragmentCount := 1 + 1 } hrel (le_refl _) (by omega)
  obtain ⟨fc', chunks2, hrem, hw3, hfl3⟩ :=
    writeRemainder_reliable fc hfs ((remaining.drop off.toNat).drop 30) st2 hrel2
  refine ⟨fc', chunks1, chunks2, ?_, ?_, ?_, hch2, hfl3⟩
  · simp only [hrun, hrem, ht2]
    simp only [List.length_take, List.length_drop, Option.some.injEq, Prod.mk.injEq, and_true]
    omega
  · rw [hw3, hw2]
  · rw [hfl2]; rfl

/-- Claim C27, amended: whenever `fragmentAndWrite` takes the SNI branch (the
offset `s` found by `findSNIOffset` in the post-header payload satisfies
`0 < s < len(payload) - 10`) on a connection whose writes succeed, the
`min(30, bytes left)` bytes that follow the pre-SNI segment are written in chunks
of exactly 5 bytes, the last one possibly shorter, for every `fragmentSize` in
`[3, 20]`. -/
theorem sni_bytes_written_in_five_byte_chunks (fc : FragmentedConn) (data : List Nat)
    (hfs3 : 3 ≤ fc.fragmenter.fragmentSize) (hfs20 : fc.fragmenter.fragmentSize ≤ 20)
    (hrel : fc.Conn.reliable) (hpos : 0 < findSNIOffset (data.drop 5))
    (hlt : findSNIOffset (data.drop 5) < ((data.drop 5).length : Int) - 10) :
    ∃ (fc' : FragmentedConn) (sniChunks restChunks : List (List Nat)),
      fc.fragmentAndWrite data = some (((data.length : Int), none), fc') ∧
        fc'.Conn.writes =
          fc.Conn.writes ++ [data.take 5] ++
            [(data.drop 5).take (findSNIOffset (data.drop 5)).toNat] ++ sniChunks ++ restChunks ∧
        sniChunks.flatten =
          ((data.drop 5).drop (findSNIOffset (data.drop 5)).toNat).take 30 ∧
        chunkedBy 5 sniChunks ∧
        restChunks.flatten =
          ((data.drop 5).drop (findSNIOffset (data.drop 5)).toNat).drop 30 := by
  have hlen := findSNIOffset_pos_length _ hpos
  rw [List.length_drop] at hlen
  unfold FragmentedConn.fragmentAndWrite
  have hsmall : ¬ ((data.length : Int) ≤ fc.fragmenter.fragmentSize) := by omega
  have hbig : data.length > 5 := by omega
  simp only [if_neg hsmall, if_pos hbig]
  rw [NetConn.Write_reliable _ hrel]
  simp only
  obtain ⟨fc', sniChunks, restChunks, hrun, hw, hfl1, hch, hfl2⟩ :=
    writePayload_sni fc (by omega) (data.drop 5)
      { conn := { fc.Conn with writes := fc.Conn.writes ++ [data.take 5] },
        totalWritten := 0 + ((data.take 5).length : Int), fragmentCount := 1 } hrel rfl hpos hlt
  refine ⟨fc', sniChunks, restChunks, ?_, hw, hfl1, hch, hfl2⟩
  rw [hrun]
  simp only [List.length_take, List.length_drop, Option.some.injEq, Prod.mk.injEq, and_true]
  omega

/-- Claim C27, amended, at the 77-byte record `sampleClientHello` and fragment size 3. -/
theorem sni_bytes_written_in_five_byte_chunks_witness :
    ∃ (fc' : FragmentedConn) (sniChunks restChunks : List (List Nat)),
      smallFragmentConn.fragmentAndWrite sampleClientHello =
          some (((sampleClientHello.length : Int), none), fc') ∧
        fc'.Conn.writes =
          smallFragmentConn.Conn.writes ++ [sampleClientHello.take 5] ++
            [(sampleClientHello.drop 5).take (findSNIOffset (sampleClientHello.drop 5)).toNat] ++
            sniChunks ++ restChunks ∧
        sniChunks.flatten =
          ((sampleClientHello.drop 5).drop
            (findSNIOffset (sampleClientHello.drop 5)).toNat).take 30 ∧
        chunkedBy 5 sniChunks ∧
        restChunks.flatten =
          ((sampleClientHello.drop 5).drop
            (findSNIOffset (sampleClientHello.drop 5)).toNat).drop 30 :=
  sni_bytes_written_in_five_byte_chunks smallFragmentConn sampleClientHello (by decide)
    (by decide) (fun _ _ => rfl) (by decide) (by decide)

/-- Claim C27 fails as stated: with fragment size 3 the 77-byte record
`sampleClientHello` takes the SNI branch (offset 20 in a payload of 72 bytes) and
is written as the 5-byte header, the 20 bytes before the offset, six chunks of 5
bytes for the 30 bytes that follow, and the rest in chunks of 12 and 10 bytes:
the chunks after the pre-SNI segment are 5 bytes long, not 3. -/
theorem sni_chunks_with_fragment_size_three_counterexample :
    smallFragmentConn.fragmenter.fragmentSize = 3 ∧
      findSNIOffset (sampleClientHello.drop 5) = 20 ∧
      (sampleClientHello.drop 5).length = 72 ∧
      (smallFragmentConn.fragmentAndWrite sampleClientHello).map
          (fun r => r.2.Conn.writes.map List.length) =
        some [5, 20, 5, 5, 5, 5, 5, 5, 12, 10] := by
  decide

/-! ## Theorems: the proxy checkers -/

theorem toString_IranOptimizedPort : toString IranOptimizedPort = "443" := by decide

/-- In Iran mode the loop body of `ReadProxyFile` appends the trimmed line exactly
when the filter of claim C19 keeps it. -/
theorem readProxyLine_iran (pc : ProxyChecker) (hiran : pc.iranMode = true)
    (toLower : String → String) (proxies : List String) (text : String) :
    pc.readProxyLine toLower proxies text =
      if specIranKeeps toLower (stringsTrimSpace text) = true then
        proxies ++ [stringsTrimSpace text]
      else proxies := by
  unfold ProxyChecker.readProxyLine specIranKeeps ispWhitelisted
  rw [toString_IranOptimizedPort]
  simp only [hiran, true_and]
  generalize stringsTrimSpace text = line
  generalize stringsTrimSpace ((stringsSplitComma line).getD 1 "") = port
  generalize (IranOptimizedISPs.any fun goodISP =>
    stringsContains
      (toLower (if (stringsSplitComma line).length ≥ 4 then
        stringsTrimSpace ((stringsSplitComma line).getD 3 "") else "Unknown"))
      (toLower goodISP)) = ok
  generalize (stringsSplitComma line).length = n
  generalize stringsHasPrefix line "#" = hasHash
  by_cases h1 : line = "" <;> by_cases h3 : n < 2 <;> by_cases h4 : port = "443" <;>
    cases hasHash <;> cases ok <;>
    simp [h1, h3, h4, show (2 ≤ n) = ¬ (n < 2) from propext not_lt.symm]

theorem ReadProxyFile_foldl (pc : ProxyChecker) (hiran : pc.iranMode = true)
    (toLower : String → String) (lines : List String) :
    ∀ acc : List String,
      lines.foldl (pc.readProxyLine toLower) acc =
        acc ++ (lines.map stringsTrimSpace).filter (specIranKeeps toLower) := by
  induction lines with
  | nil => intro acc; simp
  | cons text rest ih =>
    intro acc
    rw [List.foldl_cons, ih, readProxyLine_iran pc hiran, List.map_cons, List.filter_cons]
    split_ifs <;> simp

set_option maxRecDepth 100000 in
theorem ReadProxyFile_test_lines :
    testProxyChecker.ReadProxyFile asciiToLower testProxyLines =
      ["1.1.1.1,443,US,Cloudflare", "8.8.8.8,443,US,Google"] := by
  decide

set_option maxRecDepth 100000 in
theorem ReadProxyFile_port_eighty :
    testProxyChecker.ReadProxyFile asciiToLower ["9.9.9.9,80,US,Google"] = [] := by
  decide

/-- Claim C19: with Iran mode on, `ReadProxyFile`, seen as a function of the file's
lines, returns in file order exactly the trimmed lines that are non-empty, do not
start with `#`, have at least two comma-separated fields, whose second field
trimmed equals "443", and whose fourth field (taken as "Unknown" when absent)
contains, ignoring case, some entry of `IranOptimizedISPs`; the line
`9.9.9.9,80,US,Google` is dropped and of the four lines of `TestReadProxyFile`
exactly the Cloudflare and Google ones are returned. -/
theorem read_proxy_file_iran_filter (pc : ProxyChecker) (hiran : pc.iranMode = true)
    (toLower : String → String) (lines : List String) :
    pc.ReadProxyFile toLower lines =
        (lines.map stringsTrimSpace).filter (specIranKeeps toLower) ∧
      testProxyChecker.ReadProxyFile asciiToLower ["9.9.9.9,80,US,Google"] = [] ∧
      testProxyChecker.ReadProxyFile asciiToLower testProxyLines =
        ["1.1.1.1,443,US,Cloudflare", "8.8.8.8,443,US,Google"] := by
  refine ⟨?_, ReadProxyFile_port_eighty, ReadProxyFile_test_lines⟩
  unfold ProxyChecker.ReadProxyFile
  rw [ReadProxyFile_foldl pc hiran toLower lines []]
  rfl

/-- Claim C19 at the four lines of `TestReadProxyFile`. -/
theorem read_proxy_file_iran_filter_witness :
    testProxyChecker.ReadProxyFile asciiToLower testProxyLines =
      (testProxyLines.map stringsTrimSpace).filter (specIranKeeps asciiToLower) :=
  (read_proxy_file_iran_filter testProxyChecker rfl asciiToLower testProxyLines).1

theorem CheckProxyAdvanced_recorded {α : Type} [LinearOrderedField α]
    (epc : EnhancedProxyChecker) (toLower : String → String) (proxyLine : String)
    (testResult : ProxyTestResult α) (info : ProxyInfo)
    (h : epc.CheckProxyAdvanced toLower proxyLine (Except.ok testResult) = some info) :
    info.HealthScore = testResult.HealthScore ∧
      info.ISP = (if (stringsSplitComma proxyLine).length ≥ 4 then
        stringsTrimSpace ((stringsSplitComma proxyLine).getD 3 "") else "Unknown") ∧
      info.IranOptimized =
        (if epc.ProxyChecker.iranMode = true then
          (if testResult.HealthScore ≥ HealthScoreThreshold ∧
              decide (testResult.SuccessCount ≥ 3) = true then true
            else ispWhitelisted toLower
              (if (stringsSplitComma proxyLine).length ≥ 4 then
                stringsTrimSpace ((stringsSplitComma proxyLine).getD 3 "") else "Unknown"))
        else false) := by
  unfold EnhancedProxyChecker.CheckProxyAdvanced at h
  simp only at h
  by_cases h1 : (stringsSplitComma proxyLine).length < 2
  · rw [if_pos h1] at h
    exact absurd h (by simp)
  · rw [if_neg h1] at h
    by_cases h2 : testResult.SuccessRate < 1 / 2
    · rw [if_pos h2] at h
      exact absurd h (by simp)
    · rw [if_neg h2] at h
      split at h
      · exact absurd h (by simp)
      · simp only [Option.some.injEq] at h
        subst h
        exact ⟨rfl, rfl, rfl⟩

/-- Claim C20, amended: for every endpoint that
`EnhancedProxyChecker.CheckProxyAdvanced` records as active, `IranOptimized` is
true if and only if Iran mode is on and either the endpoint's provider (ISP)
matches the approved-provider list, or its health score is at least
`HealthScoreThreshold` (70) and at least 3 test attempts succeeded. -/
theorem iran_optimized_iff_whitelisted_or_healthy {α : Type} [LinearOrderedField α]
    (epc : EnhancedProxyChecker) (toLower : String → String) (proxyLine : String)
    (testResult : ProxyTestResult α) (info : ProxyInfo)
    (h : epc.CheckProxyAdvanced toLower proxyLine (Except.ok testResult) = some info) :
    info.IranOptimized = true ↔
      (epc.ProxyChecker.iranMode = true ∧
        (ispWhitelisted toLower info.ISP = true ∨
          (70 ≤ info.HealthScore ∧ 3 ≤ testResult.SuccessCount))) := by
  obtain ⟨hh, hisp, hopt⟩ := CheckProxyAdvanced_recorded epc toLower proxyLine testResult info h
  rw [hopt, hh, hisp]
  unfold HealthScoreThreshold
  generalize (if (stringsSplitComma proxyLine).length ≥ 4 then
    stringsTrimSpace ((stringsSplitComma proxyLine).getD 3 "") else "Unknown") = isp
  by_cases hi : epc.ProxyChecker.iranMode = true
  · simp only [hi, if_true, true_and, ge_iff_le, decide_eq_true_eq]
    by_cases hc : 70 ≤ testResult.HealthScore ∧ 3 ≤ testResult.SuccessCount
    · simp [hc]
    · rw [if_neg hc]
      constructor
      · intro hw; exact Or.inl hw
      · rintro (hw | hc2)
        · exact hw
        · exact absurd hc2 hc
  · simp [hi]

theorem hetzner_recorded :
    iranEnhancedChecker.CheckProxyAdvanced asciiToLower "5.6.7.8,443,DE,Hetzner"
        (Except.ok hetznerTestResult) =
      some hetznerInfo := by
  have hparts : stringsSplitComma "5.6.7.8,443,DE,Hetzner" = ["5.6.7.8", "443", "DE", "Hetzner"] := by
    decide
  have hw : ispWhitelisted asciiToLower "Hetzner" = true := by decide
  have ht0 : stringsTrimSpace "5.6.7.8" = "5.6.7.8" := by decide
  have ht1 : stringsTrimSpace "443" = "443" := by decide
  have ht2 : stringsTrimSpace "DE" = "DE" := by decide
  have ht3 : stringsTrimSpace "Hetzner" = "Hetzner" := by decide
  unfold EnhancedProxyChecker.CheckProxyAdvanced
  simp only [hparts, List.length_cons, List.length_nil, List.getD_cons_zero, List.getD_cons_succ,
    ht0, ht1, ht2, ht3, hetznerTestResult, iranEnhancedChecker, HealthScoreThreshold,
    hetznerInfo]
  norm_num
  exact hw

/-- Claim C20, amended, at the specification's Hetzner line. -/
theorem iran_optimized_iff_whitelisted_or_healthy_witness :
    hetznerInfo.IranOptimized = true ↔
      (iranEnhancedChecker.ProxyChecker.iranMode = true ∧
        (ispWhitelisted asciiToLower hetznerInfo.ISP = true ∨
          (70 ≤ hetznerInfo.HealthScore ∧ 3 ≤ hetznerTestResult.SuccessCount))) :=
  iran_optimized_iff_whitelisted_or_healthy iranEnhancedChecker asciiToLower
    "5.6.7.8,443,DE,Hetzner" hetznerTestResult hetznerInfo hetzner_recorded

/-- Claim C20 fails as stated: in Iran mode the line `5.6.7.8,443,DE,Hetzner`, tested
with three successes out of five and a health score of 50, is recorded as active
with `IranOptimized = true` although its health score is below 70: a provider
on the approved list is enough. -/
theorem hetzner_below_threshold_counterexample :
    ∃ info : ProxyInfo,
      iranEnhancedChecker.CheckProxyAdvanced asciiToLower "5.6.7.8,443,DE,Hetzner"
          (Except.ok hetznerTestResult) = some info ∧
        info.ISP = "Hetzner" ∧ info.HealthScore < HealthScoreThreshold ∧
        info.IranOptimized = true :=
  ⟨_, hetzner_recorded, rfl, by decide, rfl⟩

/-! ## Theorems: the config tester and the sorts -/

section ExchangeSort

variable {τ : Type}

theorem foldl_range'_invariant {σ : Type} (P : Nat → σ → Prop) (f : σ → Nat → σ) :
    ∀ (m s : Nat) (a : σ), P s a →
      (∀ j b, s ≤ j → j < s + m → P j b → P (j + 1) (f b j)) →
      P (s + m) ((List.range' s m).foldl f a) := by
  intro m
  induction m with
  | zero => intro s a h _; simpa using h
  | succ m ih =>
    intro s a h hstep
    rw [List.range'_succ, List.foldl_cons]
    have := ih (s + 1) (f a s) (hstep s a (le_refl _) (by omega) h)
      (fun j b hj1 hj2 hP => hstep j b (by omega) (by omega) hP)
    rwa [show s + 1 + m = s + (m + 1) by omega] at this

theorem set_perm_cons (t : List τ) :
    ∀ (j : Nat) (h y : τ), t[j]? = some y → (y :: t.set j h).Perm (h :: t) := by
  induction t with
  | nil => intro j h y hy; simp at hy
  | cons z t ih =>
    intro j h y hy
    cases j with
    | zero =>
      simp only [List.getElem?_cons_zero, Option.some.injEq] at hy
      subst hy
      rw [List.set_cons_zero]
      exact List.Perm.swap _ _ _
    | succ j =>
      rw [List.getElem?_cons_succ] at hy
      rw [List.set_cons_succ]
      exact (List.Perm.swap _ _ _).trans (((ih j h y hy).cons z).trans (List.Perm.swap _ _ _))

theorem swap_perm (a : List τ) :
    ∀ (i j : Nat) (x y : τ), i < j → a[i]? = some x → a[j]? = some y →
      ((a.set i y).set j x).Perm a := by
  induction a with
  | nil => intro i j x y _ hx; simp at hx
  | cons h t ih =>
    intro i j x y hij hx hy
    cases j with
    | zero => omega
    | succ j =>
      rw [List.getElem?_cons_succ] at hy
      cases i with
      | zero =>
        simp only [List.getElem?_cons_zero, Option.some.injEq] at hx
        subst hx
        rw [List.set_cons_zero, List.set_cons_succ]
        exact set_perm_cons t j h y hy
      | succ i =>
        rw [List.getElem?_cons_succ] at hx
        rw [List.set_cons_succ, List.set_cons_succ]
        exact (ih i j x y (by omega) hx hy).cons h

theorem compareSwap_length (o : τ → τ → Bool) (a : List τ) (i j : Nat) :
    (compareSwap o a i j).length = a.length := by
  unfold compareSwap
  split
  · split_ifs
    · simp
    · rfl
  · rfl

theorem compareSwap_perm (o : τ → τ → Bool) (a : List τ) (i j : Nat) (hij : i < j) :
    (compareSwap o a i j).Perm a := by
  unfold compareSwap
  split
  · next x y hx hy =>
    split_ifs
    · exact swap_perm a i j x y hij hx hy
    · exact List.Perm.refl _
  · exact List.Perm.refl _

/-- What `compareSwap` leaves at each position. -/
theorem compareSwap_getElem? (o : τ → τ → Bool) (a : List τ) (i j : Nat) (x y : τ)
    (hij : i < j) (hx : a[i]? = some x) (hy : a[j]? = some y) (k : Nat) :
    (compareSwap o a i j)[k]? =
      if o x y = true then (if k = j then some x else if k = i then some y else a[k]?)
      else a[k]? := by
  have hj : j < a.length := by
    by_contra hc
    rw [List.getElem?_eq_none (by omega)] at hy
    exact absurd hy (by simp)
  have hi : i < a.length := by omega
  unfold compareSwap
  rw [hx, hy]
  simp only
  split_ifs with ho hkj hki
  · subst hkj
    rw [List.getElem?_set, if_pos rfl, if_pos (by rw [List.length_set]; exact hj)]
  · subst hki
    rw [List.getElem?_set, if_neg (by omega), List.getElem?_set, if_pos rfl, if_pos hi]
  · rw [List.getElem?_set, if_neg (fun h => hkj h.symm), List.getElem?_set,
      if_neg (fun h => hki h.symm)]
  · rfl

end ExchangeSort

section ExchangeSortOrder

variable {τ : Type}

theorem compareSwap_step (o : τ → τ → Bool) (key : τ → Int)
    (ho : ∀ x y, o x y = true ↔ key x > key y) (a : List τ) (i j : Nat)
    (hij : i < j) (hj : j < a.length)
    (h1 : ∀ p q, p < i → p < q → orderedAt key a p q)
    (h2 : ∀ q, i < q → q < j → orderedAt key a i q) :
    (∀ p q, p < i → p < q → orderedAt key (compareSwap o a i j) p q) ∧
      (∀ q, i < q → q < j + 1 → orderedAt key (compareSwap o a i j) i q) := by
  have hi : i < a.length := by omega
  have hx : a[i]? = some a[i] := List.getElem?_eq_getElem hi
  have hy : a[j]? = some a[j] := List.getElem?_eq_getElem hj
  have hget := compareSwap_getElem? o a i j a[i] a[j] hij hx hy
  by_cases hswap : o a[i] a[j] = true
  · have hgt : key a[i] > key a[j] := (ho _ _).mp hswap
    replace hget : ∀ k, (compareSwap o a i j)[k]? =
        if k = j then some a[i] else if k = i then some a[j] else a[k]? :=
      fun k => by rw [hget k, if_pos hswap]
    constructor
    · intro p q hp hpq u v hu hv
      rw [hget, if_neg (by omega), if_neg (by omega)] at hu
      rw [hget] at hv
      split_ifs at hv with hqj hqi
      · exact h1 p i hp (by omega) u v hu (by rw [hx, hv])
      · exact h1 p j hp (by omega) u v hu (by rw [hy, hv])
      · exact h1 p q hp hpq u v hu hv
    · intro q hiq hqj u v hu hv
      rw [hget, if_neg (by omega), if_pos rfl, Option.some.injEq] at hu
      rw [hget] at hv
      subst hu
      split_ifs at hv with hqj2 hqi
      · rw [Option.some.injEq] at hv
        subst hv
        omega
      · omega
      · have := h2 q hiq (by omega) a[i] v hx hv
        omega
  · have hle : key a[i] ≤ key a[j] := by
      by_contra hc
      exact hswap ((ho _ _).mpr (by omega))
    replace hget : ∀ k, (compareSwap o a i j)[k]? = a[k]? :=
      fun k => by rw [hget k, if_neg hswap]
    constructor
    · intro p q hp hpq u v hu hv
      rw [hget] at hu hv
      exact h1 p q hp hpq u v hu hv
    · intro q hiq hqj u v hu hv
      rw [hget] at hu hv
      by_cases hq : q = j
      · subst hq
        rw [hx] at hu
        rw [hy] at hv
        rw [Option.some.injEq] at hu hv
        subst hu hv
        exact hle
      · exact h2 q hiq (by omega) u v hu hv

/-- The inner loop at position `i`: afterwards the element at `i` is in order with
every later one, and the order of the earlier positions is kept. -/
theorem innerLoop_spec (o : τ → τ → Bool) (key : τ → Int)
    (ho : ∀ x y, o x y = true ↔ key x > key y) (a : List τ) (i : Nat) (hi : i < a.length)
    (h1 : ∀ p q, p < i → p < q → orderedAt key a p q) :
    ((List.range' (i + 1) (a.length - (i + 1))).foldl
        (fun (a : List τ) (j : Nat) => compareSwap o a i j) a).length = a.length ∧
      ((List.range' (i + 1) (a.length - (i + 1))).foldl
        (fun (a : List τ) (j : Nat) => compareSwap o a i j) a).Perm a ∧
      ∀ p q, p < i + 1 → p < q →
        orderedAt key ((List.range' (i + 1) (a.length - (i + 1))).foldl
          (fun (a : List τ) (j : Nat) => compareSwap o a i j) a) p q := by
  have hinv := foldl_range'_invariant
    (fun (j : Nat) (b : List τ) => b.length = a.length ∧ b.Perm a ∧
      (∀ p q, p < i → p < q → orderedAt key b p q) ∧
      (∀ q, i < q → q < j → orderedAt key b i q))
    (fun (a : List τ) (j : Nat) => compareSwap o a i j)
    (a.length - (i + 1)) (i + 1) a
    ⟨rfl, List.Perm.refl _, h1, fun q hq1 hq2 => by omega⟩
    (by
      intro j b hj1 hj2 ⟨hlen, hperm, hb1, hb2⟩
      have hstep := compareSwap_step o key ho b i j (by omega) (by omega) hb1 hb2
      exact ⟨by rw [compareSwap_length, hlen],
        (compareSwap_perm o b i j (by omega)).trans hperm, hstep.1, hstep.2⟩)
  obtain ⟨hlen, hperm, hr1, hr2⟩ := hinv
  refine ⟨hlen, hperm, ?_⟩
  intro p q hp hpq
  by_cases hpi : p < i
  · exact hr1 p q hpi hpq
  · have hpe : p = i := by omega
    subst hpe
    by_cases hq : q < a.length
    · exact hr2 q hpq (by omega)
    · intro u v _ hv
      rw [List.getElem?_eq_none (by rw [hlen]; omega)] at hv
      exact absurd hv (by simp)

theorem exchangeSort_spec (o : τ → τ → Bool) (key : τ → Int)
    (ho : ∀ x y, o x y = true ↔ key x > key y) (a : List τ) :
    (exchangeSort o a).Perm a ∧
      (exchangeSort o a).Pairwise (fun x y => key x ≤ key y) := by
  unfold exchangeSort
  rw [List.range_eq_range']
  have hinv := foldl_range'_invariant
    (fun (i : Nat) (b : List τ) => b.length = a.length ∧ b.Perm a ∧
      (∀ p q, p < i → p < q → orderedAt key b p q))
    (fun (a : List τ) (i : Nat) =>
      (List.range' (i + 1) (a.length - (i + 1))).foldl
        (fun (a : List τ) (j : Nat) => compareSwap o a i j) a)
    a.length 0 a
    ⟨rfl, List.Perm.refl _, fun p q hp _ => by omega⟩
    (by
      intro i b _ hi ⟨hlen, hperm, hb⟩
      obtain ⟨hl2, hp2, ho2⟩ := innerLoop_spec o key ho b i (by omega) hb
      exact ⟨hl2.trans hlen, hp2.trans hperm, ho2⟩)
  obtain ⟨hlen, hperm, hord⟩ := hinv
  refine ⟨hperm, ?_⟩
  rw [List.pairwise_iff_getElem]
  intro p q hp hq hpq
  exact hord p q (by omega) hpq _ _ (List.getElem?_eq_getElem hp) (List.getElem?_eq_getElem hq)

end ExchangeSortOrder

/-- Claim C29: `GetConfigsByScore` returns a permutation of the generator's
configs ordered by non-increasing `HealthScore` and leaves the generator
unchanged; `SortByHealthScore` and `SortByLatency` return a permutation of the
passed configs ordered by non-increasing `HealthScore` and by non-decreasing
`AvgLatency` respectively. -/
theorem sorts_return_ordered_permutations {α : Type} [LinearOrderedField α]
    (cg : ConfigGenerator) (ct : ConfigTester α) :
    (cg.GetConfigsByScore.1.Perm cg.configs ∧
        cg.GetConfigsByScore.1.Pairwise (fun x y => x.HealthScore ≥ y.HealthScore) ∧
        cg.GetConfigsByScore.2 = cg) ∧
      (ct.SortByHealthScore.Perm ct.GetPassedConfigs ∧
        ct.SortByHealthScore.Pairwise
          (fun x y => x.Config.HealthScore ≥ y.Config.HealthScore)) ∧
      (ct.SortByLatency.Perm ct.GetPassedConfigs ∧
        ct.SortByLatency.Pairwise (fun x y => x.AvgLatency ≤ y.AvgLatency)) := by
  refine ⟨⟨?_, ?_, rfl⟩, ⟨?_, ?_⟩, ⟨?_, ?_⟩⟩
  · exact (exchangeSort_spec _ (fun (x : Config) => -x.HealthScore)
      (by intro x y; simp) cg.configs).1
  · have h := (exchangeSort_spec (fun (x y : Config) => decide (x.HealthScore < y.HealthScore))
      (fun (x : Config) => -x.HealthScore) (by intro x y; simp) cg.configs).2
    exact h.imp (fun hxy => by omega)
  · exact (exchangeSort_spec _ (fun (x : TestedConfig α) => -x.Config.HealthScore)
      (by intro x y; simp) ct.GetPassedConfigs).1
  · have h := (exchangeSort_spec
      (fun (x y : TestedConfig α) => decide (x.Config.HealthScore < y.Config.HealthScore))
      (fun (x : TestedConfig α) => -x.Config.HealthScore) (by intro x y; simp)
      ct.GetPassedConfigs).2
    exact h.imp (fun hxy => by omega)
  · exact (exchangeSort_spec _ (fun (x : TestedConfig α) => x.AvgLatency)
      (by intro x y; simp) ct.GetPassedConfigs).1
  · exact (exchangeSort_spec
      (fun (x y : TestedConfig α) => decide (x.AvgLatency > y.AvgLatency))
      (fun (x : TestedConfig α) => x.AvgLatency) (by intro x y; simp) ct.GetPassedConfigs).2

section TesterLemmas

variable {α : Type} [LinearOrderedField α]

theorem simulateProxyTest_nonpositive (config : Config) (d : ProbeDraws α)
    (h : config.HealthScore ≤ 0) (hd : d.valid) : (simulateProxyTest config d).1 = false := by
  obtain ⟨hf0, _, _, _, hs0, _⟩ := hd
  unfold simulateProxyTest
  simp only [decide_eq_false_iff_not, not_lt]
  have hbase : ((config.HealthScore : Int) : α) / 100 ≤ 0 := by
    apply div_nonpos_of_nonpos_of_nonneg
    · exact_mod_cast h
    · norm_num
  have hfac : (0 : α) ≤ 8 / 10 + d.randomFactor * (4 / 10) := by
    have : (0 : α) ≤ d.randomFactor * (4 / 10) := mul_nonneg hf0 (by norm_num)
    linarith
  have := mul_nonpos_of_nonpos_of_nonneg hbase hfac
  linarith

theorem testEndpoint_nonpositive (config : Config) (d : ProbeDraws α)
    (h : config.HealthScore ≤ 0) (hd : d.valid) : testEndpoint config d = (false, d.elapsed) := by
  have hs := simulateProxyTest_nonpositive config d h hd
  unfold testEndpoint
  rcases hsim : simulateProxyTest config d with ⟨success, latency⟩
  rw [hsim] at hs
  simp only at hs
  subst hs
  rfl

theorem probes_nonpositive (config : Config) (draws : Nat → ProbeDraws α)
    (h : config.HealthScore ≤ 0) (hd : ∀ k, (draws k).valid) (l : List Nat)
    (acc : Int × List Int) :
    l.foldl
      (fun (acc : Int × List Int) (k : Nat) =>
        let (success, latency) := testEndpoint config (draws k)
        if success then (acc.1 + 1, acc.2 ++ [latency]) else acc)
      acc = acc := by
  induction l generalizing acc with
  | nil => rfl
  | cons k l ih =>
    rw [List.foldl_cons, testEndpoint_nonpositive config (draws k) h (hd k)]
    exact ih acc

/-- A config with a health score of 0 or less is appended with success rate 0 and
`Passed = false`. -/
theorem testConfig_nonpositive (ct : ConfigTester α) (draws : Nat → ProbeDraws α) (idx : Nat)
    (config : Config) (h : config.HealthScore ≤ 0) (hd : ∀ k, (draws k).valid) :
    ct.testConfig draws idx config =
      { ct with testedConfigs :=
          ct.testedConfigs ++
            [{ Config := config, Passed := false, Latency := 0, AvgLatency := 0,
               SuccessRate := 0 }] } := by
  unfold ConfigTester.testConfig
  simp only [probes_nonpositive config draws h hd]
  simp

end TesterLemmas

theorem filter_cons_length (p : TaskPhase → Bool) (y : TaskPhase) (l : List TaskPhase) :
    ((y :: l).filter p).length = (if p y = true then 1 else 0) + (l.filter p).length := by
  cases hpy : p y
  · simp [List.filter_cons, hpy]
  · simp [List.filter_cons, hpy]
    omega

theorem filter_set_length_le (p : TaskPhase → Bool) (l : List TaskPhase) :
    ∀ (i : Nat) (x : TaskPhase),
      ((l.set i x).filter p).length ≤ (l.filter p).length + 1 ∧
        (p x = false → ((l.set i x).filter p).length ≤ (l.filter p).length) := by
  induction l with
  | nil => intro i x; simp
  | cons y l ih =>
    intro i x
    cases i with
    | zero =>
      rw [List.set_cons_zero, filter_cons_length, filter_cons_length]
      constructor
      · split_ifs <;> omega
      · intro hx
        rw [hx]
        simp only [Bool.false_eq_true, if_false]
        split_ifs <;> omega
    | succ i =>
      rw [List.set_cons_succ, filter_cons_length, filter_cons_length]
      obtain ⟨h1, h2⟩ := ih i x
      constructor
      · omega
      · intro hx
        have := h2 hx
        omega

theorem inFlight_replicate_waiting (cap : Int) (n : Nat) :
    ({ maxConcurrent := cap, tasks := List.replicate n TaskPhase.waiting } : Sweep).inFlight = 0 := by
  unfold Sweep.inFlight
  simp only [List.length_eq_zero, List.filter_eq_nil_iff, decide_eq_true_eq]
  intro phase hphase
  rw [List.eq_of_mem_replicate hphase]
  decide

theorem stepTestAllConfigs_bound (s s' : Sweep) (e : SweepEvent)
    (h : (s.inFlight : Int) ≤ s.maxConcurrent) (hstep : s.stepTestAllConfigs e = some s') :
    s'.maxConcurrent = s.maxConcurrent ∧ (s'.inFlight : Int) ≤ s'.maxConcurrent := by
  cases e with
  | send i =>
    simp only [Sweep.stepTestAllConfigs] at hstep
    split_ifs at hstep with hc
    simp only [Option.some.injEq] at hstep
    subst hstep
    refine ⟨rfl, ?_⟩
    have := (filter_set_length_le (fun phase => decide (phase = TaskPhase.running)) s.tasks i
      TaskPhase.running).1
    unfold Sweep.inFlight at hc ⊢
    simp only at hc ⊢
    omega
  | receive i =>
    simp only [Sweep.stepTestAllConfigs] at hstep
    split_ifs at hstep with hc
    simp only [Option.some.injEq] at hstep
    subst hstep
    refine ⟨rfl, ?_⟩
    have := (filter_set_length_le (fun phase => decide (phase = TaskPhase.running)) s.tasks i
      TaskPhase.finished).2 (by decide)
    unfold Sweep.inFlight at h ⊢
    simp only at h ⊢
    omega

theorem stepRun_bound (s s' : Sweep) (e : SweepEvent)
    (h : (s.inFlight : Int) ≤ s.maxConcurrent) (hstep : s.stepRun e = some s') :
    s'.maxConcurrent = s.maxConcurrent ∧ (s'.inFlight : Int) ≤ s'.maxConcurrent := by
  cases e with
  | send i =>
    simp only [Sweep.stepRun] at hstep
    split_ifs at hstep with hc
    simp only [Option.some.injEq] at hstep
    subst hstep
    refine ⟨rfl, ?_⟩
    have := (filter_set_length_le (fun phase => decide (phase = TaskPhase.running)) s.tasks i
      TaskPhase.running).1
    obtain ⟨_, _, hc3⟩ := hc
    unfold Sweep.inFlight at hc3 ⊢
    simp only at hc3 ⊢
    omega
  | receive i =>
    simp only [Sweep.stepRun] at hstep
    split_ifs at hstep with hc
    simp only [Option.some.injEq] at hstep
    subst hstep
    refine ⟨rfl, ?_⟩
    have := (filter_set_length_le (fun phase => decide (phase = TaskPhase.running)) s.tasks i
      TaskPhase.finished).2 (by decide)
    unfold Sweep.inFlight at h ⊢
    simp only at h ⊢
    omega

theorem runEvents_bound (step : Sweep → SweepEvent → Option Sweep)
    (hstep : ∀ (s s' : Sweep) (e : SweepEvent), (s.inFlight : Int) ≤ s.maxConcurrent →
      step s e = some s' →
      s'.maxConcurrent = s.maxConcurrent ∧ (s'.inFlight : Int) ≤ s'.maxConcurrent)
    (events : List SweepEvent) :
    ∀ (s s' : Sweep), (s.inFlight : Int) ≤ s.maxConcurrent →
      Sweep.runEvents step s events = some s' →
      s'.maxConcurrent = s.maxConcurrent ∧ (s'.inFlight : Int) ≤ s'.maxConcurrent := by
  induction events with
  | nil =>
    intro s s' h hrun
    simp only [Sweep.runEvents, Option.some.injEq] at hrun
    subst hrun
    exact ⟨rfl, h⟩
  | cons e rest ih =>
    intro s s' h hrun
    simp only [Sweep.runEvents] at hrun
    cases hs : step s e with
    | none => rw [hs] at hrun; exact absurd hrun (by simp)
    | some s1 =>
      rw [hs] at hrun
      obtain ⟨hm, hb⟩ := hstep s s1 e h hs
      obtain ⟨hm2, hb2⟩ := ih s1 s' hb hrun
      exact ⟨hm2.trans hm, hb2⟩

theorem start_bound (maxConcurrent : Int) (n : Nat) (s0 : Sweep)
    (hstart : Sweep.start maxConcurrent n = some s0) :
    s0.maxConcurrent = maxConcurrent ∧ (s0.inFlight : Int) ≤ s0.maxConcurrent := by
  unfold Sweep.start at hstart
  split_ifs at hstart with hneg
  simp only [Option.some.injEq] at hstart
  subst hstart
  refine ⟨rfl, ?_⟩
  rw [inFlight_replicate_waiting]
  simp only [Nat.cast_zero]
  omega

/-- Claim C24: at every instant of a sweep, that is in every state that a sequence
of semaphore events reaches from the start of `ProxyChecker.Run` or of
`ConfigTester.TestAllConfigs`, the number of tasks running (`ProcessProxy`,
`testConfig`) is at most `maxConcurrent`. -/
theorem running_tasks_bounded_by_maxConcurrent (maxConcurrent : Int) (n : Nat)
    (events : List SweepEvent) (s0 s : Sweep)
    (hstart : Sweep.start maxConcurrent n = some s0) :
    (Sweep.runEvents Sweep.stepRun s0 events = some s → (s.inFlight : Int) ≤ maxConcurrent) ∧
      (Sweep.runEvents Sweep.stepTestAllConfigs s0 events = some s →
        (s.inFlight : Int) ≤ maxConcurrent) := by
  obtain ⟨hcap, h0⟩ := start_bound maxConcurrent n s0 hstart
  constructor
  · intro hrun
    obtain ⟨hm, hb⟩ := runEvents_bound Sweep.stepRun stepRun_bound events s0 s h0 hrun
    rw [hm, hcap] at hb
    exact hb
  · intro hrun
    obtain ⟨hm, hb⟩ := runEvents_bound Sweep.stepTestAllConfigs stepTestAllConfigs_bound events
      s0 s h0 hrun
    rw [hm, hcap] at hb
    exact hb

/-- Claim C24 at a sweep over two items with `maxConcurrent = 1`, in `Run` and in
`TestAllConfigs`: the events send 0, receive 0, send 1 can happen in this
order and reach the state in which the first task has finished and the second
runs, with one task in flight; while the first task runs, the send of the second
cannot complete. -/
theorem running_tasks_bounded_by_maxConcurrent_witness :
    Sweep.start 1 2 =
        some { maxConcurrent := 1, tasks := [TaskPhase.waiting, TaskPhase.waiting] } ∧
      Sweep.runEvents Sweep.stepRun
          { maxConcurrent := 1, tasks := [TaskPhase.waiting, TaskPhase.waiting] }
          [SweepEvent.send 0, SweepEvent.receive 0, SweepEvent.send 1] =
        some { maxConcurrent := 1, tasks := [TaskPhase.finished, TaskPhase.running] } ∧
      Sweep.runEvents Sweep.stepTestAllConfigs
          { maxConcurrent := 1, tasks := [TaskPhase.waiting, TaskPhase.waiting] }
          [SweepEvent.send 0, SweepEvent.receive 0, SweepEvent.send 1] =
        some { maxConcurrent := 1, tasks := [TaskPhase.finished, TaskPhase.running] } ∧
      (({ maxConcurrent := 1, tasks := [TaskPhase.finished, TaskPhase.running] } :
        Sweep).inFlight : Int) ≤ 1 ∧
      Sweep.runEvents Sweep.stepRun
          { maxConcurrent := 1, tasks := [TaskPhase.waiting, TaskPhase.waiting] }
          [SweepEvent.send 0, SweepEvent.send 1] = none ∧
      Sweep.runEvents Sweep.stepTestAllConfigs
          { maxConcurrent := 1, tasks := [TaskPhase.waiting, TaskPhase.waiting] }
          [SweepEvent.send 0, SweepEvent.send 1] = none :=
  ⟨rfl, rfl, rfl,
    (running_tasks_bounded_by_maxConcurrent 1 2
      [SweepEvent.send 0, SweepEvent.receive 0, SweepEvent.send 1]
      { maxConcurrent := 1, tasks := [TaskPhase.waiting, TaskPhase.waiting] }
      { maxConcurrent := 1, tasks := [TaskPhase.finished, TaskPhase.running] } rfl).1 rfl,
    rfl, rfl⟩

/-- Claim C21, evaluated on the code: a tester in Iran mode that holds one config
with health score 0 returns from `TestAllConfigs` a list with one entry, whose
`Passed` is false, while `GetPassedConfigs` is empty: `TestAllConfigs` returns
`ct.testedConfigs`, the passed and the failed configs alike. -/
theorem test_all_configs_returns_failed_config :
    (((NewConfigTester [blankConfig] 50 true : ConfigTester ℚ).TestAllConfigs
        (fun _ _ => zeroDraws) [0]).1.map (fun tested => tested.Passed) = [false]) ∧
      ((NewConfigTester [blankConfig] 50 true : ConfigTester ℚ).TestAllConfigs
        (fun _ _ => zeroDraws) [0]).2.GetPassedConfigs.length = 0 := by
  have hv : ∀ k : Nat, ((fun (_ : Nat) => (zeroDraws : ProbeDraws ℚ)) k).valid := by
    intro k
    simp [ProbeDraws.valid, zeroDraws]
  have ht := testConfig_nonpositive (NewConfigTester [blankConfig] 50 true : ConfigTester ℚ)
    (fun _ => zeroDraws) 0 blankConfig (le_refl _) hv
  unfold ConfigTester.TestAllConfigs ConfigTester.GetPassedConfigs
  simp only [List.foldl_cons, List.foldl_nil]
  have hcfg : (NewConfigTester [blankConfig] 50 true : ConfigTester ℚ).configs[0]? =
      some blankConfig := rfl
  rw [hcfg]
  simp only [ht]
  simp [NewConfigTester]

theorem enhanced_health_score_zero (src : RandomSource) (proxyInfo : ProxyInfo) (a : AppConfig) :
    ∀ c ∈ ((NewEnhancedConfigGenerator proxyInfo a).GenerateAllConfigs src).configs,
      c.HealthScore = 0 := by
  intro c' hc'
  unfold EnhancedConfigGenerator.GenerateAllConfigs at hc'
  simp only at hc'
  obtain ⟨c, hc, _, hh, _⟩ :=
    forall2_mem_right _ _ _ (applyAIOptimizations_spec src _) c' hc'
  rcases (foldl_generateFor_spec src _ _).2.2 c hc with hnil | ⟨p, _, hb⟩
  · exact absurd hnil (List.not_mem_nil _)
  · exact hh.trans hb.1

/-- Claim C30: for every config whose `HealthScore` is 0 or less, and for every
outcome of the random draws, `simulateProxyTest` reports failure on every
endpoint, and `testConfig` records the config with `SuccessRate = 0` and
`Passed = false`, in Iran mode and in normal mode; every config built by
`EnhancedConfigGenerator` has `HealthScore = 0`. -/
theorem nonpositive_health_score_never_passes {α : Type} [LinearOrderedField α]
    (ct : ConfigTester α) (draws : Nat → ProbeDraws α) (idx : Nat) (config : Config)
    (h : config.HealthScore ≤ 0) (hd : ∀ k, (draws k).valid) :
    (∀ k, (simulateProxyTest config (draws k)).1 = false) ∧
      (ct.testConfig draws idx config).testedConfigs =
        ct.testedConfigs ++
          [{ Config := config, Passed := false, Latency := 0, AvgLatency := 0,
             SuccessRate := 0 }] ∧
      (∀ (src : RandomSource) (proxyInfo : ProxyInfo) (a : AppConfig),
        ∀ c ∈ ((NewEnhancedConfigGenerator proxyInfo a).GenerateAllConfigs src).configs,
          c.HealthScore ≤ 0) := by
  refine ⟨fun k => simulateProxyTest_nonpositive config (draws k) h (hd k), ?_, ?_⟩
  · rw [testConfig_nonpositive ct draws idx config h hd]
  · intro src proxyInfo a c hc
    rw [enhanced_health_score_zero src proxyInfo a c hc]

/-- Claim C30 at the blank config, in normal mode, with all draws zero. -/
theorem nonpositive_health_score_never_passes_witness :
    ((NewConfigTester [blankConfig] 50 false : ConfigTester ℚ).testConfig
        (fun _ => zeroDraws) 0 blankConfig).testedConfigs =
      (NewConfigTester [blankConfig] 50 false : ConfigTester ℚ).testedConfigs ++
        [{ Config := blankConfig, Passed := false, Latency := 0, AvgLatency := 0,
           SuccessRate := 0 }] :=
  (nonpositive_health_score_never_passes
    (NewConfigTester [blankConfig] 50 false : ConfigTester ℚ) (fun _ => zeroDraws) 0 blankConfig
    (le_refl _) (by intro k; simp [ProbeDraws.valid, zeroDraws])).2.1

/-! ## Theorems: labels, Base64 and fingerprints -/

/-- Claim C25, evaluated on the code: `getLatencyEmoji` returns the double bolt at
50 ms, the rabbit at 500 ms and the snail at 1098, 1100, 1500, 1598, 1600 and
2000 ms; `TestGetLatencyEmoji` expects one bolt at 50, 500 and 1098 and the
rabbit at 1100, 1500 and 1598.  The thresholds of the code are 100, 300 and 1000. -/
theorem latency_emoji_at_the_tested_points :
    getLatencyEmoji 50 = "⚡⚡" ∧ getLatencyEmoji 500 = "🐇" ∧ getLatencyEmoji 1098 = "🐌" ∧
      getLatencyEmoji 1100 = "🐌" ∧ getLatencyEmoji 1500 = "🐌" ∧ getLatencyEmoji 1598 = "🐌" ∧
      getLatencyEmoji 1600 = "🐌" ∧ getLatencyEmoji 2000 = "🐌" ∧
      getLatencyEmoji 50 ≠ "⚡" ∧ getLatencyEmoji 1100 ≠ "🐇" := by
  decide

/-- Claim C22, evaluated on the code: `encodeBase64` returns its input unchanged,
so `writeBase64ConfigFile` writes the newline-joined links themselves; for the
single link `a` it writes `a`, whose standard Base64 encoding is `YQ==`. -/
theorem base64_file_holds_plain_text :
    (∀ s : String, encodeBase64 s = s) ∧
      (∀ configs : List String, writeBase64ConfigFile configs = joinLines configs) ∧
      writeBase64ConfigFile ["a"] = "a" ∧ specBase64 [0x61] = "YQ==".data ∧
      (writeBase64ConfigFile ["a"]).data ≠ specBase64 [0x61] :=
  ⟨fun _ => rfl, fun _ => rfl, by decide, by decide, by decide⟩

/-- Claim C23: `FingerprintDatabase` has an entry for each of chrome120,
firefox121, edge120 and safari17, which is exactly the rotation list of
`NewUTLSDialer` in that order; in each entry the cipher list is non-empty and
consists of the three TLS 1.3 AEAD suites (in some order) followed only by ECDHE
suites that do not use CBC, the curve list is non-empty and starts with X25519,
and the ALPN list is `[h2, http/1.1]`. -/
theorem fingerprint_database_entries :
    NewUTLSDialer.availableBrowsers = ["chrome120", "firefox121", "edge120", "safari17"] ∧
      FingerprintDatabase.map (fun entry => entry.1) = NewUTLSDialer.availableBrowsers ∧
      (∀ label ∈ NewUTLSDialer.availableBrowsers, ∃ fp, lookupFingerprint label = some fp ∧
        fp.wellFormed = true) ∧
      (∀ entry ∈ FingerprintDatabase, entry.2.wellFormed = true) := by
  decide

theorem flatMap_flatMap_chars (l : List Char) (f g : Char → List Char) :
    (l.flatMap f).flatMap g = l.flatMap (fun c => (f c).flatMap g) := by
  induction l with
  | nil => rfl
  | cons c l ih => simp [List.flatMap_cons, List.flatMap_append, ih]

theorem encodeBadgeLabel_char (c : Char) :
    ((((([c].flatMap (fun (c : Char) => if c = Char.ofNat 0x20 then "%20".data else [c])).flatMap
      (fun (c : Char) => if c = Char.ofNat 0x3A then "%3A".data else [c])).flatMap
      (fun (c : Char) => if c = Char.ofNat 0x2C then "%2C".data else [c])).flatMap
      (fun (c : Char) => if c = Char.ofNat 0x2B then "%2B".data else [c])).flatMap
      (fun (c : Char) => if c = Char.ofNat 0x28 then "%28".data else [c])).flatMap
      (fun (c : Char) => if c = Char.ofNat 0x29 then "%29".data else [c]) = specEncodeChar c := by
  unfold specEncodeChar
  by_cases h1 : c = Char.ofNat 0x20
  · subst h1; decide
  by_cases h2 : c = Char.ofNat 0x3A
  · subst h2; decide
  by_cases h3 : c = Char.ofNat 0x2C
  · subst h3; decide
  by_cases h4 : c = Char.ofNat 0x2B
  · subst h4; decide
  by_cases h5 : c = Char.ofNat 0x28
  · subst h5; decide
  by_cases h6 : c = Char.ofNat 0x29
  · subst h6; decide
  simp [h1, h2, h3, h4, h5, h6]

theorem specEncodeChar_clean (c : Char) : ∀ d ∈ specEncodeChar c, d ∉ badgeReserved := by
  unfold specEncodeChar
  split_ifs with h1 h2 h3 h4 h5 h6
  · decide
  · decide
  · decide
  · decide
  · decide
  · decide
  · intro d hd
    rw [List.mem_singleton] at hd
    subst hd
    simp [badgeReserved, h1, h2, h3, h4, h5, h6]

theorem encodeBadgeLabel_chars (l : List Char) :
    (((((l.flatMap (fun (c : Char) => if c = Char.ofNat 0x20 then "%20".data else [c])).flatMap
      (fun (c : Char) => if c = Char.ofNat 0x3A then "%3A".data else [c])).flatMap
      (fun (c : Char) => if c = Char.ofNat 0x2C then "%2C".data else [c])).flatMap
      (fun (c : Char) => if c = Char.ofNat 0x2B then "%2B".data else [c])).flatMap
      (fun (c : Char) => if c = Char.ofNat 0x28 then "%28".data else [c])).flatMap
      (fun (c : Char) => if c = Char.ofNat 0x29 then "%29".data else [c]) =
      l.flatMap specEncodeChar := by
  induction l with
  | nil => rfl
  | cons c l ih =>
    have hc := encodeBadgeLabel_char c
    have hr : (c :: l).flatMap specEncodeChar = specEncodeChar c ++ l.flatMap specEncodeChar :=
      List.flatMap_cons _ _ _
    rw [hr, ← hc, ← ih]
    simp only [List.flatMap_cons, List.flatMap_nil, List.append_nil, List.flatMap_append]

/-- Claim C26: for every string `s`, `encodeBadgeLabel s` is `s` with every space,
colon, comma, plus, opening and closing round bracket replaced by `%20`, `%3A`,
`%2C`, `%2B`, `%28` and `%29` respectively, and every other character kept in
place and in order; hence the result contains none of those six characters. -/
theorem encode_badge_label_is_simultaneous_substitution (s : String) :
    encodeBadgeLabel s = String.mk (s.data.flatMap specEncodeChar) ∧
      ∀ d ∈ (encodeBadgeLabel s).data, d ∉ badgeReserved := by
  have h : encodeBadgeLabel s = String.mk (s.data.flatMap specEncodeChar) := by
    unfold encodeBadgeLabel stringsReplaceAllChar
    simp only
    rw [encodeBadgeLabel_chars]
  refine ⟨h, ?_⟩
  rw [h]
  intro d hd
  obtain ⟨c, _, hc⟩ := List.mem_flatMap.mp hd
  exact specEncodeChar_clean c d hc

end IranProxy
